import Mathlib

/-!
# SVC consumer of the mediasoup worker: layer selection

Shallow embedding of `worker/src/RTC/SvcConsumer.cpp`.

Conventions of the embedding.

* `int16_t` values are `Int`; every conversion to `int16_t` that the source performs
  is written `toInt16` (two's complement, modulo 2^16).
* `uint32_t` bitrates and `uint8_t` scores are `Nat`; the source only compares them.
* A pointer that may be null is an `Option`.
* A function that can abort (`MS_ASSERT`) or dereference a null pointer returns an
  `Option`; `none` is that outcome.
* Calls on the listener, on the notifier and on the request are collected, in order,
  in a list of `Effect`s.
-/

namespace RTC

/-! ## Machine integers -/

/-- Conversion to `int16_t`: the value modulo 2^16, taken in `[-32768, 32767]`. -/
def toInt16 (z : Int) : Int := (z + 32768) % 65536 - 32768

/-! ## Data model -/

/-- Media kind of the consumer (`RTC::Media::Kind`). -/
inductive MediaKind where
  | audio
  | video
  deriving DecidableEq, Repr

/-- What the consumer reads from the producer stream (`this->producerRtpStream`).
`bitrate s t` is `GetBitrate(now, s, t)` and `layerBitrate s t` is
`GetLayerBitrate(now, s, t)` at the instant `now = DepLibUV::GetTime()` of the call;
both are declared outside `SvcConsumer.cpp` and are inputs of the embedding. -/
structure RtpStreamRecv where
  /-- Result of `GetScore()`. -/
  score : Nat
  /-- Result of `GetSpatialLayers()`. -/
  spatialLayers : Nat
  /-- Result of `GetTemporalLayers()`. -/
  temporalLayers : Nat
  /-- Result of `GetBitrate(now, spatialLayer, temporalLayer)`. -/
  bitrate : Int → Int → Nat
  /-- Result of `GetLayerBitrate(now, spatialLayer, temporalLayer)`. -/
  layerBitrate : Int → Int → Nat

/-- What the consumer reads from its own send stream (`this->rtpStream`). -/
structure RtpStreamSend where
  /-- Result of `GetSpatialLayers()`. -/
  spatialLayers : Nat
  /-- Result of `GetTemporalLayers()`. -/
  temporalLayers : Nat
  /-- Result of `GetLossPercentage()`, a floating-point number. -/
  lossPercentage : ℚ
  /-- Set by `Pause()`. -/
  paused : Bool

/-- Target and current layers held by `this->encodingContext`. -/
structure EncodingContext where
  targetSpatialLayer : Int
  targetTemporalLayer : Int
  currentSpatialLayer : Int
  currentTemporalLayer : Int

/-- An RTP packet as `SendRtpPacket` reads and writes it (`RTC::RtpPacket`). The
sequence number is a `uint16_t`; `payload` stands for the payload bytes. -/
structure RtpPacket where
  /-- Result of `GetPayloadType()`. -/
  payloadType : Nat
  /-- Result of `IsKeyFrame()`. -/
  keyFrame : Bool
  /-- Result of `GetSequenceNumber()`. -/
  sequenceNumber : Nat
  /-- Result of `GetSsrc()`. -/
  ssrc : Nat
  /-- Result of `GetSpatialLayer()`. -/
  spatialLayer : Int
  /-- Result of `GetTemporalLayer()`. -/
  temporalLayer : Int
  payload : Nat
  deriving DecidableEq, Repr

/-- Modelled from the spec: the class `SeqManager` is not among the sources. Section 2:
it produces a contiguous output sequence-number stream across drops and re-syncs.
Section 3, invariant 3: input gaps propagate as absent numbers, and the drops that the
consumer reports are compacted. Section 8, scenario 1: on a new manager, after
`Sync(99)` the input 100 is sent as 1. The manager sends an input as `input + offset`
modulo 2^16; its state is that offset and the output it produced last. -/
structure SeqManager where
  offset : Nat
  lastOutput : Nat
  deriving DecidableEq, Repr

/-- Modelled from the spec: `SeqManager::Sync(base)`, section 4.1: marks the next input
as the new origin. The input `base + 1` is sent as the number after the last output, so
that the output stays contiguous across the re-sync (section 2). -/
def SeqManager.Sync (m : SeqManager) (base : Nat) : SeqManager :=
  ⟨(m.lastOutput % 65536 + 65536 - base % 65536) % 65536, m.lastOutput⟩

/-- Modelled from the spec: `SeqManager::Input(inSeq, outSeq)`, section 4.1: returns the
mapped output sequence number; an input that never arrives leaves its output number
absent (section 3, invariant 3). -/
def SeqManager.Input (m : SeqManager) (input : Nat) : SeqManager × Nat :=
  (⟨m.offset, (input + m.offset) % 65536⟩, (input + m.offset) % 65536)

/-- Modelled from the spec: `SeqManager::Drop(inSeq)`, section 4.1: the input was
discarded after the payload inspection, no slot is emitted for it and the later inputs
move down by one (section 3, invariant 3). -/
def SeqManager.Drop (m : SeqManager) (_input : Nat) : SeqManager :=
  ⟨(m.offset + 65535) % 65536, m.lastOutput⟩

/-- Mutable state of one `SvcConsumer`. -/
structure SvcConsumer where
  kind : MediaKind
  transportConnected : Bool
  paused : Bool
  producerPaused : Bool
  externallyManagedBitrate : Bool
  preferredSpatialLayer : Int
  preferredTemporalLayer : Int
  provisionalTargetSpatialLayer : Int
  provisionalTargetTemporalLayer : Int
  syncRequired : Bool
  producerRtpStream : Option RtpStreamRecv
  rtpStream : RtpStreamSend
  encodingContext : EncodingContext
  /-- The value `this->consumableRtpEncodings[0].ssrc`. -/
  consumableSsrc : Nat
  /-- The value `this->rtpParameters.encodings[0].ssrc`. -/
  encodingSsrc : Nat
  /-- The set `this->supportedCodecPayloadTypes`. -/
  supportedCodecPayloadTypes : List Nat
  rtpSeqManager : SeqManager
  /-- A `uint64_t` time in milliseconds. -/
  lastRtcpSentTime : Nat
  /-- A `uint16_t` interval in milliseconds. -/
  maxRtcpInterval : Nat

/-- Calls that leave the consumer, in the order in which they are made. -/
inductive Effect where
  /-- The call `request->Accept()`. -/
  | accept
  /-- The call `listener->OnConsumerNeedBitrateChange(this)`. -/
  | needBitrateChange
  /-- The call `listener->OnConsumerKeyFrameRequested(this, mappedSsrc)`. -/
  | keyFrameRequested (mappedSsrc : Nat)
  /-- The call `Channel::Notifier::Emit(id, "layerschange", data)`; `none` is `null`. -/
  | layersChange (data : Option (Int × Int))
  /-- Entry into `MayChangeLayers(force)` (its `MS_TRACE()`). -/
  | mayChangeLayers (force : Bool)
  /-- The call `rtpSeqManager.Sync(base)`. -/
  | seqSync (base : Nat)
  /-- The call `rtpSeqManager.Drop(input)`. -/
  | seqDrop (input : Nat)
  /-- The call `rtpSeqManager.Input(input, output)` with the output it produced. -/
  | seqInput (input output : Nat)
  /-- The call `rtpStream->ReceivePacket(packet)` with the packet as it is passed. -/
  | receivePacket (packet : RtpPacket)
  /-- The call `listener->OnConsumerSendRtpPacket(this, packet)` with the packet as it
  is passed. -/
  | sendRtpPacket (packet : RtpPacket)
  deriving DecidableEq, Repr

/-- Modelled from the spec: `RTC::Consumer::IsActive()` is defined in the base class
`Consumer`, which is not part of `SvcConsumer.cpp`. The spec's glossary: an active
consumer is one that is neither paused by the user nor by the producer and whose
transport is connected. -/
def Consumer.IsActive (c : SvcConsumer) : Bool :=
  c.transportConnected && !c.paused && !c.producerPaused

/-- Modelled from the spec: the unqualified `IsActive()` is declared in
`SvcConsumer.hpp`, which is not part of `SvcConsumer.cpp`. The spec knows a single
notion of active consumer, the one of the glossary. -/
def SvcConsumer.IsActive (c : SvcConsumer) : Bool :=
  Consumer.IsActive c

/-! ## `RecalculateTargetLayers` (lines 921-972) -/

/-- The loop of lines 938-951 with `k` iterations left, at index `idx`, the variable
`newTargetSpatialLayer` holding `newTarget`. Returns `newTargetSpatialLayer` on exit. -/
def recalculateSpatialLoop (p : RtpStreamRecv) (preferredSpatialLayer : Int) :
    Nat → Nat → Int → Int
  | 0, _, newTarget => newTarget
  | k + 1, idx, newTarget =>
    let spatialLayer := toInt16 idx
    if p.bitrate spatialLayer 0 ≠ 0 then
      if spatialLayer ≥ preferredSpatialLayer then spatialLayer
      else recalculateSpatialLoop p preferredSpatialLayer k (idx + 1) spatialLayer
    else recalculateSpatialLoop p preferredSpatialLayer k (idx + 1) newTarget

/-- Lines 953-961: the temporal layer that goes with the chosen spatial layer. -/
def recalculateTemporalLayer (c : SvcConsumer) (newTargetSpatialLayer : Int) : Int :=
  if newTargetSpatialLayer ≠ -1 then
    if newTargetSpatialLayer = c.preferredSpatialLayer then c.preferredTemporalLayer
    else if newTargetSpatialLayer < c.preferredSpatialLayer then
      toInt16 ((c.rtpStream.temporalLayers : Int) - 1)
    else 0
  else -1

/-- The pair `(newTargetSpatialLayer, newTargetTemporalLayer)` at label `done`
(lines 926-963). -/
def recalculatedLayers (c : SvcConsumer) : Int × Int :=
  match c.producerRtpStream with
  | none => (-1, -1)
  | some p =>
    if p.score = 0 then (-1, -1)
    else
      let newTargetSpatialLayer :=
        recalculateSpatialLoop p c.preferredSpatialLayer p.spatialLayers 0 (-1)
      (newTargetSpatialLayer, recalculateTemporalLayer c newTargetSpatialLayer)

/-- `SvcConsumer::RecalculateTargetLayers`: the returned flag (lines 967-970) and the
two output parameters. -/
def RecalculateTargetLayers (c : SvcConsumer) : Bool × Int × Int :=
  let new := recalculatedLayers c
  (decide (new.1 ≠ c.encodingContext.targetSpatialLayer ∨
      new.2 ≠ c.encodingContext.targetTemporalLayer), new.1, new.2)

/-! ## Virtual bitrate (lines 338-349 and 457-468) -/

/-- The two floating-point computations of lines 345 and 347 (repeated at lines 464
and 466), each with the conversion of its result to `uint32_t`. Floating-point
rounding is not embedded: both computations are inputs, and every statement below
holds whatever they return. -/
structure FloatArith where
  /-- The value `uint32_t(1.08 * bitrate)`. -/
  inflate : Nat → Nat
  /-- The value `uint32_t((1 - 0.5 * (lossPercentage / 100)) * bitrate)`. -/
  deflate : ℚ → Nat → Nat

/-- The variable `virtualBitrate` after lines 344-349. -/
def virtualBitrate (fa : FloatArith) (lossPercentage : ℚ) (bitrate : Nat) : Nat :=
  if lossPercentage < 2 then fa.inflate bitrate
  else if lossPercentage > 10 then fa.deflate lossPercentage bitrate
  else bitrate

/-- Lines 429-434 and, with `requiredBitrate` for `usedBitrate`, lines 523-528. -/
def recomputeUsedBitrate (usedBitrate bitrate virtualBitrate : Nat) : Nat :=
  if usedBitrate ≤ bitrate then usedBitrate
  else if usedBitrate ≤ virtualBitrate then bitrate
  else usedBitrate

/-! ## `UseAvailableBitrate` (lines 329-435) -/

/-- The variables written by the two loops of `UseAvailableBitrate`. -/
structure Provisional where
  spatialLayer : Int
  temporalLayer : Int
  usedBitrate : Nat
  deriving DecidableEq, Repr

/-- The inner loop of lines 369-405 for the row `spatialLayer`, with `k` iterations
left and the counter `temporalLayer` at `t`. The flag tells whether the loop was left
through `goto done`. -/
def useTemporalLoop (p : RtpStreamRecv) (preferredSpatialLayer preferredTemporalLayer : Int)
    (virtualBitrate : Nat) (spatialLayer : Int) : Nat → Nat → Provisional → Provisional × Bool
  | 0, _, w => (w, false)
  | k + 1, t, w =>
    let temporalLayer := toInt16 t
    let requiredBitrate := p.bitrate spatialLayer temporalLayer
    if requiredBitrate = 0 then (w, true)
    else if requiredBitrate > virtualBitrate then (w, true)
    else
      let w1 : Provisional := ⟨spatialLayer, temporalLayer, requiredBitrate⟩
      if spatialLayer = preferredSpatialLayer ∧ temporalLayer = preferredTemporalLayer then
        (w1, true)
      else
        useTemporalLoop p preferredSpatialLayer preferredTemporalLayer virtualBitrate
          spatialLayer k (t + 1) w1

/-- The outer loop of lines 363-411 with `k` iterations left, at index `idx`. -/
def useSpatialLoop (p : RtpStreamRecv) (preferredSpatialLayer preferredTemporalLayer : Int)
    (virtualBitrate : Nat) : Nat → Nat → Provisional → Provisional
  | 0, _, w => w
  | k + 1, idx, w =>
    let spatialLayer := toInt16 idx
    let r := useTemporalLoop p preferredSpatialLayer preferredTemporalLayer virtualBitrate
      spatialLayer p.temporalLayers 0 w
    if r.2 then r.1
    else if spatialLayer ≥ preferredSpatialLayer then r.1
    else useSpatialLoop p preferredSpatialLayer preferredTemporalLayer virtualBitrate
      k (idx + 1) r.1

/-- The provisional layers and `usedBitrate` at label `done` (lines 351-413). -/
def useProvisional (c : SvcConsumer) (virtualBitrate : Nat) : Provisional :=
  match c.producerRtpStream with
  | none => ⟨-1, -1, 0⟩
  | some p =>
    if p.score < 7 then ⟨-1, -1, 0⟩
    else useSpatialLoop p c.preferredSpatialLayer c.preferredTemporalLayer virtualBitrate
      p.spatialLayers 0 ⟨-1, -1, 0⟩

/-- `SvcConsumer::UseAvailableBitrate`: the consumer after the call and the returned
bitrate; `none` when the assertion of line 333 fails. -/
def UseAvailableBitrate (fa : FloatArith) (c : SvcConsumer) (bitrate : Nat) :
    Option (SvcConsumer × Nat) :=
  if !c.externallyManagedBitrate then none
  else if !Consumer.IsActive c then some (c, 0)
  else
    let vb := virtualBitrate fa c.rtpStream.lossPercentage bitrate
    let w := useProvisional c vb
    some ({ c with
        provisionalTargetSpatialLayer := w.spatialLayer
        provisionalTargetTemporalLayer := w.temporalLayer },
      recomputeUsedBitrate w.usedBitrate bitrate vb)

/-! ## `IncreaseLayer` (lines 437-529) -/

/-- Lines 504-528, entered with the local variables `spatialLayer` and
`temporalLayer` of the step and a producer stream that exists. -/
def increaseTo (c : SvcConsumer) (p : RtpStreamRecv) (bitrate virtualBitrate : Nat)
    (spatialLayer temporalLayer : Int) : SvcConsumer × Nat :=
  let requiredBitrate := p.layerBitrate 0 temporalLayer
  if requiredBitrate > virtualBitrate then (c, 0)
  else
    ({ c with
        provisionalTargetSpatialLayer := spatialLayer
        provisionalTargetTemporalLayer := temporalLayer },
      recomputeUsedBitrate requiredBitrate bitrate virtualBitrate)

/-- Lines 470-502 when `producerRtpStream` is not null: the local variables
`(spatialLayer, temporalLayer)` on reaching line 504, or `none` when the function
returns 0 at line 485 or at line 498. -/
def increaseStep (c : SvcConsumer) (p : RtpStreamRecv) : Option (Int × Int) :=
  let spatialLayer := c.provisionalTargetSpatialLayer
  let temporalLayer := c.provisionalTargetTemporalLayer
  if spatialLayer = -1 then
    if p.score > 0 then some (0, 0) else none
  else if temporalLayer < (p.temporalLayers : Int) - 1 then
    some (spatialLayer, toInt16 (temporalLayer + 1))
  else if p.score < 7 then none
  else some (spatialLayer, 0)

/-- `SvcConsumer::IncreaseLayer`: the consumer after the call and the returned bitrate;
`none` when the assertion of line 441 fails or when line 489 dereferences a null
`producerRtpStream`. -/
def IncreaseLayer (fa : FloatArith) (c : SvcConsumer) (bitrate : Nat) :
    Option (SvcConsumer × Nat) :=
  if !c.externallyManagedBitrate then none
  else if !Consumer.IsActive c then some (c, 0)
  else if c.provisionalTargetSpatialLayer = c.preferredSpatialLayer ∧
      c.provisionalTargetTemporalLayer = c.preferredTemporalLayer then some (c, 0)
  else
    let vb := virtualBitrate fa c.rtpStream.lossPercentage bitrate
    match c.producerRtpStream with
    | none => if c.provisionalTargetSpatialLayer = -1 then some (c, 0) else none
    | some p =>
      match increaseStep c p with
      | none => some (c, 0)
      | some (spatialLayer, temporalLayer) =>
        some (increaseTo c p bitrate vb spatialLayer temporalLayer)

/-! ## `GetBitratePriority` (lines 297-327) -/

/-- The loop of lines 311-323 with `k` iterations left, at index `idx`, the variable
`prioritySpatialLayer` holding `priority`. -/
def priorityLoop (preferredSpatialLayer : Int) : Nat → Nat → Int → Int
  | 0, _, priority => priority
  | k + 1, idx, priority =>
    let spatialLayer := toInt16 idx
    if spatialLayer > preferredSpatialLayer ∧ priority ≥ -1 then priority
    else priorityLoop preferredSpatialLayer k (idx + 1) spatialLayer

/-- `SvcConsumer::GetBitratePriority`. -/
def GetBitratePriority (c : SvcConsumer) : Int :=
  if !Consumer.IsActive c then 0
  else
    match c.producerRtpStream with
    | none => 0
    | some p =>
      if p.score = 0 then 0
      else toInt16 (priorityLoop c.preferredSpatialLayer p.spatialLayers 0 0 + 1)

/-! ## `UpdateTargetLayers`, `MayChangeLayers` (lines 883-1046) -/

/-- `SvcConsumer::EmitLayersChange` (lines 1023-1046). -/
def EmitLayersChange (c : SvcConsumer) : Effect :=
  if c.encodingContext.currentSpatialLayer ≥ 0 then
    Effect.layersChange
      (some (c.encodingContext.currentSpatialLayer, c.encodingContext.currentTemporalLayer))
  else Effect.layersChange none

/-- `SvcConsumer::RequestKeyFrame` (lines 883-893). -/
def RequestKeyFrame (c : SvcConsumer) : List Effect :=
  if c.kind ≠ MediaKind.video then [] else [Effect.keyFrameRequested c.consumableSsrc]

/-- `SvcConsumer::UpdateTargetLayers` (lines 974-1010). -/
def UpdateTargetLayers (c : SvcConsumer) (newTargetSpatialLayer newTargetTemporalLayer : Int) :
    SvcConsumer × List Effect :=
  if newTargetSpatialLayer = -1 then
    let c1 := { c with encodingContext := ⟨-1, -1, -1, -1⟩ }
    (c1, [EmitLayersChange c1])
  else
    let c1 := { c with encodingContext :=
      { c.encodingContext with
        targetSpatialLayer := newTargetSpatialLayer
        targetTemporalLayer := newTargetTemporalLayer } }
    if c1.encodingContext.targetSpatialLayer > c1.encodingContext.currentSpatialLayer then
      (c1, RequestKeyFrame c1)
    else (c1, [])

/-- `SvcConsumer::MayChangeLayers` (lines 895-919). -/
def MayChangeLayers (c : SvcConsumer) (force : Bool) : SvcConsumer × List Effect :=
  let r := RecalculateTargetLayers c
  if r.1 then
    if c.externallyManagedBitrate then
      if r.2.1 ≠ c.encodingContext.targetSpatialLayer ∨ force = true then
        (c, [Effect.mayChangeLayers force, Effect.needBitrateChange])
      else (c, [Effect.mayChangeLayers force])
    else
      let u := UpdateTargetLayers c r.2.1 r.2.2
      (u.1, Effect.mayChangeLayers force :: u.2)
  else (c, [Effect.mayChangeLayers force])

/-! ## `HandleRequest` (lines 144-222) -/

/-- The JSON value kinds that `nlohmann::json` tells apart. -/
inductive Json where
  | null
  | boolean (b : Bool)
  | numberInteger (i : Int)
  | numberUnsigned (n : Nat)
  | numberFloat (q : ℚ)
  | string (s : String)
  | array
  | object

/-- The requests that `SvcConsumer::HandleRequest` handles itself; every other method
is passed to the base class. For `setPreferredLayers` the two fields are the results
of `request->data.find(...)`, `none` when the key is missing. -/
inductive Request where
  | requestKeyFrame
  | setPreferredLayers (spatialLayer temporalLayer : Option Json)

/-- Outcome of `HandleRequest`: the consumer and the calls made when the function is
left, and the message of the type error when it is left by `MS_THROW_TYPE_ERROR`. -/
structure HandleRequestResult where
  consumer : SvcConsumer
  effects : List Effect
  thrown : Option String

/-- Lines 174-177 and 182-185, and in the constructor lines 43-46 and 50-53:
`get<int16_t>()` followed by the clamp to `layers - 1`. -/
def clampPreferredLayer (value : Nat) (layers : Nat) : Int :=
  let preferred := toInt16 value
  if preferred > (layers : Int) - 1 then toInt16 ((layers : Int) - 1) else preferred

/-- The test `it != data.end() && it->is_number_unsigned()` of lines 169 and 180 on
the result of `find`, with the unsigned number that the field holds when it passes. -/
def unsignedField : Option Json → Option Nat
  | some (Json.numberUnsigned n) => some n
  | _ => none

/-- Lines 174-190: the consumer after both preferences have been written, for a
`spatialLayer` field holding the unsigned number `n`. -/
def writePreferredLayers (c : SvcConsumer) (n : Nat) (jsonTemporalLayer : Option Json) :
    SvcConsumer :=
  { c with
    preferredSpatialLayer := clampPreferredLayer n c.rtpStream.spatialLayers
    preferredTemporalLayer :=
      match unsignedField jsonTemporalLayer with
      | some m => clampPreferredLayer m c.rtpStream.temporalLayers
      | none => toInt16 ((c.rtpStream.temporalLayers : Int) - 1) }

/-- `SvcConsumer::HandleRequest` (lines 144-222). -/
def HandleRequest (c : SvcConsumer) : Request → HandleRequestResult
  | Request.requestKeyFrame =>
    if SvcConsumer.IsActive c then ⟨c, RequestKeyFrame c ++ [Effect.accept], none⟩
    else ⟨c, [Effect.accept], none⟩
  | Request.setPreferredLayers jsonSpatialLayer jsonTemporalLayer =>
    let previousPreferredSpatialLayer := c.preferredSpatialLayer
    let previousPreferredTemporalLayer := c.preferredTemporalLayer
    match unsignedField jsonSpatialLayer with
    | none => ⟨c, [], some "missing spatialLayer"⟩
    | some n =>
      let c1 := writePreferredLayers c n jsonTemporalLayer
      if SvcConsumer.IsActive c1 ∧
          (c1.preferredSpatialLayer ≠ previousPreferredSpatialLayer ∨
            c1.preferredTemporalLayer ≠ previousPreferredTemporalLayer) then
        let m := MayChangeLayers c1 true
        ⟨m.1, Effect.accept :: m.2, none⟩
      else ⟨c1, [Effect.accept], none⟩

/-! ## `ApplyLayers` (lines 531-556) -/

/-- Lines 540-542: the provisional target layers reset to -1. -/
def resetProvisional (c : SvcConsumer) : SvcConsumer :=
  { c with
    provisionalTargetSpatialLayer := -1
    provisionalTargetTemporalLayer := -1 }

/-- `SvcConsumer::ApplyLayers`: the consumer after the call and the calls made; `none`
when the assertion of line 535 fails. -/
def ApplyLayers (c : SvcConsumer) : Option (SvcConsumer × List Effect) :=
  if !c.externallyManagedBitrate then none
  else
    let provisionalTargetSpatialLayer := c.provisionalTargetSpatialLayer
    let provisionalTargetTemporalLayer := c.provisionalTargetTemporalLayer
    let c1 := resetProvisional c
    if !Consumer.IsActive c1 then some (c1, [])
    else if provisionalTargetSpatialLayer ≠ c1.encodingContext.targetSpatialLayer ∨
        provisionalTargetTemporalLayer ≠ c1.encodingContext.targetTemporalLayer then
      some (UpdateTargetLayers c1 provisionalTargetSpatialLayer provisionalTargetTemporalLayer)
    else some (c1, [])

/-! ## Transport and pause events (lines 757-798) -/

/-- The call `this->rtpStream->Pause()`. -/
def pauseRtpStream (c : SvcConsumer) : SvcConsumer :=
  { c with rtpStream := { c.rtpStream with paused := true } }

/-- `SvcConsumer::UserOnTransportConnected` (lines 757-765). -/
def UserOnTransportConnected (c : SvcConsumer) : SvcConsumer × List Effect :=
  let c1 := { c with syncRequired := true }
  if SvcConsumer.IsActive c1 then MayChangeLayers c1 false else (c1, [])

/-- `SvcConsumer::UserOnTransportDisconnected` (lines 767-774). -/
def UserOnTransportDisconnected (c : SvcConsumer) : SvcConsumer × List Effect :=
  UpdateTargetLayers (pauseRtpStream c) (-1) (-1)

/-- `SvcConsumer::UserOnPaused` (lines 776-788). -/
def UserOnPaused (c : SvcConsumer) : SvcConsumer × List Effect :=
  let u := UpdateTargetLayers (pauseRtpStream c) (-1) (-1)
  if u.1.externallyManagedBitrate then (u.1, u.2 ++ [Effect.needBitrateChange])
  else u

/-- `SvcConsumer::UserOnResumed` (lines 790-798). -/
def UserOnResumed (c : SvcConsumer) : SvcConsumer × List Effect :=
  let c1 := { c with syncRequired := true }
  if SvcConsumer.IsActive c1 then MayChangeLayers c1 false else (c1, [])

/-! ## `SendRtpPacket` (lines 558-672) -/

/-- Conversion to `uint16_t`: the value modulo 2^16. -/
def toUInt16 (z : Int) : Nat := (z % 65536).toNat

/-- Result of `packet->ProcessPayload(encodingContext)`: the returned flag, the
encoding context and the payload of the packet after the call. -/
structure ProcessPayloadResult where
  accepted : Bool
  encodingContext : EncodingContext
  payload : Nat

/-- The two calls of `SendRtpPacket` into code that is outside `SvcConsumer.cpp`:
the codec-specific payload inspection and the send stream. Both are inputs of the
embedding. -/
structure Collaborators where
  /-- The call `packet->ProcessPayload(this->encodingContext.get())`. -/
  processPayload : EncodingContext → RtpPacket → ProcessPayloadResult
  /-- The call `this->rtpStream->ReceivePacket(packet)`: the returned flag and the send
  stream after the call. -/
  receivePacket : RtpStreamSend → RtpPacket → Bool × RtpStreamSend

/-- Modelled from the spec: `RtpPacket::RestorePayload` is not among the sources.
Section 4.3, step 10: on restore, any payload mutation is reverted; `original` is the
payload that the packet had before `ProcessPayload`. -/
def RestorePayload (original : Nat) (packet : RtpPacket) : RtpPacket :=
  { packet with payload := original }

/-- Outcome of `SendRtpPacket`: the consumer, the caller's packet and the calls made. -/
structure SendRtpPacketResult where
  consumer : SvcConsumer
  packet : RtpPacket
  effects : List Effect

/-- Lines 580-592: the consumer after the re-sync of the sequence numbers, when one
is required. -/
def syncSequence (c : SvcConsumer) (packet : RtpPacket) : SvcConsumer :=
  if c.syncRequired then
    { c with
      rtpSeqManager := c.rtpSeqManager.Sync (toUInt16 ((packet.sequenceNumber : Int) - 1))
      syncRequired := false }
  else c

/-- Lines 580-592: the call on the sequence manager made by the re-sync. -/
def syncEffects (c : SvcConsumer) (packet : RtpPacket) : List Effect :=
  if c.syncRequired then [Effect.seqSync (toUInt16 ((packet.sequenceNumber : Int) - 1))]
  else []

/-- Lines 611-620: the `layerschange` notification when `ProcessPayload` changed the
current layers. -/
def layerEffects (previousSpatialLayer previousTemporalLayer : Int) (c : SvcConsumer) :
    List Effect :=
  if previousSpatialLayer ≠ c.encodingContext.currentSpatialLayer ∨
      previousTemporalLayer ≠ c.encodingContext.currentTemporalLayer then
    [EmitLayersChange c]
  else []

/-- Lines 622-633: the packet as rewritten for the send stream, `seq` being the output
of `rtpSeqManager.Input`. -/
def rewritePacket (c : SvcConsumer) (packet : RtpPacket) (seq : Nat) : RtpPacket :=
  { packet with ssrc := c.encodingSsrc, sequenceNumber := seq }

/-- Lines 601-672, entered once the packet has passed the three gates and the
sequence numbers have been re-synced. -/
def forwardPacket (k : Collaborators) (c : SvcConsumer) (packet : RtpPacket) :
    SendRtpPacketResult :=
  let previousSpatialLayer := c.encodingContext.currentSpatialLayer
  let previousTemporalLayer := c.encodingContext.currentTemporalLayer
  let r := k.processPayload c.encodingContext packet
  let c1 := { c with encodingContext := r.encodingContext }
  let packet1 := { packet with payload := r.payload }
  if !r.accepted then
    ⟨{ c1 with rtpSeqManager := c1.rtpSeqManager.Drop packet1.sequenceNumber }, packet1,
      [Effect.seqDrop packet1.sequenceNumber]⟩
  else
    let i := c1.rtpSeqManager.Input packet1.sequenceNumber
    let origSsrc := packet1.ssrc
    let origSeq := packet1.sequenceNumber
    let rewritten := rewritePacket c1 packet1 i.2
    let rs := k.receivePacket c1.rtpStream rewritten
    let restored := RestorePayload packet.payload
      { rewritten with ssrc := origSsrc, sequenceNumber := origSeq }
    ⟨{ c1 with rtpSeqManager := i.1, rtpStream := rs.2 }, restored,
      layerEffects previousSpatialLayer previousTemporalLayer c1 ++
        [Effect.seqInput packet1.sequenceNumber i.2, Effect.receivePacket rewritten] ++
        (if rs.1 then [Effect.sendRtpPacket rewritten] else [])⟩

/-- `SvcConsumer::SendRtpPacket` (lines 558-672). -/
def SendRtpPacket (k : Collaborators) (c : SvcConsumer) (packet : RtpPacket) :
    SendRtpPacketResult :=
  if !SvcConsumer.IsActive c then ⟨c, packet, []⟩
  else if packet.payloadType ∉ c.supportedCodecPayloadTypes then ⟨c, packet, []⟩
  else if c.syncRequired ∧ !packet.keyFrame then ⟨c, packet, []⟩
  else
    let f := forwardPacket k (syncSequence c packet) packet
    ⟨f.consumer, f.packet, syncEffects c packet ++ f.effects⟩

/-- Successive calls of `SendRtpPacket`, one per packet of the list: the consumer at
the end and the calls made, in order. -/
def SendRtpPackets (k : Collaborators) : SvcConsumer → List RtpPacket → SvcConsumer × List Effect
  | c, [] => (c, [])
  | c, packet :: rest =>
    let r := SendRtpPacket k c packet
    let t := SendRtpPackets k r.consumer rest
    (t.1, r.effects ++ t.2)

/-! ## `GetRtcp` (lines 681-703) -/

/-- What is appended to the compound RTCP packet. -/
inductive RtcpItem where
  /-- The call `packet->AddSenderReport(report)`. -/
  | senderReport (report : Nat)
  /-- The call `packet->AddSdesChunk(sdesChunk)`. -/
  | sdesChunk (chunk : Nat)
  deriving DecidableEq, Repr

/-- What `GetRtcp` obtains from outside `SvcConsumer.cpp`. Floating-point rounding is
not embedded: the value of line 687 is an input. -/
structure RtcpEnvironment where
  /-- The value `static_cast<float>(elapsed * 1.15)` for the `uint64_t` value
  `elapsed = now - lastRtcpSentTime`. -/
  scaledElapsed : Nat → ℚ
  /-- The call `rtpStream->GetRtcpSenderReport(now)`; `none` is a null pointer. -/
  senderReport : Nat → Option Nat
  /-- The call `rtpStream->GetRtcpSdesChunk()`. -/
  sdesChunk : Nat

/-- The `uint64_t` difference `now - lastRtcpSentTime`. -/
def elapsedSince (now lastRtcpSentTime : Nat) : Nat :=
  (now + 2 ^ 64 - lastRtcpSentTime % 2 ^ 64) % 2 ^ 64

/-- `SvcConsumer::GetRtcp`: the consumer and the compound packet after the call; `none`
when the assertion of line 685 fails, `sameStream` being the result of
`rtpStream == this->rtpStream`. -/
def GetRtcp (e : RtcpEnvironment) (c : SvcConsumer) (packet : List RtcpItem)
    (sameStream : Bool) (now : Nat) : Option (SvcConsumer × List RtcpItem) :=
  if !sameStream then none
  else if e.scaledElapsed (elapsedSince now c.lastRtcpSentTime) < (c.maxRtcpInterval : ℚ) then
    some (c, packet)
  else
    match e.senderReport now with
    | none => some (c, packet)
    | some report =>
      some ({ c with lastRtcpSentTime := now },
        packet ++ [RtcpItem.senderReport report, RtcpItem.sdesChunk e.sdesChunk])

/-! ## Constructor (lines 15-78) -/

/-- The result of `data.find("preferredLayers")` when the key is present. -/
inductive JsonPreferredLayers where
  /-- A value for which `is_object()` is false. -/
  | notObject
  /-- An object, with the results of `find("spatialLayer")` and
  `find("temporalLayer")` on it. -/
  | object (spatialLayer temporalLayer : Option Json)

/-- What the constructor body reads, the base class `Consumer` having been
constructed: the size of `consumableRtpEncodings`, the layer counts of
`rtpParameters.encodings[0]`, the result of `data.find("preferredLayers")` and whether
`RTC::Codecs::GetEncodingContext(mimeType)` returns a context. -/
structure ConstructorData where
  consumableRtpEncodingsSize : Nat
  spatialLayers : Nat
  temporalLayers : Nat
  preferredLayers : Option JsonPreferredLayers
  hasEncodingContext : Bool

/-- Lines 30-66: the preferred layers, or the message of the type error of line 40. -/
def constructPreferredLayers (d : ConstructorData) : Except String (Int × Int) :=
  match d.preferredLayers with
  | some (JsonPreferredLayers.object jsonSpatialLayer jsonTemporalLayer) =>
    match unsignedField jsonSpatialLayer with
    | none => Except.error "missing preferredLayers.spatialLayer"
    | some n =>
      Except.ok (clampPreferredLayer n d.spatialLayers,
        match unsignedField jsonTemporalLayer with
        | some m => clampPreferredLayer m d.temporalLayers
        | none => toInt16 ((d.temporalLayers : Int) - 1))
  | _ =>
    Except.ok (toInt16 ((d.spatialLayers : Int) - 1), toInt16 ((d.temporalLayers : Int) - 1))

/-- `SvcConsumer::SvcConsumer` (lines 15-78): the preferred layers of the constructed
consumer, or the message of the type error thrown. -/
def construct (d : ConstructorData) : Except String (Int × Int) :=
  if d.consumableRtpEncodingsSize ≠ 1 then
    Except.error "invalid consumableRtpEncodings with size != 1"
  else if d.spatialLayers < 2 ∧ d.temporalLayers < 2 then
    Except.error "invalid number of layers"
  else
    match constructPreferredLayers d with
    | Except.error message => Except.error message
    | Except.ok preferred =>
      if !d.hasEncodingContext then Except.error "media codec not supported with SVC"
      else Except.ok preferred

/-! ## Observations and reference walks used in the statements -/

/-- Layer counts that fit in `int16_t`, so that the loop indices of the source are
converted to `int16_t` without wrapping. -/
def RtpStreamRecv.layersFit (p : RtpStreamRecv) : Prop :=
  p.spatialLayers ≤ 32767 ∧ p.temporalLayers ≤ 32767

/-- The output parameter `newTargetSpatialLayer` of `RecalculateTargetLayers`. -/
def candidateSpatialLayer (c : SvcConsumer) : Int := (RecalculateTargetLayers c).2.1

/-- The output parameter `newTargetTemporalLayer` of `RecalculateTargetLayers`. -/
def candidateTemporalLayer (c : SvcConsumer) : Int := (RecalculateTargetLayers c).2.2

/-- What a caller of `UseAvailableBitrate` or `IncreaseLayer` observes: the provisional
pair after the call and the returned bitrate. -/
def provisionalAndReturn (r : Option (SvcConsumer × Nat)) : Option (Int × Int × Nat) :=
  r.map fun x => (x.1.provisionalTargetSpatialLayer, x.1.provisionalTargetTemporalLayer, x.2)

/-- What the two loops of `UseAvailableBitrate` maintain: the used bitrate never
exceeds the virtual bitrate, and it is the required bitrate of the provisional pair
unless nothing has been chosen. -/
def Provisional.Chosen (p : RtpStreamRecv) (vb : Nat) (w : Provisional) : Prop :=
  w.usedBitrate ≤ vb ∧
    (w = ⟨-1, -1, 0⟩ ∨ w.usedBitrate = p.bitrate w.spatialLayer w.temporalLayer)

/-- The pairs `(s, t)` with `s < spatialLayers`, `t < temporalLayers` in row-major
order. -/
def rowMajor (spatialLayers temporalLayers : Nat) : List (Nat × Nat) :=
  (List.range' 0 spatialLayers).flatMap fun s =>
    (List.range' 0 temporalLayers).map fun t => (s, t)

/-- Walk over a list of pairs, written from the words of the specification: stop
before the first pair whose required bitrate exceeds `virtualBitrate`, stop at the
preferred pair and, when `stopAtRowEnd` is set, stop at the last pair of a row whose
spatial layer is at or above the preferred one. The result is the last pair reached
and its required bitrate. -/
def walkPairs (stopAtRowEnd : Bool) (p : RtpStreamRecv)
    (preferredSpatialLayer preferredTemporalLayer : Int) (virtualBitrate : Nat) :
    List (Nat × Nat) → Provisional → Provisional
  | [], w => w
  | (s, t) :: rest, w =>
    if p.bitrate s t > virtualBitrate then w
    else
      let w1 : Provisional := ⟨s, t, p.bitrate s t⟩
      if (s : Int) = preferredSpatialLayer ∧ (t : Int) = preferredTemporalLayer then w1
      else if stopAtRowEnd = true ∧ t + 1 = p.temporalLayers ∧
          (s : Int) ≥ preferredSpatialLayer then w1
      else walkPairs stopAtRowEnd p preferredSpatialLayer preferredTemporalLayer
        virtualBitrate rest w1

/-- The walk as the specification words it: stops only at the preferred pair or at
the first pair that is too expensive. -/
def walkAsSpecified (c : SvcConsumer) (p : RtpStreamRecv) (virtualBitrate : Nat) : Provisional :=
  walkPairs false p c.preferredSpatialLayer c.preferredTemporalLayer virtualBitrate
    (rowMajor p.spatialLayers p.temporalLayers) ⟨-1, -1, 0⟩

/-- The walk with the additional stop at the end of a row whose spatial layer is at
or above the preferred one. -/
def walkWithRowStop (c : SvcConsumer) (p : RtpStreamRecv) (virtualBitrate : Nat) : Provisional :=
  walkPairs true p c.preferredSpatialLayer c.preferredTemporalLayer virtualBitrate
    (rowMajor p.spatialLayers p.temporalLayers) ⟨-1, -1, 0⟩

/-- The loop of `GetBitratePriority` without the `prioritySpatialLayer >= -1` test. -/
def priorityLoopUnguarded (preferredSpatialLayer : Int) : Nat → Nat → Int → Int
  | 0, _, priority => priority
  | k + 1, idx, priority =>
    let spatialLayer := toInt16 idx
    if spatialLayer > preferredSpatialLayer then priority
    else priorityLoopUnguarded preferredSpatialLayer k (idx + 1) spatialLayer

/-- `GetBitratePriority` without the `prioritySpatialLayer >= -1` test of line 318. -/
def GetBitratePriorityUnguarded (c : SvcConsumer) : Int :=
  if !Consumer.IsActive c then 0
  else
    match c.producerRtpStream with
    | none => 0
    | some p =>
      if p.score = 0 then 0
      else toInt16 (priorityLoopUnguarded c.preferredSpatialLayer p.spatialLayers 0 0 + 1)

/-! ## Worked scenarios -/

/-- Arithmetic of the worked scenarios: the two products taken without rounding error
and truncated. -/
def exactArith : FloatArith where
  inflate b := b * 108 / 100
  deflate l b := (⌊(1 - l / 200) * (b : ℚ)⌋).toNat

/-- Required bitrates of scenario 2 of the specification (in bps):
s0t0 = 100, s0t1 = 200, s1t0 = 400, s1t1 = 800 kbps. -/
def scenarioBitrate (s t : Int) : Nat :=
  if s = 0 ∧ t = 0 then 100000
  else if s = 0 ∧ t = 1 then 200000
  else if s = 1 ∧ t = 0 then 400000
  else if s = 1 ∧ t = 1 then 800000
  else 0

/-- Bitrate of each single layer for the cumulative table `scenarioBitrate`. -/
def scenarioLayerBitrate (s t : Int) : Nat :=
  if s = 0 ∧ t = 0 then 100000
  else if s = 0 ∧ t = 1 then 100000
  else if s = 1 ∧ t = 0 then 200000
  else if s = 1 ∧ t = 1 then 400000
  else 0

/-- Producer stream of scenario 2: two spatial and two temporal layers, score 8. -/
def scenarioProducer : RtpStreamRecv where
  score := 8
  spatialLayers := 2
  temporalLayers := 2
  bitrate := scenarioBitrate
  layerBitrate := scenarioLayerBitrate

/-- Consumer of scenario 2: active, externally managed, preferred layers `(1, 1)`,
no loss, nothing selected yet. -/
def scenarioConsumer : SvcConsumer where
  kind := MediaKind.video
  transportConnected := true
  paused := false
  producerPaused := false
  externallyManagedBitrate := true
  preferredSpatialLayer := 1
  preferredTemporalLayer := 1
  provisionalTargetSpatialLayer := -1
  provisionalTargetTemporalLayer := -1
  syncRequired := false
  producerRtpStream := some scenarioProducer
  rtpStream := ⟨2, 2, 0, false⟩
  encodingContext := ⟨-1, -1, -1, -1⟩
  consumableSsrc := 1111
  encodingSsrc := 2222
  supportedCodecPayloadTypes := [101]
  rtpSeqManager := ⟨0, 0⟩
  lastRtcpSentTime := 0
  maxRtcpInterval := 1000

/-- Consumer of scenario 3: scenario 2 after `UseAvailableBitrate`, provisional layers
`(1, 0)`. -/
def scenarioConsumerAfterUse : SvcConsumer :=
  { scenarioConsumer with
    provisionalTargetSpatialLayer := 1
    provisionalTargetTemporalLayer := 0 }

/-- A producer stream like the one of scenario 2 but with a heavier top layer: the pair
`(1, 1)` requires 1000000 bps, of which the layer itself accounts for 600000. -/
def heavyTopProducer : RtpStreamRecv where
  score := 8
  spatialLayers := 2
  temporalLayers := 2
  bitrate s t := if s = 1 ∧ t = 1 then 1000000 else scenarioBitrate s t
  layerBitrate s t := if s = 1 ∧ t = 1 then 600000 else scenarioLayerBitrate s t

/-- The consumer of scenario 2 over the producer stream with the heavier top layer. -/
def heavyTopConsumer : SvcConsumer :=
  { scenarioConsumer with producerRtpStream := some heavyTopProducer }

/-- The consumer `heavyTopConsumer` with the provisional layers `(1, 0)`. -/
def heavyTopConsumerAfterUse : SvcConsumer :=
  { heavyTopConsumer with
    provisionalTargetSpatialLayer := 1
    provisionalTargetTemporalLayer := 0 }

/-- A consumer whose provisional layers `(0, 1)` have the temporal layer saturated. -/
def saturatedConsumer : SvcConsumer :=
  { scenarioConsumer with
    provisionalTargetSpatialLayer := 0
    provisionalTargetTemporalLayer := 1 }

/-- A producer stream of which only the spatial layer 1 carries bitrate. -/
def upperLayerOnlyProducer : RtpStreamRecv where
  score := 10
  spatialLayers := 2
  temporalLayers := 2
  bitrate s _ := if s = 1 then 100000 else 0
  layerBitrate s _ := if s = 1 then 100000 else 0

/-- A self-managed consumer that prefers `(0, 0)` while only the spatial layer 1 of
the producer carries bitrate. -/
def upperLayerOnlyConsumer : SvcConsumer :=
  { scenarioConsumer with
    externallyManagedBitrate := false
    preferredSpatialLayer := 0
    preferredTemporalLayer := 0
    producerRtpStream := some upperLayerOnlyProducer }

/-- A producer stream with two spatial layers and a single temporal layer. -/
def singleTemporalProducer : RtpStreamRecv where
  score := 8
  spatialLayers := 2
  temporalLayers := 1
  bitrate s _ := if s = 0 then 100000 else 200000
  layerBitrate _ _ := 100000

/-- A consumer that prefers `(0, 1)`, within its 2x2 send stream, over a producer
stream that has a single temporal layer. -/
def rowEndConsumer : SvcConsumer :=
  { scenarioConsumer with
    preferredSpatialLayer := 0
    preferredTemporalLayer := 1
    producerRtpStream := some singleTemporalProducer }

/-- Modelled from the spec: the codec-specific `ProcessPayload` is not among the
sources. Section 2: the encoding context drops the packets that are not in the target
set. A packet that is accepted has its layers within the target layers. -/
def Collaborators.DropsOutsideTarget (k : Collaborators) : Prop :=
  ∀ (ctx : EncodingContext) (packet : RtpPacket),
    (k.processPayload ctx packet).accepted = true →
      0 ≤ packet.spatialLayer ∧ packet.spatialLayer ≤ ctx.targetSpatialLayer ∧
      0 ≤ packet.temporalLayer ∧ packet.temporalLayer ≤ ctx.targetTemporalLayer

/-- The sequence numbers of the packets handed to the transport, in order. -/
def emittedSequenceNumbers : List Effect → List Nat
  | [] => []
  | Effect.sendRtpPacket packet :: rest => packet.sequenceNumber :: emittedSequenceNumbers rest
  | _ :: rest => emittedSequenceNumbers rest

/-- The packets handed to the transport, in order. -/
def emittedPackets : List Effect → List RtpPacket
  | [] => []
  | Effect.sendRtpPacket packet :: rest => packet :: emittedPackets rest
  | _ :: rest => emittedPackets rest

/-- The arguments of the calls `rtpSeqManager.Drop`, in order. -/
def dropCalls : List Effect → List Nat
  | [] => []
  | Effect.seqDrop input :: rest => input :: dropCalls rest
  | _ :: rest => dropCalls rest

/-- The input arguments of the calls `rtpSeqManager.Input`, in order. -/
def inputCalls : List Effect → List Nat
  | [] => []
  | Effect.seqInput input _ :: rest => input :: inputCalls rest
  | _ :: rest => inputCalls rest

/-- The arguments of the calls `rtpSeqManager.Sync`, in order. -/
def syncCalls : List Effect → List Nat
  | [] => []
  | Effect.seqSync base :: rest => base :: syncCalls rest
  | _ :: rest => syncCalls rest

/-- The `layerschange` notifications, in order. -/
def layersChangeNotifications : List Effect → List (Option (Int × Int))
  | [] => []
  | Effect.layersChange data :: rest => data :: layersChangeNotifications rest
  | _ :: rest => layersChangeNotifications rest

/-- The numbers `first, first + 1, ...` modulo 2^16, `n` of them. -/
def consecutiveFrom (first : Nat) : Nat → List Nat
  | 0 => []
  | n + 1 => first % 65536 :: consecutiveFrom (first + 1) n

/-- A payload inspection that accepts the packets whose layers are within the target
layers and leaves the encoding context and the payload as they are, with a send
stream that accepts every packet. -/
def targetFilter : Collaborators where
  processPayload ctx packet :=
    ⟨decide (0 ≤ packet.spatialLayer ∧ packet.spatialLayer ≤ ctx.targetSpatialLayer ∧
      0 ≤ packet.temporalLayer ∧ packet.temporalLayer ≤ ctx.targetTemporalLayer),
      ctx, packet.payload⟩
  receivePacket stream _ := (true, stream)

/-- A payload inspection that rejects every packet. -/
def rejectAll : Collaborators where
  processPayload ctx packet := ⟨false, ctx, packet.payload⟩
  receivePacket stream _ := (true, stream)

/-- Producer stream of scenario 1: three spatial and three temporal layers, score 10,
every layer carrying bitrate. -/
def scenario1Producer : RtpStreamRecv where
  score := 10
  spatialLayers := 3
  temporalLayers := 3
  bitrate s t := (100000 * (3 * s + t + 1)).toNat
  layerBitrate _ _ := 100000

/-- Consumer of scenario 1 when its transport gets connected: self-managed, preferred
layers `(2, 2)`, nothing selected. -/
def scenario1Consumer : SvcConsumer :=
  { scenarioConsumer with
    externallyManagedBitrate := false
    preferredSpatialLayer := 2
    preferredTemporalLayer := 2
    producerRtpStream := some scenario1Producer
    rtpStream := ⟨3, 3, 0, false⟩ }

/-- A packet of scenario 1 with the supported payload type 101 and the base layers. -/
def scenario1Packet (keyFrame : Bool) (sequenceNumber : Nat) : RtpPacket where
  payloadType := 101
  keyFrame := keyFrame
  sequenceNumber := sequenceNumber
  ssrc := 7777
  spatialLayer := 0
  temporalLayer := 0
  payload := sequenceNumber

/-- The packets of scenario 1: a packet that is not a key frame, the key frame with
sequence number 100 and the five packets 101 to 105. -/
def scenario1Packets : List RtpPacket :=
  [scenario1Packet false 99, scenario1Packet true 100, scenario1Packet false 101,
    scenario1Packet false 102, scenario1Packet false 103, scenario1Packet false 104,
    scenario1Packet false 105]

/-- The consumer of scenario 2 with self-managed bitrate. -/
def selfManagedConsumer : SvcConsumer :=
  { scenarioConsumer with externallyManagedBitrate := false }

/-- A consumer that needs a re-sync, with the target layers `(1, 1)`. -/
def resyncingConsumer : SvcConsumer :=
  { scenarioConsumer with
    syncRequired := true
    encodingContext := ⟨1, 1, -1, -1⟩ }

/-- Environment of scenario 6: the product taken without rounding error, a send stream
that produces the sender report 1 and the SDES chunk 2. -/
def scenario6Environment : RtcpEnvironment where
  scaledElapsed elapsed := (elapsed : ℚ) * 115 / 100
  senderReport _ := some 1
  sdesChunk := 2

/-- Construction data with a `preferredLayers` value that is not an object, on a 2x2
encoding. -/
def notObjectData : ConstructorData where
  consumableRtpEncodingsSize := 1
  spatialLayers := 2
  temporalLayers := 2
  preferredLayers := some JsonPreferredLayers.notObject
  hasEncodingContext := true

/-- The consumer of scenario 3 over a producer stream whose score is 6. -/
def weakProducerConsumer : SvcConsumer :=
  { scenarioConsumerAfterUse with
    producerRtpStream := some { scenarioProducer with score := 6 } }

/-- Lines 562-578: the packet passes the three gates of `SendRtpPacket`: the consumer
is active, the payload type is supported, and the packet is a key frame when a re-sync
is required. -/
def passesGates (c : SvcConsumer) (packet : RtpPacket) : Prop :=
  SvcConsumer.IsActive c = true ∧ packet.payloadType ∈ c.supportedCodecPayloadTypes ∧
    (c.syncRequired = true → packet.keyFrame = true)

instance (c : SvcConsumer) (packet : RtpPacket) : Decidable (passesGates c packet) := by
  unfold passesGates
  infer_instance

/-- The packet that `SendRtpPacket` passes to the send stream when the payload
inspection accepts `packet`: the payload as left by `ProcessPayload`, the configured
SSRC and the output of `rtpSeqManager.Input`. -/
def packetForSendStream (k : Collaborators) (c : SvcConsumer) (packet : RtpPacket) :
    RtpPacket :=
  rewritePacket c { packet with payload := (k.processPayload c.encodingContext packet).payload }
    ((syncSequence c packet).rtpSeqManager.Input packet.sequenceNumber).2

/-! ## Allocation round -/

/-- Successive calls of `IncreaseLayer`, one per bitrate of the list: the consumer at
the end, or `none` when one of the calls does not return. -/
def IncreaseLayers (fa : FloatArith) : SvcConsumer → List Nat → Option SvcConsumer
  | c, [] => some c
  | c, bitrate :: rest =>
    match IncreaseLayer fa c bitrate with
    | none => none
    | some r => IncreaseLayers fa r.1 rest

/-- One allocation round on a consumer: `UseAvailableBitrate(bitrate)` followed by
one `IncreaseLayer` call per bitrate of the list. -/
def allocationRound (fa : FloatArith) (c : SvcConsumer) (bitrate : Nat)
    (bitrates : List Nat) : Option SvcConsumer :=
  match UseAvailableBitrate fa c bitrate with
  | none => none
  | some r => IncreaseLayers fa r.1 bitrates

/-- The pair `(s, t)` is `(-1, -1)`, or both layers are at least 0 and the pair is
lexicographically at most `(preferredSpatialLayer, preferredTemporalLayer)`. -/
def withinPreferred (preferredSpatialLayer preferredTemporalLayer s t : Int) : Prop :=
  (s = -1 ∧ t = -1) ∨
    (0 ≤ s ∧ 0 ≤ t ∧
      (s < preferredSpatialLayer ∨ (s = preferredSpatialLayer ∧ t ≤ preferredTemporalLayer)))

instance (ps pt s t : Int) : Decidable (withinPreferred ps pt s t) := by
  unfold withinPreferred
  infer_instance

/-- The provisional layers of the consumer do not pass its preferred layers, and the
producer stream is present whenever a provisional spatial layer is selected. -/
def SvcConsumer.ProvisionalWithinPreferred (c : SvcConsumer) : Prop :=
  withinPreferred c.preferredSpatialLayer c.preferredTemporalLayer
      c.provisionalTargetSpatialLayer c.provisionalTargetTemporalLayer ∧
    (0 ≤ c.provisionalTargetSpatialLayer → c.producerRtpStream.isSome = true)

/-- The consumer `c1` differs from `c` at most in its provisional layers. -/
def SvcConsumer.SameButProvisional (c c1 : SvcConsumer) : Prop :=
  c1 = { c with
    provisionalTargetSpatialLayer := c1.provisionalTargetSpatialLayer
    provisionalTargetTemporalLayer := c1.provisionalTargetTemporalLayer }

/-! ## Further scenarios -/

/-- A payload inspection that accepts the packets whose layers are within the target
layers and moves the current layers to the layers of the accepted packet, with a send
stream that accepts every packet. -/
def layerFollower : Collaborators where
  processPayload ctx packet :=
    if 0 ≤ packet.spatialLayer ∧ packet.spatialLayer ≤ ctx.targetSpatialLayer ∧
        0 ≤ packet.temporalLayer ∧ packet.temporalLayer ≤ ctx.targetTemporalLayer then
      ⟨true, { ctx with
          currentSpatialLayer := packet.spatialLayer
          currentTemporalLayer := packet.temporalLayer }, packet.payload⟩
    else ⟨false, ctx, packet.payload⟩
  receivePacket stream _ := (true, stream)

/-- The consumer of scenario 1 after its transport got connected and a key frame of
the layers `(2, 2)` went through: target and current layers are `(2, 2)`. -/
def streamingTopConsumer : SvcConsumer :=
  (SendRtpPacket layerFollower (UserOnTransportConnected scenario1Consumer).1
    { scenario1Packet true 100 with spatialLayer := 2, temporalLayer := 2 }).consumer

/-- The consumer `streamingTopConsumer` after the request
`setPreferredLayers {spatialLayer: 0, temporalLayer: 0}`: the target layers are
`(0, 0)` and the current layers still `(2, 2)`. -/
def loweredTargetConsumer : SvcConsumer :=
  (HandleRequest streamingTopConsumer
    (Request.setPreferredLayers (some (Json.numberUnsigned 0))
      (some (Json.numberUnsigned 0)))).consumer

/-- A payload inspection that accepts every packet, with a send stream that refuses
every packet. -/
def refusingStream : Collaborators where
  processPayload ctx packet := ⟨true, ctx, packet.payload⟩
  receivePacket stream _ := (false, stream)

/-- The packets carry the sequence numbers `first`, `first + 1`, ... modulo 2^16, in
this order: none is missing between them. -/
def consecutiveInputs (first : Nat) (packets : List RtpPacket) : Prop :=
  packets.map (fun p => p.sequenceNumber) = consecutiveFrom first packets.length

instance (first : Nat) (packets : List RtpPacket) :
    Decidable (consecutiveInputs first packets) := by
  unfold consecutiveInputs
  infer_instance

/-- The key frame 100 of scenario 1, the packet 101 with the payload type 96, which
the consumer does not support, and the packet 102. -/
def gapPackets : List RtpPacket :=
  [scenario1Packet true 100, { scenario1Packet false 101 with payloadType := 96 },
    scenario1Packet false 102]

/-- The payload inspection of `targetFilter` with a send stream that refuses the packet
whose output sequence number is 2 and accepts every other packet. -/
def refuseSecond : Collaborators where
  processPayload := targetFilter.processPayload
  receivePacket stream p := (decide (p.sequenceNumber ≠ 2), stream)

/-- A property of the floating-point arithmetic, which is not embedded: the value of
line 687 compares with every `uint16_t` interval as the exact product
`elapsed * 1.15` does. -/
def RtcpEnvironment.ComparesExactly (e : RtcpEnvironment) : Prop :=
  ∀ elapsed interval : Nat, interval ≤ 65535 →
    (e.scaledElapsed elapsed < (interval : ℚ) ↔ elapsed * 115 < interval * 100)

/-- The consumer of scenario 6 with the last report sent at 5000 ms. -/
def pacedConsumer : SvcConsumer :=
  { scenarioConsumer with lastRtcpSentTime := 5000 }

/-! ## `FeedbackPsFirItem` (`FeedbackPsFir.cpp`, lines 17-38) -/

namespace RTCP

/-- Byte order of the host on which the worker runs. -/
inductive ByteOrder where
  | littleEndian
  | bigEndian
  deriving DecidableEq, Repr

/-- Layout of the type `FeedbackPsFirItem::Header`, which is declared in
`FeedbackPsFir.hpp` and is an input of the embedding: the value `sizeof(Header)` and
the offsets of the members `ssrc` (a `uint32_t`) and `sequenceNumber` (a `uint8_t`). -/
structure HeaderLayout where
  size : Nat
  ssrcOffset : Nat
  sequenceNumberOffset : Nat
  deriving DecidableEq, Repr

/-- The members `ssrc` and `sequenceNumber` lie within the `sizeof(Header)` bytes and
do not overlap. -/
def HeaderLayout.WellFormed (layout : HeaderLayout) : Prop :=
  layout.ssrcOffset + 4 ≤ layout.size ∧ layout.sequenceNumberOffset < layout.size ∧
    (layout.sequenceNumberOffset < layout.ssrcOffset ∨
      layout.ssrcOffset + 4 ≤ layout.sequenceNumberOffset)

instance (layout : HeaderLayout) : Decidable layout.WellFormed := by
  unfold HeaderLayout.WellFormed
  infer_instance

/-- The layout of a FIR entry on the wire: 8 bytes, the SSRC in the bytes 0 to 3, the
sequence number in byte 4 and 24 reserved bits in the bytes 5 to 7. -/
def wireLayout : HeaderLayout := ⟨8, 0, 4⟩

/-- The four bytes of a 32-bit value, most significant byte first. -/
def bigEndianBytes (x : Nat) : List Nat :=
  [x / 2 ^ 24 % 256, x / 2 ^ 16 % 256, x / 2 ^ 8 % 256, x % 256]

/-- The four bytes of a 32-bit value, least significant byte first. -/
def littleEndianBytes (x : Nat) : List Nat :=
  [x % 256, x / 2 ^ 8 % 256, x / 2 ^ 16 % 256, x / 2 ^ 24 % 256]

/-- The bytes that a `uint32_t` occupies in the memory of the host. -/
def storedUInt32 (order : ByteOrder) (x : Nat) : List Nat :=
  match order with
  | ByteOrder.littleEndian => littleEndianBytes x
  | ByteOrder.bigEndian => bigEndianBytes x

/-- The function `htonl` of the C library: the 32-bit value whose representation on
the host is the big-endian representation of `x`. -/
def htonl (order : ByteOrder) (x : Nat) : Nat :=
  match order with
  | ByteOrder.littleEndian =>
    x % 256 * 2 ^ 24 + x / 2 ^ 8 % 256 * 2 ^ 16 + x / 2 ^ 16 % 256 * 2 ^ 8 + x / 2 ^ 24 % 256
  | ByteOrder.bigEndian => x % 2 ^ 32

/-- The memory `memory` after `bytes` have been written at `offset`. -/
def writeBytes (memory : List Nat) (offset : Nat) (bytes : List Nat) : List Nat :=
  memory.take offset ++ bytes ++ memory.drop (offset + bytes.length)

/-- A `FeedbackPsFirItem`: the `sizeof(Header)` bytes at `this->raw`, which
`this->header` aliases. -/
structure FeedbackPsFirItem where
  raw : List Nat
  deriving DecidableEq, Repr

/-- The constructor `FeedbackPsFirItem::FeedbackPsFirItem(ssrc, sequenceNumber)`
(lines 17-29): `memset` of the header to zero, then the two member writes. -/
def FeedbackPsFirItem.construct (layout : HeaderLayout) (order : ByteOrder)
    (ssrc sequenceNumber : Nat) : FeedbackPsFirItem :=
  let raw := List.replicate layout.size 0
  let raw1 := writeBytes raw layout.ssrcOffset (storedUInt32 order (htonl order ssrc))
  ⟨writeBytes raw1 layout.sequenceNumberOffset [sequenceNumber % 256]⟩

/-- `FeedbackPsFirItem::Serialize(buffer)` (lines 31-38): the buffer after the `memcpy`
of `sizeof(Header)` bytes and the returned size; `none` when the buffer is shorter than
`sizeof(Header)`. -/
def FeedbackPsFirItem.Serialize (layout : HeaderLayout) (item : FeedbackPsFirItem)
    (buffer : List Nat) : Option (List Nat × Nat) :=
  if buffer.length < layout.size then none
  else some (writeBytes buffer 0 (item.raw.take layout.size), layout.size)

end RTCP

end RTC

/-! # Theorems -/

namespace RTC

/-! ## Machine integers -/

theorem toInt16_of_le (n : Nat) (h : n ≤ 32767) : toInt16 (n : Int) = (n : Int) := by
  unfold toInt16
  omega

theorem toInt16_pred (n : Nat) (h : n ≤ 32767) : toInt16 ((n : Int) - 1) = (n : Int) - 1 := by
  unfold toInt16
  omega

/-! ## `RecalculateTargetLayers` -/

/-- The spatial loop either keeps the value it was entered with, and then no layer it
visited carries bitrate, or it ends on a visited layer `j` that carries bitrate; when
`j` is above the preferred layer, no visited layer from the preferred one up to `j`
carries bitrate. -/
theorem recalculateSpatialLoop_spec (p : RtpStreamRecv) (pref : Int) :
    ∀ (k idx : Nat) (new : Int), idx + k ≤ 32768 →
      (recalculateSpatialLoop p pref k idx new = new ∧
        ∀ j : Nat, idx ≤ j → j < idx + k → p.bitrate (j : Int) 0 = 0) ∨
      ∃ j : Nat, idx ≤ j ∧ j < idx + k ∧
        recalculateSpatialLoop p pref k idx new = (j : Int) ∧
        p.bitrate (j : Int) 0 ≠ 0 ∧
        (pref < (j : Int) →
          ∀ i : Nat, idx ≤ i → i < j → pref ≤ (i : Int) → p.bitrate (i : Int) 0 = 0) := by
  intro k
  induction k with
  | zero =>
    intro idx new _
    left
    exact ⟨rfl, fun j h1 h2 => by omega⟩
  | succ k ih =>
    intro idx new hk
    have hcast : toInt16 (idx : Int) = (idx : Int) := toInt16_of_le idx (by omega)
    simp only [recalculateSpatialLoop, hcast]
    by_cases hb : p.bitrate (idx : Int) 0 = 0
    · simp only [hb, ne_eq, not_true_eq_false, if_false]
      rcases ih (idx + 1) new (by omega) with ⟨h1, h2⟩ | ⟨j, h1, h2, h3, h4, h5⟩
      · left
        refine ⟨h1, fun j hj1 hj2 => ?_⟩
        by_cases hj : j = idx
        · subst hj; exact hb
        · exact h2 j (by omega) (by omega)
      · right
        refine ⟨j, by omega, by omega, h3, h4, fun hpj i hi1 hi2 hi3 => ?_⟩
        by_cases hi : i = idx
        · subst hi; exact hb
        · exact h5 hpj i (by omega) hi2 hi3
    · simp only [ne_eq, hb, not_false_eq_true, if_true]
      by_cases hge : (idx : Int) ≥ pref
      · simp only [hge, if_true]
        right
        exact ⟨idx, le_refl _, by omega, rfl, hb, fun _ i hi1 hi2 _ => by omega⟩
      · simp only [hge, if_false]
        rcases ih (idx + 1) (idx : Int) (by omega) with ⟨h1, _⟩ | ⟨j, h1, h2, h3, h4, h5⟩
        · right
          exact ⟨idx, le_refl _, by omega, h1, hb, fun hp => absurd (le_of_lt hp) hge⟩
        · right
          refine ⟨j, by omega, by omega, h3, h4, fun hpj i hi1 hi2 hi3 => ?_⟩
          by_cases hi : i = idx
          · subst hi; exact absurd hi3 hge
          · exact h5 hpj i (by omega) hi2 hi3

/-- C1 (as stated, refuted): a consumer that prefers spatial layer 0 while only spatial
layer 1 of the producer carries bitrate gets the candidate `(1, 0)`: the candidate
spatial layer is above the preferred one, and the temporal layer 0 of the
'above preferred' case is taken. -/
theorem recalculate_above_preferred_counterexample :
    upperLayerOnlyConsumer.preferredSpatialLayer = 0 ∧
    candidateSpatialLayer upperLayerOnlyConsumer = 1 ∧
    candidateTemporalLayer upperLayerOnlyConsumer = 0 ∧
    ¬ ∀ c : SvcConsumer, candidateSpatialLayer c = -1 ∨
        candidateSpatialLayer c ≤ c.preferredSpatialLayer := by
  refine ⟨by decide, by decide, by decide, fun h => ?_⟩
  have h1 := h upperLayerOnlyConsumer
  revert h1
  decide

/-- C1 (amended): the candidate spatial layer of `RecalculateTargetLayers` is -1, or at
most the preferred spatial layer, or it is a layer of the producer above the preferred
one that carries bitrate while no layer from the preferred one up to it does; in that
last case the candidate temporal layer is 0. -/
theorem recalculate_spatial_bound (c : SvcConsumer)
    (hfit : ∀ p, c.producerRtpStream = some p → p.layersFit) :
    candidateSpatialLayer c = -1 ∨
    candidateSpatialLayer c ≤ c.preferredSpatialLayer ∨
    ∃ p, c.producerRtpStream = some p ∧
      c.preferredSpatialLayer < candidateSpatialLayer c ∧
      0 ≤ candidateSpatialLayer c ∧
      candidateSpatialLayer c < (p.spatialLayers : Int) ∧
      p.bitrate (candidateSpatialLayer c) 0 ≠ 0 ∧
      (∀ i : Nat, c.preferredSpatialLayer ≤ (i : Int) →
        (i : Int) < candidateSpatialLayer c → p.bitrate (i : Int) 0 = 0) ∧
      candidateTemporalLayer c = 0 := by
  simp only [candidateSpatialLayer, candidateTemporalLayer, RecalculateTargetLayers,
    recalculatedLayers]
  cases hp : c.producerRtpStream with
  | none => left; rfl
  | some p =>
    have hf := (hfit p hp).1
    by_cases hs : p.score = 0
    · left; simp [hs]
    · simp only [hs, if_false]
      rcases recalculateSpatialLoop_spec p c.preferredSpatialLayer p.spatialLayers 0 (-1)
        (by omega) with ⟨h1, _⟩ | ⟨j, _, h2, h3, h4, h5⟩
      · left; exact h1
      · by_cases hle : (j : Int) ≤ c.preferredSpatialLayer
        · right; left; rw [h3]; exact hle
        · right; right
          have hlt : c.preferredSpatialLayer < (j : Int) := by omega
          refine ⟨p, rfl, ?_, ?_, ?_, ?_, ?_, ?_⟩
          · rw [h3]; exact hlt
          · rw [h3]; omega
          · rw [h3]; omega
          · rw [h3]; exact h4
          · intro i hi1 hi2
            rw [h3] at hi2
            exact h5 hlt i (Nat.zero_le _) (by omega) hi1
          · rw [h3]
            have hne : (j : Int) ≠ -1 := by omega
            have hne2 : (j : Int) ≠ c.preferredSpatialLayer := by omega
            have hnlt : ¬ (j : Int) < c.preferredSpatialLayer := by omega
            simp [recalculateTemporalLayer, hne, hne2, hnlt]

/-- C1 (witness): the amended statement at the consumer that prefers layer 0 while only
layer 1 carries bitrate. -/
theorem recalculate_spatial_bound_witness :
    (∀ p, upperLayerOnlyConsumer.producerRtpStream = some p → p.layersFit) ∧
    (candidateSpatialLayer upperLayerOnlyConsumer = -1 ∨
      candidateSpatialLayer upperLayerOnlyConsumer ≤
        upperLayerOnlyConsumer.preferredSpatialLayer ∨
      ∃ p, upperLayerOnlyConsumer.producerRtpStream = some p ∧
        upperLayerOnlyConsumer.preferredSpatialLayer <
          candidateSpatialLayer upperLayerOnlyConsumer ∧
        0 ≤ candidateSpatialLayer upperLayerOnlyConsumer ∧
        candidateSpatialLayer upperLayerOnlyConsumer < (p.spatialLayers : Int) ∧
        p.bitrate (candidateSpatialLayer upperLayerOnlyConsumer) 0 ≠ 0 ∧
        (∀ i : Nat, upperLayerOnlyConsumer.preferredSpatialLayer ≤ (i : Int) →
          (i : Int) < candidateSpatialLayer upperLayerOnlyConsumer →
          p.bitrate (i : Int) 0 = 0) ∧
        candidateTemporalLayer upperLayerOnlyConsumer = 0) :=
  ⟨fun p hp => by cases hp; exact ⟨by decide, by decide⟩,
    recalculate_spatial_bound upperLayerOnlyConsumer
      (fun p hp => by cases hp; exact ⟨by decide, by decide⟩)⟩

/-- C2: the candidate of `RecalculateTargetLayers` is `(-1, -1)` exactly when the
producer stream is absent, or its score is 0, or no spatial layer `s` below
`producer.spatialLayers` has `bitrate(now, s, 0) > 0`; in every other case the
candidate spatial layer is at least 0. -/
theorem recalculate_unset_iff (c : SvcConsumer)
    (hfit : ∀ p, c.producerRtpStream = some p → p.layersFit) :
    ((candidateSpatialLayer c = -1 ∧ candidateTemporalLayer c = -1) ↔
      (c.producerRtpStream = none ∨
        ∃ p, c.producerRtpStream = some p ∧
          (p.score = 0 ∨ ∀ s : Nat, s < p.spatialLayers → p.bitrate (s : Int) 0 = 0))) ∧
    (¬ (candidateSpatialLayer c = -1 ∧ candidateTemporalLayer c = -1) →
      0 ≤ candidateSpatialLayer c) := by
  simp only [candidateSpatialLayer, candidateTemporalLayer, RecalculateTargetLayers,
    recalculatedLayers]
  cases hp : c.producerRtpStream with
  | none => simp
  | some p =>
    have hf := (hfit p hp).1
    by_cases hs : p.score = 0
    · simp [hs]
    · simp only [hs, if_false, false_or, reduceCtorEq, Option.some.injEq, exists_eq_left']
      rcases recalculateSpatialLoop_spec p c.preferredSpatialLayer p.spatialLayers 0 (-1)
        (by omega) with ⟨h1, h2⟩ | ⟨j, _, h2, h3, h4, _⟩
      · rw [h1]
        refine ⟨⟨fun _ s hs => h2 s (Nat.zero_le _) (by omega), fun _ => ?_⟩, fun h => ?_⟩
        · simp [recalculateTemporalLayer]
        · exact absurd ⟨rfl, by simp [recalculateTemporalLayer]⟩ h
      · rw [h3]
        refine ⟨⟨fun h => ?_, fun h => ?_⟩, fun _ => by omega⟩
        · have := h.1; omega
        · exact absurd (h j (by omega)) h4

/-- C2 (witness): the statement at the consumer of scenario 2. -/
theorem recalculate_unset_iff_witness :
    (∀ p, scenarioConsumer.producerRtpStream = some p → p.layersFit) ∧
    (((candidateSpatialLayer scenarioConsumer = -1 ∧
        candidateTemporalLayer scenarioConsumer = -1) ↔
      (scenarioConsumer.producerRtpStream = none ∨
        ∃ p, scenarioConsumer.producerRtpStream = some p ∧
          (p.score = 0 ∨ ∀ s : Nat, s < p.spatialLayers → p.bitrate (s : Int) 0 = 0))) ∧
    (¬ (candidateSpatialLayer scenarioConsumer = -1 ∧
        candidateTemporalLayer scenarioConsumer = -1) →
      0 ≤ candidateSpatialLayer scenarioConsumer)) :=
  ⟨fun p hp => by cases hp; exact ⟨by decide, by decide⟩,
    recalculate_unset_iff scenarioConsumer
      (fun p hp => by cases hp; exact ⟨by decide, by decide⟩)⟩

/-- C3: when `RecalculateTargetLayers` picks a candidate spatial layer `s >= 0`, the
candidate temporal layer is `preferredTemporalLayer` if `s` equals
`preferredSpatialLayer`, and `sendStream.temporalLayers - 1` if `s` is below
`preferredSpatialLayer`. -/
theorem recalculate_temporal (c : SvcConsumer) (hT : c.rtpStream.temporalLayers ≤ 32767)
    (hs : 0 ≤ candidateSpatialLayer c) :
    (candidateSpatialLayer c = c.preferredSpatialLayer →
      candidateTemporalLayer c = c.preferredTemporalLayer) ∧
    (candidateSpatialLayer c < c.preferredSpatialLayer →
      candidateTemporalLayer c = (c.rtpStream.temporalLayers : Int) - 1) := by
  simp only [candidateSpatialLayer, candidateTemporalLayer, RecalculateTargetLayers,
    recalculatedLayers] at hs ⊢
  cases hp : c.producerRtpStream with
  | none => rw [hp] at hs; simp at hs
  | some p =>
    rw [hp] at hs
    by_cases hsc : p.score = 0
    · simp [hsc] at hs
    · simp only [hsc, if_false] at hs ⊢
      generalize recalculateSpatialLoop p c.preferredSpatialLayer p.spatialLayers 0 (-1) = s
        at hs ⊢
      have hne : s ≠ -1 := by omega
      constructor
      · intro h
        rw [recalculateTemporalLayer, if_pos hne, if_pos h]
      · intro h
        have hne2 : s ≠ c.preferredSpatialLayer := by omega
        rw [recalculateTemporalLayer, if_pos hne, if_neg hne2, if_pos h, toInt16_pred _ hT]

/-- C3 (witness): the statement at the consumer of scenario 2, whose candidate spatial
layer is at least 0. -/
theorem recalculate_temporal_witness :
    scenarioConsumer.rtpStream.temporalLayers ≤ 32767 ∧
    0 ≤ candidateSpatialLayer scenarioConsumer ∧
    (candidateSpatialLayer scenarioConsumer = scenarioConsumer.preferredSpatialLayer →
      candidateTemporalLayer scenarioConsumer = scenarioConsumer.preferredTemporalLayer) ∧
    (candidateSpatialLayer scenarioConsumer < scenarioConsumer.preferredSpatialLayer →
      candidateTemporalLayer scenarioConsumer =
        (scenarioConsumer.rtpStream.temporalLayers : Int) - 1) :=
  ⟨by decide, by decide, recalculate_temporal scenarioConsumer (by decide) (by decide)⟩


/-! ## `HandleRequest`, set preferred layers -/

/-- The clamp of lines 174-177 keeps a value below 2^15 that is in range and replaces a
larger one by `layers - 1`. -/
theorem clampPreferredLayer_of_lt (value layers : Nat) (hv : value < 32768)
    (hl : 1 ≤ layers) (hl2 : layers ≤ 32767) :
    clampPreferredLayer value layers = min (value : Int) ((layers : Int) - 1) := by
  unfold clampPreferredLayer toInt16
  simp only
  split <;> omega

/-- C7 (failing input): on a 2x2 encoding the request
`{spatialLayer: 40000, temporalLayer: 40000}` is accepted and leaves both preferences
at -25536, the `int16_t` read of 40000, below 0; `{spatialLayer: 65536}` is accepted
and leaves `preferredSpatialLayer` at 0 instead of the maximum 1. The witness of the
claim, `{spatialLayer: 99, temporalLayer: 99}`, yields `(1, 1)`. -/
theorem setPreferredLayers_wraps :
    (HandleRequest scenarioConsumer
        (Request.setPreferredLayers (some (Json.numberUnsigned 40000))
          (some (Json.numberUnsigned 40000)))).thrown = none ∧
    (HandleRequest scenarioConsumer
        (Request.setPreferredLayers (some (Json.numberUnsigned 40000))
          (some (Json.numberUnsigned 40000)))).consumer.preferredSpatialLayer = -25536 ∧
    (HandleRequest scenarioConsumer
        (Request.setPreferredLayers (some (Json.numberUnsigned 40000))
          (some (Json.numberUnsigned 40000)))).consumer.preferredTemporalLayer = -25536 ∧
    (HandleRequest scenarioConsumer
        (Request.setPreferredLayers (some (Json.numberUnsigned 65536)) none)).thrown = none ∧
    (HandleRequest scenarioConsumer
        (Request.setPreferredLayers (some (Json.numberUnsigned 65536))
          none)).consumer.preferredSpatialLayer = 0 ∧
    (HandleRequest scenarioConsumer
        (Request.setPreferredLayers (some (Json.numberUnsigned 99))
          (some (Json.numberUnsigned 99)))).consumer.preferredSpatialLayer = 1 ∧
    (HandleRequest scenarioConsumer
        (Request.setPreferredLayers (some (Json.numberUnsigned 99))
          (some (Json.numberUnsigned 99)))).consumer.preferredTemporalLayer = 1 := by
  refine ⟨by decide, by decide, by decide, by decide, by decide, by decide, by decide⟩

/-- The field test fails exactly on a missing field and on a field that is not an
unsigned integer. -/
theorem unsignedField_eq_none_iff (sp : Option Json) :
    unsignedField sp = none ↔
      (sp = none ∨ ∃ j, sp = some j ∧ ∀ n, j ≠ Json.numberUnsigned n) := by
  cases sp with
  | none => simp [unsignedField]
  | some j => cases j <;> simp [unsignedField]

/-- C8: a `setPreferredLayers` request is rejected with a type error exactly when its
`spatialLayer` field is missing or is not an unsigned integer; on rejection the
consumer (preferred layers, target layers and every other field) is unchanged and no
call is made (no `Accept`, no `MayChangeLayers`); a request that is not rejected is
accepted. -/
theorem setPreferredLayers_rejected_iff (c : SvcConsumer) (sp tp : Option Json) :
    ((HandleRequest c (Request.setPreferredLayers sp tp)).thrown ≠ none ↔
      (sp = none ∨ ∃ j, sp = some j ∧ ∀ n, j ≠ Json.numberUnsigned n)) ∧
    ((HandleRequest c (Request.setPreferredLayers sp tp)).thrown ≠ none →
      (HandleRequest c (Request.setPreferredLayers sp tp)).consumer = c ∧
      (HandleRequest c (Request.setPreferredLayers sp tp)).effects = []) ∧
    ((HandleRequest c (Request.setPreferredLayers sp tp)).thrown = none →
      Effect.accept ∈ (HandleRequest c (Request.setPreferredLayers sp tp)).effects) := by
  rw [← unsignedField_eq_none_iff]
  simp only [HandleRequest]
  cases h : unsignedField sp with
  | none => simp
  | some n =>
    simp only
    split_ifs <;> simp

/-! ## `GetBitratePriority` -/

/-- While the priority is at least -1, the test of line 318 on it is void. -/
theorem priorityLoop_eq_unguarded (pref : Int) :
    ∀ (k idx : Nat) (priority : Int), idx + k ≤ 32768 → -1 ≤ priority →
      priorityLoop pref k idx priority = priorityLoopUnguarded pref k idx priority := by
  intro k
  induction k with
  | zero => intro idx priority _ _; rfl
  | succ k ih =>
    intro idx priority hk hp
    have hcast : toInt16 (idx : Int) = (idx : Int) := toInt16_of_le idx (by omega)
    simp only [priorityLoop, priorityLoopUnguarded, hcast]
    by_cases h : (idx : Int) > pref
    · simp [h, hp]
    · simp only [h, false_and, if_false]
      exact ih (idx + 1) (idx : Int) (by omega) (by omega)

/-- The loop leaves `priority` when entered above the preferred layer. -/
theorem priorityLoopUnguarded_above (pref : Int) (k idx : Nat) (priority : Int)
    (hk : idx + k ≤ 32768) (h : pref < (idx : Int)) :
    priorityLoopUnguarded pref k idx priority = priority := by
  cases k with
  | zero => rfl
  | succ k =>
    have hcast : toInt16 (idx : Int) = (idx : Int) := toInt16_of_le idx (by omega)
    simp [priorityLoopUnguarded, hcast, h]

/-- Entered at or below the preferred layer with at least one iteration left, the
loop ends on the highest visited layer that does not exceed the preferred one. -/
theorem priorityLoopUnguarded_min (pref : Int) :
    ∀ (k idx : Nat) (priority : Int), idx + (k + 1) ≤ 32768 → (idx : Int) ≤ pref →
      priorityLoopUnguarded pref (k + 1) idx priority = min pref ((idx : Int) + (k : Int)) := by
  intro k
  induction k with
  | zero =>
    intro idx priority hk h
    have hcast : toInt16 (idx : Int) = (idx : Int) := toInt16_of_le idx (by omega)
    have hng : ¬ (idx : Int) > pref := by omega
    simp only [priorityLoopUnguarded, hcast, hng, if_false]
    simp only [Nat.cast_zero, add_zero]
    omega
  | succ k ih =>
    intro idx priority hk h
    have hcast : toInt16 (idx : Int) = (idx : Int) := toInt16_of_le idx (by omega)
    have hng : ¬ (idx : Int) > pref := by omega
    rw [priorityLoopUnguarded]
    simp only [hcast, hng, if_false]
    by_cases h1 : ((idx + 1 : Nat) : Int) ≤ pref
    · rw [ih (idx + 1) (idx : Int) (by omega) h1]
      push_cast
      omega
    · rw [priorityLoopUnguarded_above pref (k + 1) (idx + 1) (idx : Int) (by omega) (by omega)]
      push_cast at h1 ⊢
      omega

/-- The loop result stays between 0 and the last index. -/
theorem priorityLoopUnguarded_range (pref : Int) :
    ∀ (k idx : Nat) (priority : Int), idx + k ≤ 32767 → 0 ≤ priority → priority ≤ 32766 →
      0 ≤ priorityLoopUnguarded pref k idx priority ∧
      priorityLoopUnguarded pref k idx priority ≤ 32766 := by
  intro k
  induction k with
  | zero => intro idx priority _ h0 h1; exact ⟨h0, h1⟩
  | succ k ih =>
    intro idx priority hk h0 h1
    have hcast : toInt16 (idx : Int) = (idx : Int) := toInt16_of_le idx (by omega)
    simp only [priorityLoopUnguarded, hcast]
    split
    · exact ⟨h0, h1⟩
    · exact ih (idx + 1) (idx : Int) (by omega) (by omega) (by omega)

/-- C9: `GetBitratePriority` returns 0 exactly when the consumer is inactive, or the
producer stream is absent, or the producer score is 0; otherwise, with
`preferredSpatialLayer >= 0` and `producer.spatialLayers >= 1`, it returns
`1 + min(preferredSpatialLayer, producer.spatialLayers - 1)`; and the test
`prioritySpatialLayer >= -1` of the loop does not change the result. -/
theorem bitratePriority_spec (c : SvcConsumer)
    (hfit : ∀ p, c.producerRtpStream = some p → p.layersFit) :
    (GetBitratePriority c = 0 ↔
      (Consumer.IsActive c = false ∨ c.producerRtpStream = none ∨
        ∃ p, c.producerRtpStream = some p ∧ p.score = 0)) ∧
    (∀ p, Consumer.IsActive c = true → c.producerRtpStream = some p → p.score ≠ 0 →
      0 ≤ c.preferredSpatialLayer → 1 ≤ p.spatialLayers →
      GetBitratePriority c = 1 + min c.preferredSpatialLayer ((p.spatialLayers : Int) - 1)) ∧
    GetBitratePriority c = GetBitratePriorityUnguarded c := by
  have heq : GetBitratePriority c = GetBitratePriorityUnguarded c := by
    unfold GetBitratePriority GetBitratePriorityUnguarded
    cases hp : c.producerRtpStream with
    | none => rfl
    | some p =>
      have hf := (hfit p hp).1
      simp only
      rw [priorityLoop_eq_unguarded c.preferredSpatialLayer p.spatialLayers 0 0 (by omega)
        (by omega)]
  refine ⟨?_, ?_, heq⟩
  · rw [heq]
    unfold GetBitratePriorityUnguarded
    by_cases ha : Consumer.IsActive c = true
    · cases hp : c.producerRtpStream with
      | none => simp [ha]
      | some p =>
        have hf := (hfit p hp).1
        by_cases hs : p.score = 0
        · simp [ha, hs]
        · have hr := priorityLoopUnguarded_range c.preferredSpatialLayer p.spatialLayers 0 0
            (by omega) (by omega) (by omega)
          simp only [ha, hs, Bool.not_true, Bool.false_eq_true, if_false, reduceCtorEq,
            Option.some.injEq, exists_eq_left', or_self, iff_false]
          unfold toInt16
          omega
    · simp [ha]
  · intro p ha hp hs hpref hS
    have hf := (hfit p hp).1
    rw [heq]
    unfold GetBitratePriorityUnguarded
    simp only [ha, hp, hs, Bool.not_true, Bool.false_eq_true, if_false]
    obtain ⟨k, hk⟩ : ∃ k, p.spatialLayers = k + 1 := ⟨p.spatialLayers - 1, by omega⟩
    rw [hk, priorityLoopUnguarded_min c.preferredSpatialLayer k 0 0 (by omega)
      (by simpa using hpref)]
    unfold toInt16
    push_cast
    omega

/-- C9 (witness): the statement at the consumer of scenario 2. -/
theorem bitratePriority_spec_witness :
    (∀ p, scenarioConsumer.producerRtpStream = some p → p.layersFit) ∧
    ((GetBitratePriority scenarioConsumer = 0 ↔
      (Consumer.IsActive scenarioConsumer = false ∨ scenarioConsumer.producerRtpStream = none ∨
        ∃ p, scenarioConsumer.producerRtpStream = some p ∧ p.score = 0)) ∧
    (∀ p, Consumer.IsActive scenarioConsumer = true →
      scenarioConsumer.producerRtpStream = some p → p.score ≠ 0 →
      0 ≤ scenarioConsumer.preferredSpatialLayer → 1 ≤ p.spatialLayers →
      GetBitratePriority scenarioConsumer =
        1 + min scenarioConsumer.preferredSpatialLayer ((p.spatialLayers : Int) - 1)) ∧
    GetBitratePriority scenarioConsumer = GetBitratePriorityUnguarded scenarioConsumer) :=
  ⟨fun p hp => by cases hp; exact ⟨by decide, by decide⟩,
    bitratePriority_spec scenarioConsumer
      (fun p hp => by cases hp; exact ⟨by decide, by decide⟩)⟩


/-! ## `UseAvailableBitrate` -/


theorem useTemporalLoop_chosen (p : RtpStreamRecv) (ps pt : Int) (vb : Nat) (s : Int) :
    ∀ (k t : Nat) (w : Provisional), w.Chosen p vb →
      (useTemporalLoop p ps pt vb s k t w).1.Chosen p vb := by
  intro k
  induction k with
  | zero => intro t w hw; exact hw
  | succ k ih =>
    intro t w hw
    simp only [useTemporalLoop]
    split_ifs with h1 h2 h3
    · exact hw
    · exact hw
    · exact ⟨by simpa using h2, Or.inr rfl⟩
    · exact ih (t + 1) _ ⟨by simpa using h2, Or.inr rfl⟩

theorem useSpatialLoop_chosen (p : RtpStreamRecv) (ps pt : Int) (vb : Nat) :
    ∀ (k idx : Nat) (w : Provisional), w.Chosen p vb →
      (useSpatialLoop p ps pt vb k idx w).Chosen p vb := by
  intro k
  induction k with
  | zero => intro idx w hw; exact hw
  | succ k ih =>
    intro idx w hw
    simp only [useSpatialLoop]
    have hr := useTemporalLoop_chosen p ps pt vb (toInt16 idx) p.temporalLayers 0 w hw
    split_ifs
    · exact hr
    · exact hr
    · exact ih (idx + 1) _ hr

theorem useProvisional_chosen (c : SvcConsumer) (vb : Nat) :
    (useProvisional c vb).usedBitrate ≤ vb ∧
    ((useProvisional c vb) = ⟨-1, -1, 0⟩ ∨
      ∃ p, c.producerRtpStream = some p ∧
        (useProvisional c vb).usedBitrate =
          p.bitrate (useProvisional c vb).spatialLayer (useProvisional c vb).temporalLayer) := by
  unfold useProvisional
  cases hp : c.producerRtpStream with
  | none => exact ⟨Nat.zero_le _, Or.inl rfl⟩
  | some p =>
    simp only
    split_ifs
    · exact ⟨Nat.zero_le _, Or.inl rfl⟩
    · have h := useSpatialLoop_chosen p c.preferredSpatialLayer c.preferredTemporalLayer vb
        p.spatialLayers 0 ⟨-1, -1, 0⟩ ⟨Nat.zero_le _, Or.inl rfl⟩
      refine ⟨h.1, ?_⟩
      rcases h.2 with h2 | h2
      · exact Or.inl h2
      · exact Or.inr ⟨p, rfl, h2⟩

theorem recomputeUsedBitrate_of_le (r b vb : Nat) (h : r ≤ vb) :
    recomputeUsedBitrate r b vb = min r b := by
  unfold recomputeUsedBitrate
  split_ifs <;> omega


theorem walkPairs_row (p : RtpStreamRecv) (ps pt : Int) (vb : Nat) (idx : Nat)
    (rest : List (Nat × Nat)) :
    ∀ (k t : Nat) (w : Provisional), t + (k + 1) = p.temporalLayers →
      p.temporalLayers ≤ 32767 →
      (∀ t1 : Nat, t ≤ t1 → t1 < p.temporalLayers → p.bitrate (idx : Int) (t1 : Int) ≠ 0) →
      walkPairs true p ps pt vb
          ((List.range' t (k + 1)).map (fun t1 => (idx, t1)) ++ rest) w =
        if (useTemporalLoop p ps pt vb (idx : Int) (k + 1) t w).2 = true then
          (useTemporalLoop p ps pt vb (idx : Int) (k + 1) t w).1
        else if (idx : Int) ≥ ps then (useTemporalLoop p ps pt vb (idx : Int) (k + 1) t w).1
        else walkPairs true p ps pt vb rest
          (useTemporalLoop p ps pt vb (idx : Int) (k + 1) t w).1 := by
  intro k
  induction k with
  | zero =>
    intro t w ht hT hnz
    have hcast : toInt16 (t : Int) = (t : Int) := toInt16_of_le t (by omega)
    have hb := hnz t (le_refl _) (by omega)
    have ht1 : t + 1 = p.temporalLayers := by omega
    simp only [List.range'_one, List.map_cons, List.map_nil, List.cons_append, List.nil_append,
      walkPairs, useTemporalLoop, hcast, hb, if_false, ht1, true_and]
    split_ifs <;> simp_all
  | succ k ih =>
    intro t w ht hT hnz
    have hcast : toInt16 (t : Int) = (t : Int) := toInt16_of_le t (by omega)
    have hb := hnz t (le_refl _) (by omega)
    have ht1 : ¬ t + 1 = p.temporalLayers := by omega
    rw [List.range'_succ, List.map_cons, List.cons_append, walkPairs, useTemporalLoop]
    simp only [hcast, hb, if_false, ht1, false_and, and_false]
    by_cases h1 : p.bitrate (idx : Int) (t : Int) > vb
    · simp [h1]
    · simp only [h1, if_false]
      by_cases h2 : (idx : Int) = ps ∧ (t : Int) = pt
      · simp [h2]
      · simp only [h2, if_false]
        exact ih (t + 1) _ (by omega) hT (fun t1 h3 h4 => hnz t1 (by omega) h4)


theorem useSpatialLoop_no_temporal (p : RtpStreamRecv) (ps pt : Int) (vb : Nat)
    (hT : p.temporalLayers = 0) :
    ∀ (k idx : Nat) (w : Provisional), useSpatialLoop p ps pt vb k idx w = w := by
  intro k
  induction k with
  | zero => intro idx w; rfl
  | succ k ih =>
    intro idx w
    simp only [useSpatialLoop, hT, useTemporalLoop, Bool.false_eq_true, if_false]
    split_ifs
    · rfl
    · exact ih (idx + 1) w

theorem walkPairs_rows (p : RtpStreamRecv) (ps pt : Int) (vb : Nat)
    (hT0 : 1 ≤ p.temporalLayers) (hT : p.temporalLayers ≤ 32767) :
    ∀ (k idx : Nat) (w : Provisional), idx + k ≤ 32767 →
      (∀ s t : Nat, idx ≤ s → s < idx + k → t < p.temporalLayers →
        p.bitrate (s : Int) (t : Int) ≠ 0) →
      walkPairs true p ps pt vb
          ((List.range' idx k).flatMap fun s =>
            (List.range' 0 p.temporalLayers).map fun t => (s, t)) w =
        useSpatialLoop p ps pt vb k idx w := by
  intro k
  induction k with
  | zero => intro idx w _ _; rfl
  | succ k ih =>
    intro idx w hk hnz
    have hcast : toInt16 (idx : Int) = (idx : Int) := toInt16_of_le idx (by omega)
    obtain ⟨n, hn⟩ : ∃ n, p.temporalLayers = n + 1 := ⟨p.temporalLayers - 1, by omega⟩
    rw [List.range'_succ, List.flatMap_cons]
    have hrow := walkPairs_row p ps pt vb idx
      ((List.range' (idx + 1) k).flatMap fun s =>
        (List.range' 0 p.temporalLayers).map fun t => (s, t))
      n 0 w (by omega) hT (fun t1 _ h => hnz idx t1 (le_refl _) (by omega) h)
    rw [← hn] at hrow
    rw [hrow, useSpatialLoop]
    simp only [hcast]
    split_ifs
    · rfl
    · rfl
    · exact ih (idx + 1) _ (by omega) (fun s t h1 h2 h3 => hnz s t (by omega) (by omega) h3)

theorem walkWithRowStop_eq (c : SvcConsumer) (p : RtpStreamRecv) (vb : Nat)
    (hfit : p.layersFit)
    (hnz : ∀ s t : Nat, s < p.spatialLayers → t < p.temporalLayers →
      p.bitrate (s : Int) (t : Int) ≠ 0) :
    walkWithRowStop c p vb =
      useSpatialLoop p c.preferredSpatialLayer c.preferredTemporalLayer vb
        p.spatialLayers 0 ⟨-1, -1, 0⟩ := by
  unfold walkWithRowStop rowMajor
  by_cases hT0 : p.temporalLayers = 0
  · rw [useSpatialLoop_no_temporal p _ _ vb hT0]
    have : ((List.range' 0 p.spatialLayers).flatMap fun s =>
        (List.range' 0 p.temporalLayers).map fun t => (s, t)) = [] := by
      simp [hT0]
    rw [this]
    rfl
  · exact walkPairs_rows p _ _ vb (by omega) hfit.2 p.spatialLayers 0 _ (by have := hfit.1; omega)
      (fun s t _ h2 h3 => hnz s t (by omega) h3)


/-- C4 (as stated, refuted): the producer has the pairs `(0,0)` and `(1,0)`, both
affordable with the virtual bitrate 540000, and the consumer prefers `(0,1)`. The walk
of the claim goes on to `(1,0)`; `UseAvailableBitrate` stops at the end of row 0
with the provisional layers `(0,0)` and returns 100000. -/
theorem useAvailableBitrate_row_end_counterexample :
    rowEndConsumer.externallyManagedBitrate = true ∧
    Consumer.IsActive rowEndConsumer = true ∧
    rowEndConsumer.producerRtpStream = some singleTemporalProducer ∧
    7 ≤ singleTemporalProducer.score ∧
    virtualBitrate exactArith rowEndConsumer.rtpStream.lossPercentage 500000 = 540000 ∧
    walkAsSpecified rowEndConsumer singleTemporalProducer 540000 = ⟨1, 0, 200000⟩ ∧
    provisionalAndReturn (UseAvailableBitrate exactArith rowEndConsumer 500000) =
      some (0, 0, 100000) := by
  refine ⟨rfl, rfl, rfl, by decide, by decide, by decide, by decide⟩

/-- C4 (amended): for an active externally-managed consumer whose producer has score at
least 7 and carries bitrate on every pair, `UseAvailableBitrate(bitrate)` walks the
pairs in row-major order and stops at the preferred pair, before the first pair whose
required bitrate exceeds `virtualBitrate`, or at the end of a row whose spatial layer
is at or above the preferred one; the provisional layers become the last pair reached
(`(-1,-1)` if none) and the returned value is `min(r, bitrate)` for that pair's
required bitrate `r`. -/
theorem useAvailableBitrate_walk (fa : FloatArith) (c : SvcConsumer) (p : RtpStreamRecv)
    (bitrate : Nat) (hext : c.externallyManagedBitrate = true)
    (hact : Consumer.IsActive c = true) (hp : c.producerRtpStream = some p)
    (hscore : 7 ≤ p.score) (hfit : p.layersFit)
    (hnz : ∀ s t : Nat, s < p.spatialLayers → t < p.temporalLayers →
      p.bitrate (s : Int) (t : Int) ≠ 0) :
    UseAvailableBitrate fa c bitrate =
      some ({ c with
          provisionalTargetSpatialLayer :=
            (walkWithRowStop c p
              (virtualBitrate fa c.rtpStream.lossPercentage bitrate)).spatialLayer
          provisionalTargetTemporalLayer :=
            (walkWithRowStop c p
              (virtualBitrate fa c.rtpStream.lossPercentage bitrate)).temporalLayer },
        min (walkWithRowStop c p
          (virtualBitrate fa c.rtpStream.lossPercentage bitrate)).usedBitrate bitrate) := by
  have hw := walkWithRowStop_eq c p (virtualBitrate fa c.rtpStream.lossPercentage bitrate)
    hfit hnz
  have hu : useProvisional c (virtualBitrate fa c.rtpStream.lossPercentage bitrate) =
      walkWithRowStop c p (virtualBitrate fa c.rtpStream.lossPercentage bitrate) := by
    rw [hw]
    unfold useProvisional
    have hs : ¬ p.score < 7 := by omega
    simp only [hp, hs, if_false]
  have hc := (useProvisional_chosen c
    (virtualBitrate fa c.rtpStream.lossPercentage bitrate)).1
  unfold UseAvailableBitrate
  simp only [hext, hact, Bool.not_true, Bool.false_eq_true, if_false]
  rw [recomputeUsedBitrate_of_le _ _ _ hc, hu]

/-- C4 (witness): scenario 2 of the specification. With 500000 bps and no loss the
virtual bitrate is 540000, the provisional layers become `(1,0)` and 400000 is
returned. -/
theorem useAvailableBitrate_walk_witness :
    virtualBitrate exactArith scenarioConsumer.rtpStream.lossPercentage 500000 = 540000 ∧
    walkWithRowStop scenarioConsumer scenarioProducer 540000 = ⟨1, 0, 400000⟩ ∧
    provisionalAndReturn (UseAvailableBitrate exactArith scenarioConsumer 500000) =
      some (1, 0, 400000) ∧
    UseAvailableBitrate exactArith scenarioConsumer 500000 =
      some ({ scenarioConsumer with
          provisionalTargetSpatialLayer :=
            (walkWithRowStop scenarioConsumer scenarioProducer
              (virtualBitrate exactArith scenarioConsumer.rtpStream.lossPercentage
                500000)).spatialLayer
          provisionalTargetTemporalLayer :=
            (walkWithRowStop scenarioConsumer scenarioProducer
              (virtualBitrate exactArith scenarioConsumer.rtpStream.lossPercentage
                500000)).temporalLayer },
        min (walkWithRowStop scenarioConsumer scenarioProducer
          (virtualBitrate exactArith scenarioConsumer.rtpStream.lossPercentage
            500000)).usedBitrate 500000) :=
  ⟨by decide, by decide, by decide,
    useAvailableBitrate_walk exactArith scenarioConsumer scenarioProducer 500000 rfl rfl rfl
      (by decide) ⟨by decide, by decide⟩
      (fun s t hs ht => by
        have hs2 : s < 2 := hs
        have ht2 : t < 2 := ht
        interval_cases s <;> interval_cases t <;> decide)⟩


/-! ## `IncreaseLayer` -/

/-- C5 (failing input): the consumer is active and externally managed, prefers `(1,1)`
and holds the provisional layers `(0,1)`, as left by `UseAvailableBitrate(300000)`,
over a producer with two temporal layers and score 8, so the temporal layer is
saturated; every layer is affordable with the
virtual bitrate 540000. The ladder step of `IncreaseLayer` leads to `(0,0)`: the
temporal layer is reset and the spatial layer is not increased. -/
theorem increaseLayer_saturated_keeps_spatial :
    UseAvailableBitrate exactArith scenarioConsumer 300000 =
      some (saturatedConsumer, 200000) ∧
    Consumer.IsActive saturatedConsumer = true ∧
    saturatedConsumer.externallyManagedBitrate = true ∧
    saturatedConsumer.producerRtpStream = some scenarioProducer ∧
    7 ≤ scenarioProducer.score ∧
    virtualBitrate exactArith saturatedConsumer.rtpStream.lossPercentage 500000 = 540000 ∧
    scenarioProducer.bitrate 1 0 ≤ 540000 ∧
    scenarioProducer.layerBitrate 1 0 ≤ 540000 ∧
    scenarioProducer.layerBitrate 0 0 ≤ 540000 ∧
    increaseStep saturatedConsumer scenarioProducer = some (0, 0) ∧
    provisionalAndReturn (IncreaseLayer exactArith saturatedConsumer 500000) =
      some (0, 0, 100000) := by
  refine ⟨rfl, rfl, rfl, rfl, by decide, by decide, by decide, by decide, by decide,
    by decide, by decide⟩

/-- C6 (failing input): over the producer whose pair `(1,1)` requires 1000000 bps (600000
for the layer alone), `UseAvailableBitrate(500000)` leaves the provisional layers at
`(1,0)` with the virtual bitrate 540000. The step of `IncreaseLayer(500000)` leads to
`(1,1)`, which is not affordable, but the function reads the layer bitrate of spatial
layer 0 at temporal layer 1, which is 100000: it moves the provisional layers to
`(1,1)` and returns 100000. In the state of scenario 3 it does the same. -/
theorem increaseLayer_reads_base_layer :
    UseAvailableBitrate exactArith heavyTopConsumer 500000 =
      some (heavyTopConsumerAfterUse, 400000) ∧
    virtualBitrate exactArith heavyTopConsumerAfterUse.rtpStream.lossPercentage 500000 =
      540000 ∧
    increaseStep heavyTopConsumerAfterUse heavyTopProducer = some (1, 1) ∧
    heavyTopProducer.bitrate 1 1 > 540000 ∧
    heavyTopProducer.layerBitrate 1 1 > 540000 ∧
    heavyTopProducer.layerBitrate 0 1 = 100000 ∧
    provisionalAndReturn (IncreaseLayer exactArith heavyTopConsumerAfterUse 500000) =
      some (1, 1, 100000) ∧
    scenarioProducer.bitrate 1 1 = 800000 ∧
    provisionalAndReturn (IncreaseLayer exactArith scenarioConsumerAfterUse 500000) =
      some (1, 1, 100000) := by
  refine ⟨rfl, by decide, by decide, by decide, by decide, by decide, by decide,
    by decide, by decide⟩

/-- When the layer bitrate that `IncreaseLayer` reads for its step,
`GetLayerBitrate(now, 0, t)`, exceeds `virtualBitrate`, the function returns 0 and
leaves the consumer unchanged. -/
theorem increaseLayer_unaffordable (fa : FloatArith) (c : SvcConsumer) (p : RtpStreamRecv)
    (bitrate : Nat) (s t : Int) (hext : c.externallyManagedBitrate = true)
    (hp : c.producerRtpStream = some p) (hstep : increaseStep c p = some (s, t))
    (hcost : p.layerBitrate 0 t > virtualBitrate fa c.rtpStream.lossPercentage bitrate) :
    IncreaseLayer fa c bitrate = some (c, 0) := by
  unfold IncreaseLayer
  simp only [hext, Bool.not_true, Bool.false_eq_true, if_false, hp, hstep, increaseTo, hcost,
    if_true]
  split_ifs <;> rfl

/-! ## Returned bitrate -/

/-- The value of lines 429-434 stays below the larger of the two budgets when the
used bitrate is within the virtual bitrate. -/
theorem recomputeUsedBitrate_le_max (r b vb : Nat) (h : r ≤ vb) :
    recomputeUsedBitrate r b vb ≤ max b vb := by
  rw [recomputeUsedBitrate_of_le r b vb h]
  omega

/-- C10: for every bitrate `b` and every loss percentage, `UseAvailableBitrate(b)`
returns, for the required bitrate `r` of the pair it chose (0 when it chose none),
`r` if `r <= b`, else `b` if `r <= virtualBitrate`, else `r`, and the returned value
is at most `max(b, virtualBitrate)`. The same holds for `IncreaseLayer(b)`, where `r`
is the layer bitrate read for the step it took, or 0 when it took none and left the
consumer unchanged. Both calls return: the first whenever the bitrate is externally
managed, the second when in addition the producer stream exists or no provisional
spatial layer is set. -/
theorem bitrate_return_rule (fa : FloatArith) (c : SvcConsumer) (b : Nat)
    (hext : c.externallyManagedBitrate = true) :
    (∃ c1 r, UseAvailableBitrate fa c b =
        some (c1, if r ≤ b then r
          else if r ≤ virtualBitrate fa c.rtpStream.lossPercentage b then b else r) ∧
      (if r ≤ b then r
        else if r ≤ virtualBitrate fa c.rtpStream.lossPercentage b then b else r) ≤
        max b (virtualBitrate fa c.rtpStream.lossPercentage b) ∧
      (r = 0 ∨ ∃ p, c.producerRtpStream = some p ∧
        r = p.bitrate c1.provisionalTargetSpatialLayer c1.provisionalTargetTemporalLayer)) ∧
    (c.provisionalTargetSpatialLayer = -1 ∨ c.producerRtpStream ≠ none →
      ∃ c1 r, IncreaseLayer fa c b =
        some (c1, if r ≤ b then r
          else if r ≤ virtualBitrate fa c.rtpStream.lossPercentage b then b else r) ∧
      (if r ≤ b then r
        else if r ≤ virtualBitrate fa c.rtpStream.lossPercentage b then b else r) ≤
        max b (virtualBitrate fa c.rtpStream.lossPercentage b) ∧
      ((r = 0 ∧ c1 = c) ∨ ∃ p, c.producerRtpStream = some p ∧
        r = p.layerBitrate 0 c1.provisionalTargetTemporalLayer)) := by
  have hzero : ∀ vb : Nat, (if 0 ≤ b then 0 else if 0 ≤ vb then b else 0) = 0 := by
    intro vb; simp
  constructor
  · unfold UseAvailableBitrate
    simp only [hext, Bool.not_true, Bool.false_eq_true, if_false]
    by_cases hact : Consumer.IsActive c = true
    · simp only [hact, Bool.not_true, Bool.false_eq_true, if_false]
      have hch := useProvisional_chosen c (virtualBitrate fa c.rtpStream.lossPercentage b)
      refine ⟨_, (useProvisional c (virtualBitrate fa c.rtpStream.lossPercentage b)).usedBitrate,
        rfl, recomputeUsedBitrate_le_max _ _ _ hch.1, ?_⟩
      rcases hch.2 with h | ⟨p, hp, h⟩
      · left; rw [h]
      · right; exact ⟨p, hp, h⟩
    · simp only [hact, Bool.not_false, if_true]
      refine ⟨c, 0, ?_, ?_, Or.inl rfl⟩
      · rw [hzero]
      · rw [hzero]; exact Nat.zero_le _
  · intro hprod
    have hret0 : ∀ Q : SvcConsumer → Nat → Prop, ∃ c1 r, some (c, 0) =
          some (c1, if r ≤ b then r
            else if r ≤ virtualBitrate fa c.rtpStream.lossPercentage b then b else r) ∧
        (if r ≤ b then r
          else if r ≤ virtualBitrate fa c.rtpStream.lossPercentage b then b else r) ≤
          max b (virtualBitrate fa c.rtpStream.lossPercentage b) ∧
        ((r = 0 ∧ c1 = c) ∨ Q c1 r) := by
      intro Q
      refine ⟨c, 0, ?_, ?_, Or.inl ⟨rfl, rfl⟩⟩
      · rw [hzero]
      · rw [hzero]; exact Nat.zero_le _
    unfold IncreaseLayer
    simp only [hext, Bool.not_true, Bool.false_eq_true, if_false]
    by_cases hact : Consumer.IsActive c = true
    swap
    · simp only [hact, Bool.not_false, if_true]
      exact hret0 _
    simp only [hact, Bool.not_true, Bool.false_eq_true, if_false]
    by_cases hpref : c.provisionalTargetSpatialLayer = c.preferredSpatialLayer ∧
        c.provisionalTargetTemporalLayer = c.preferredTemporalLayer
    · simp only [hpref, and_self, if_true]
      exact hret0 _
    · simp only [hpref, if_false]
      cases hp : c.producerRtpStream with
      | none =>
        have h1 : c.provisionalTargetSpatialLayer = -1 := by
          rcases hprod with h | h
          · exact h
          · exact absurd hp h
        simp only [h1, if_true]
        exact hret0 _
      | some p =>
        simp only
        cases hstep : increaseStep c p with
        | none => exact hret0 _
        | some st =>
          obtain ⟨s, t⟩ := st
          simp only [increaseTo]
          by_cases hcost : p.layerBitrate 0 t > virtualBitrate fa c.rtpStream.lossPercentage b
          · simp only [hcost, if_true]
            exact hret0 _
          · simp only [hcost, if_false]
            exact ⟨_, p.layerBitrate 0 t, rfl,
              recomputeUsedBitrate_le_max _ _ _ (by omega), Or.inr ⟨p, rfl, rfl⟩⟩

/-- C10 (witness): the statement at the consumer of scenario 3 with 300000 bps, together
with the two calls as observed there: `UseAvailableBitrate` chooses `(0,1)` and returns
200000, `IncreaseLayer` moves to `(1,1)` and returns 100000. -/
theorem bitrate_return_rule_witness :
    scenarioConsumerAfterUse.externallyManagedBitrate = true ∧
    provisionalAndReturn (UseAvailableBitrate exactArith scenarioConsumerAfterUse 300000) =
      some (0, 1, 200000) ∧
    provisionalAndReturn (IncreaseLayer exactArith scenarioConsumerAfterUse 300000) =
      some (1, 1, 100000) ∧
    (∃ c1 r, UseAvailableBitrate exactArith scenarioConsumerAfterUse 300000 =
        some (c1, if r ≤ 300000 then r
          else if r ≤ virtualBitrate exactArith
            scenarioConsumerAfterUse.rtpStream.lossPercentage 300000 then 300000 else r) ∧
      (if r ≤ 300000 then r
        else if r ≤ virtualBitrate exactArith
          scenarioConsumerAfterUse.rtpStream.lossPercentage 300000 then 300000 else r) ≤
        max 300000 (virtualBitrate exactArith
          scenarioConsumerAfterUse.rtpStream.lossPercentage 300000) ∧
      (r = 0 ∨ ∃ p, scenarioConsumerAfterUse.producerRtpStream = some p ∧
        r = p.bitrate c1.provisionalTargetSpatialLayer c1.provisionalTargetTemporalLayer)) ∧
    (scenarioConsumerAfterUse.provisionalTargetSpatialLayer = -1 ∨
        scenarioConsumerAfterUse.producerRtpStream ≠ none →
      ∃ c1 r, IncreaseLayer exactArith scenarioConsumerAfterUse 300000 =
        some (c1, if r ≤ 300000 then r
          else if r ≤ virtualBitrate exactArith
            scenarioConsumerAfterUse.rtpStream.lossPercentage 300000 then 300000 else r) ∧
      (if r ≤ 300000 then r
        else if r ≤ virtualBitrate exactArith
          scenarioConsumerAfterUse.rtpStream.lossPercentage 300000 then 300000 else r) ≤
        max 300000 (virtualBitrate exactArith
          scenarioConsumerAfterUse.rtpStream.lossPercentage 300000) ∧
      ((r = 0 ∧ c1 = scenarioConsumerAfterUse) ∨
        ∃ p, scenarioConsumerAfterUse.producerRtpStream = some p ∧
          r = p.layerBitrate 0 c1.provisionalTargetTemporalLayer)) :=
  ⟨rfl, by decide, by decide,
    bitrate_return_rule exactArith scenarioConsumerAfterUse 300000 rfl⟩

/-! ## `UseAvailableBitrate` with a weak producer, `ApplyLayers` -/

/-- C11: for an active externally-managed consumer whose producer stream is absent or
has a score below 7, `UseAvailableBitrate(bitrate)` leaves the provisional layers at
`(-1,-1)` and returns 0, whatever the bitrate and the previous provisional layers. -/
theorem useAvailableBitrate_weak_producer (fa : FloatArith) (c : SvcConsumer) (bitrate : Nat)
    (hext : c.externallyManagedBitrate = true) (hact : Consumer.IsActive c = true)
    (hweak : c.producerRtpStream = none ∨
      ∃ p, c.producerRtpStream = some p ∧ p.score < 7) :
    UseAvailableBitrate fa c bitrate =
      some ({ c with
          provisionalTargetSpatialLayer := -1
          provisionalTargetTemporalLayer := -1 }, 0) := by
  have hw : ∀ vb, useProvisional c vb = ⟨-1, -1, 0⟩ := by
    intro vb
    unfold useProvisional
    rcases hweak with h | ⟨p, hp, hs⟩
    · rw [h]
    · rw [hp]
      simp only [hs, if_true]
  unfold UseAvailableBitrate
  simp only [hext, hact, Bool.not_true, Bool.false_eq_true, if_false, hw, recomputeUsedBitrate,
    Nat.zero_le, if_true]

/-- C11 (witness): the consumer of scenario 3 over a producer with score 6, which holds
the provisional layers `(1,0)` before the call. -/
theorem useAvailableBitrate_weak_producer_witness :
    weakProducerConsumer.provisionalTargetSpatialLayer = 1 ∧
    provisionalAndReturn (UseAvailableBitrate exactArith weakProducerConsumer 500000) =
      some (-1, -1, 0) ∧
    UseAvailableBitrate exactArith weakProducerConsumer 500000 =
      some ({ weakProducerConsumer with
          provisionalTargetSpatialLayer := -1
          provisionalTargetTemporalLayer := -1 }, 0) :=
  ⟨by decide, by decide,
    useAvailableBitrate_weak_producer exactArith weakProducerConsumer 500000 rfl rfl
      (Or.inr ⟨_, rfl, by decide⟩)⟩

/-- `UpdateTargetLayers` leaves the provisional layers as they are. -/
theorem updateTargetLayers_provisional (c : SvcConsumer) (s t : Int) :
    (UpdateTargetLayers c s t).1.provisionalTargetSpatialLayer =
      c.provisionalTargetSpatialLayer ∧
    (UpdateTargetLayers c s t).1.provisionalTargetTemporalLayer =
      c.provisionalTargetTemporalLayer := by
  unfold UpdateTargetLayers
  dsimp only
  split_ifs <;> exact ⟨rfl, rfl⟩

/-- The target layers after `UpdateTargetLayers(s, t)`: `(-1,-1)` when `s` is -1, else
`(s, t)`. -/
theorem updateTargetLayers_target (c : SvcConsumer) (s t : Int) :
    (s = -1 →
      (UpdateTargetLayers c s t).1.encodingContext.targetSpatialLayer = -1 ∧
      (UpdateTargetLayers c s t).1.encodingContext.targetTemporalLayer = -1) ∧
    (s ≠ -1 →
      (UpdateTargetLayers c s t).1.encodingContext.targetSpatialLayer = s ∧
      (UpdateTargetLayers c s t).1.encodingContext.targetTemporalLayer = t) := by
  unfold UpdateTargetLayers
  constructor
  · intro h
    simp [h]
  · intro h
    simp only [h, if_false]
    split_ifs <;> exact ⟨rfl, rfl⟩

/-- C12: after every call of `ApplyLayers` on an externally-managed consumer the
provisional layers are both -1, active or not; when the consumer is active and the
provisional pair held before the call differs from the target pair, the call is
`UpdateTargetLayers` with that pair, which becomes the target pair; when the consumer
is inactive or the pairs are equal, the target and current layers are unchanged and
no call is made. -/
theorem applyLayers_spec (c : SvcConsumer) (hext : c.externallyManagedBitrate = true) :
    ∃ c1 effects, ApplyLayers c = some (c1, effects) ∧
      c1.provisionalTargetSpatialLayer = -1 ∧ c1.provisionalTargetTemporalLayer = -1 ∧
      (Consumer.IsActive c = true ∧
          (c.provisionalTargetSpatialLayer ≠ c.encodingContext.targetSpatialLayer ∨
            c.provisionalTargetTemporalLayer ≠ c.encodingContext.targetTemporalLayer) →
        (c1, effects) =
          UpdateTargetLayers (resetProvisional c)
            c.provisionalTargetSpatialLayer c.provisionalTargetTemporalLayer ∧
        (c.provisionalTargetSpatialLayer ≠ -1 ∨ c.provisionalTargetTemporalLayer = -1 →
          c1.encodingContext.targetSpatialLayer = c.provisionalTargetSpatialLayer ∧
          c1.encodingContext.targetTemporalLayer = c.provisionalTargetTemporalLayer)) ∧
      (Consumer.IsActive c = false ∨
          (c.provisionalTargetSpatialLayer = c.encodingContext.targetSpatialLayer ∧
            c.provisionalTargetTemporalLayer = c.encodingContext.targetTemporalLayer) →
        c1.encodingContext = c.encodingContext ∧ effects = []) := by
  have hreset : Consumer.IsActive (resetProvisional c) = Consumer.IsActive c := rfl
  have hctx : (resetProvisional c).encodingContext = c.encodingContext := rfl
  unfold ApplyLayers
  simp only [hext, Bool.not_true, Bool.false_eq_true, if_false, hreset, hctx]
  by_cases hact : Consumer.IsActive c = true
  · simp only [hact, Bool.not_true, Bool.false_eq_true, if_false]
    by_cases hd : c.provisionalTargetSpatialLayer ≠ c.encodingContext.targetSpatialLayer ∨
        c.provisionalTargetTemporalLayer ≠ c.encodingContext.targetTemporalLayer
    · simp only [hd, if_true]
      have hp := updateTargetLayers_provisional (resetProvisional c)
        c.provisionalTargetSpatialLayer c.provisionalTargetTemporalLayer
      have ht := updateTargetLayers_target (resetProvisional c)
        c.provisionalTargetSpatialLayer c.provisionalTargetTemporalLayer
      refine ⟨_, _, rfl, hp.1, hp.2, fun _ => ⟨rfl, fun h => ?_⟩, fun h => ?_⟩
      · by_cases hs : c.provisionalTargetSpatialLayer = -1
        · have hpt : c.provisionalTargetTemporalLayer = -1 := by
            rcases h with h | h
            · exact absurd hs h
            · exact h
          have := ht.1 hs
          exact ⟨this.1.trans hs.symm, this.2.trans hpt.symm⟩
        · exact ht.2 hs
      · rcases h with h | h
        · cases h
        · exact absurd h (by
            intro hh
            rcases hd with hd | hd
            · exact hd hh.1
            · exact hd hh.2)
    · simp only [hd, if_false]
      refine ⟨_, _, rfl, rfl, rfl, fun h => h.2.elim, fun _ => ⟨rfl, rfl⟩⟩
  · have hact0 : Consumer.IsActive c = false := by simpa using hact
    simp only [hact0, Bool.not_false, if_true]
    refine ⟨_, _, rfl, rfl, rfl, fun h => ?_, fun _ => ⟨rfl, rfl⟩⟩
    exact absurd h.1 (by simp)

/-- C12 (witness): the consumer of scenario 3, whose provisional layers `(1,0)` differ
from its target layers `(-1,-1)`. -/
theorem applyLayers_spec_witness :
    (ApplyLayers scenarioConsumerAfterUse).map
        (fun r => (r.1.encodingContext.targetSpatialLayer,
          r.1.encodingContext.targetTemporalLayer, r.2)) =
      some (1, 0, [Effect.keyFrameRequested 1111]) ∧
    ∃ c1 effects, ApplyLayers scenarioConsumerAfterUse = some (c1, effects) ∧
      c1.provisionalTargetSpatialLayer = -1 ∧ c1.provisionalTargetTemporalLayer = -1 ∧
      (Consumer.IsActive scenarioConsumerAfterUse = true ∧
          (scenarioConsumerAfterUse.provisionalTargetSpatialLayer ≠
              scenarioConsumerAfterUse.encodingContext.targetSpatialLayer ∨
            scenarioConsumerAfterUse.provisionalTargetTemporalLayer ≠
              scenarioConsumerAfterUse.encodingContext.targetTemporalLayer) →
        (c1, effects) =
          UpdateTargetLayers (resetProvisional scenarioConsumerAfterUse)
            scenarioConsumerAfterUse.provisionalTargetSpatialLayer
            scenarioConsumerAfterUse.provisionalTargetTemporalLayer ∧
        (scenarioConsumerAfterUse.provisionalTargetSpatialLayer ≠ -1 ∨
            scenarioConsumerAfterUse.provisionalTargetTemporalLayer = -1 →
          c1.encodingContext.targetSpatialLayer =
            scenarioConsumerAfterUse.provisionalTargetSpatialLayer ∧
          c1.encodingContext.targetTemporalLayer =
            scenarioConsumerAfterUse.provisionalTargetTemporalLayer)) ∧
      (Consumer.IsActive scenarioConsumerAfterUse = false ∨
          (scenarioConsumerAfterUse.provisionalTargetSpatialLayer =
              scenarioConsumerAfterUse.encodingContext.targetSpatialLayer ∧
            scenarioConsumerAfterUse.provisionalTargetTemporalLayer =
              scenarioConsumerAfterUse.encodingContext.targetTemporalLayer) →
        c1.encodingContext = scenarioConsumerAfterUse.encodingContext ∧ effects = []) :=
  ⟨by decide, applyLayers_spec scenarioConsumerAfterUse rfl⟩

/-! ## Pausing -/

/-- `UpdateTargetLayers(-1, -1)` clears the target and current layers and emits one
`layerschange` notification with a null payload. -/
theorem updateTargetLayers_unset (c : SvcConsumer) :
    UpdateTargetLayers c (-1) (-1) =
      ({ c with encodingContext := ⟨-1, -1, -1, -1⟩ }, [Effect.layersChange none]) := by
  unfold UpdateTargetLayers EmitLayersChange
  simp

/-- C16: `UserOnTransportDisconnected` and `UserOnPaused` pause the send stream, set
the target and the current layers to `(-1,-1)` and emit exactly one `layerschange`
notification, whose payload is null (whether or not the target layers were `(-1,-1)`
already); `UserOnPaused` then notifies the allocator exactly when the bitrate is
externally managed, and `UserOnTransportDisconnected` never does. -/
theorem pausing_spec (c : SvcConsumer) :
    (UserOnTransportDisconnected c).1.rtpStream.paused = true ∧
    (UserOnTransportDisconnected c).1.encodingContext = ⟨-1, -1, -1, -1⟩ ∧
    (UserOnTransportDisconnected c).2 = [Effect.layersChange none] ∧
    (UserOnPaused c).1.rtpStream.paused = true ∧
    (UserOnPaused c).1.encodingContext = ⟨-1, -1, -1, -1⟩ ∧
    layersChangeNotifications (UserOnPaused c).2 = [none] ∧
    (c.externallyManagedBitrate = true →
      (UserOnPaused c).2 = [Effect.layersChange none, Effect.needBitrateChange]) ∧
    (c.externallyManagedBitrate = false → (UserOnPaused c).2 = [Effect.layersChange none]) := by
  have hd : UserOnTransportDisconnected c =
      ({ pauseRtpStream c with encodingContext := ⟨-1, -1, -1, -1⟩ },
        [Effect.layersChange none]) := by
    unfold UserOnTransportDisconnected
    rw [updateTargetLayers_unset]
  have hp : UserOnPaused c =
      ({ pauseRtpStream c with encodingContext := ⟨-1, -1, -1, -1⟩ },
        if c.externallyManagedBitrate = true then
          [Effect.layersChange none, Effect.needBitrateChange]
        else [Effect.layersChange none]) := by
    unfold UserOnPaused
    rw [updateTargetLayers_unset]
    by_cases h : c.externallyManagedBitrate = true
    · simp [pauseRtpStream, h]
    · simp [pauseRtpStream, h]
  rw [hd, hp]
  refine ⟨rfl, rfl, rfl, rfl, rfl, ?_, ?_, ?_⟩
  · by_cases h : c.externallyManagedBitrate = true
    · simp [h, layersChangeNotifications]
    · simp [h, layersChangeNotifications]
  · intro h
    simp [h]
  · intro h
    simp [h]

/-- C16 (witness): the statement at the consumer of scenario 3, which is externally
managed. -/
theorem pausing_spec_witness :
    scenarioConsumerAfterUse.externallyManagedBitrate = true ∧
    (UserOnTransportDisconnected scenarioConsumerAfterUse).1.rtpStream.paused = true ∧
    (UserOnTransportDisconnected scenarioConsumerAfterUse).1.encodingContext =
      ⟨-1, -1, -1, -1⟩ ∧
    (UserOnTransportDisconnected scenarioConsumerAfterUse).2 = [Effect.layersChange none] ∧
    (UserOnPaused scenarioConsumerAfterUse).1.rtpStream.paused = true ∧
    (UserOnPaused scenarioConsumerAfterUse).1.encodingContext = ⟨-1, -1, -1, -1⟩ ∧
    layersChangeNotifications (UserOnPaused scenarioConsumerAfterUse).2 = [none] ∧
    (scenarioConsumerAfterUse.externallyManagedBitrate = true →
      (UserOnPaused scenarioConsumerAfterUse).2 =
        [Effect.layersChange none, Effect.needBitrateChange]) ∧
    (scenarioConsumerAfterUse.externallyManagedBitrate = false →
      (UserOnPaused scenarioConsumerAfterUse).2 = [Effect.layersChange none]) :=
  ⟨rfl, pausing_spec scenarioConsumerAfterUse⟩

/-! ## Target layers -/

/-- With a preferred temporal layer that is not negative and a send stream that has
at least one temporal layer, the candidate of `RecalculateTargetLayers` is `(-1,-1)`
or has both layers at least 0. -/
theorem recalculate_signs (c : SvcConsumer)
    (hfit : ∀ p, c.producerRtpStream = some p → p.layersFit)
    (hpref : 0 ≤ c.preferredTemporalLayer) (hT1 : 1 ≤ c.rtpStream.temporalLayers)
    (hT : c.rtpStream.temporalLayers ≤ 32767) :
    (candidateSpatialLayer c = -1 ∧ candidateTemporalLayer c = -1) ∨
    (0 ≤ candidateSpatialLayer c ∧ 0 ≤ candidateTemporalLayer c) := by
  simp only [candidateSpatialLayer, candidateTemporalLayer, RecalculateTargetLayers,
    recalculatedLayers]
  cases hp : c.producerRtpStream with
  | none => left; exact ⟨rfl, rfl⟩
  | some p =>
    have hf := (hfit p hp).1
    by_cases hs : p.score = 0
    · left; simp [hs]
    · simp only [hs, if_false]
      rcases recalculateSpatialLoop_spec p c.preferredSpatialLayer p.spatialLayers 0 (-1)
        (by omega) with ⟨h1, _⟩ | ⟨j, _, _, h3, _, _⟩
      · left
        rw [h1]
        exact ⟨rfl, by simp [recalculateTemporalLayer]⟩
      · right
        rw [h3]
        refine ⟨by omega, ?_⟩
        unfold recalculateTemporalLayer
        rw [toInt16_pred _ hT]
        split_ifs <;> omega

/-- C17 (failing input): a self-managed active consumer with the target layers
`(-1,-1)` over the 2x2 producer of scenario 2 receives the request
`{spatialLayer: 1, temporalLayer: 40000}`. The request is accepted, the preferred
temporal layer becomes -25536 (the `int16_t` read of 40000), `MayChangeLayers` runs
and `UpdateTargetLayers` writes the target layers `(1, -25536)`: the spatial layer is
at least 0 and the temporal layer is below 0. -/
theorem target_layers_mixed_signs :
    selfManagedConsumer.encodingContext.targetSpatialLayer = -1 ∧
    selfManagedConsumer.encodingContext.targetTemporalLayer = -1 ∧
    1 ≤ selfManagedConsumer.rtpStream.spatialLayers ∧
    1 ≤ selfManagedConsumer.rtpStream.temporalLayers ∧
    (HandleRequest selfManagedConsumer
        (Request.setPreferredLayers (some (Json.numberUnsigned 1))
          (some (Json.numberUnsigned 40000)))).thrown = none ∧
    (HandleRequest selfManagedConsumer
        (Request.setPreferredLayers (some (Json.numberUnsigned 1))
          (some (Json.numberUnsigned 40000)))).effects =
      [Effect.accept, Effect.mayChangeLayers true, Effect.keyFrameRequested 1111] ∧
    (HandleRequest selfManagedConsumer
        (Request.setPreferredLayers (some (Json.numberUnsigned 1))
          (some (Json.numberUnsigned 40000)))).consumer.encodingContext.targetSpatialLayer =
      1 ∧
    (HandleRequest selfManagedConsumer
        (Request.setPreferredLayers (some (Json.numberUnsigned 1))
          (some (Json.numberUnsigned 40000)))).consumer.encodingContext.targetTemporalLayer =
      -25536 := by
  refine ⟨by decide, by decide, by decide, by decide, by decide, by decide, by decide,
    by decide⟩

/-! ## `GetRtcp` -/

/-- The `uint64_t` difference of two times of a clock that does not run backwards. -/
theorem elapsedSince_of_le (now lastRtcpSentTime : Nat) (hnow : now < 2 ^ 64)
    (hlast : lastRtcpSentTime ≤ now) :
    elapsedSince now lastRtcpSentTime = now - lastRtcpSentTime := by
  unfold elapsedSince
  have h1 : lastRtcpSentTime % 2 ^ 64 = lastRtcpSentTime :=
    Nat.mod_eq_of_lt (lt_of_le_of_lt hlast hnow)
  rw [h1]
  norm_num at hnow ⊢
  omega

/-- The environment of scenario 6 takes the product without rounding error. -/
theorem scenario6Environment_comparesExactly : scenario6Environment.ComparesExactly := by
  intro elapsed interval _
  simp only [scenario6Environment]
  rw [div_lt_iff₀ (by norm_num : (0 : ℚ) < 100)]
  exact_mod_cast Iff.rfl

/-- C19 (as stated, refuted): on a 2x2 encoding with a single consumable encoding and a
supported codec, a `preferredLayers` value that is given but is not an object, and so
carries no `spatialLayer`, does not make the construction fail: the consumer is
constructed with the preferred layers `(1, 1)`. -/
theorem construct_not_object_counterexample :
    notObjectData.preferredLayers = some JsonPreferredLayers.notObject ∧
    construct notObjectData = Except.ok (1, 1) := by
  exact ⟨rfl, rfl⟩

/-- C19 (amended): the construction is rejected with a type error in each of these
cases: `consumableRtpEncodings` does not have exactly one element; the encoding has
`spatialLayers < 2` and `temporalLayers < 2`; `preferredLayers` is an object without an
unsigned-integer `spatialLayer`; no encoding context exists for the MIME type. When
none of them holds, construction succeeds with
`preferredSpatialLayer <= spatialLayers - 1` and
`preferredTemporalLayer <= temporalLayers - 1`, both equal to those maxima when
`preferredLayers` is absent or is not an object. -/
theorem construct_spec (d : ConstructorData) (hs : d.spatialLayers ≤ 32767)
    (ht : d.temporalLayers ≤ 32767) :
    (d.consumableRtpEncodingsSize ≠ 1 → ∃ message, construct d = Except.error message) ∧
    (d.spatialLayers < 2 ∧ d.temporalLayers < 2 →
      ∃ message, construct d = Except.error message) ∧
    ((∃ sp tp, d.preferredLayers = some (JsonPreferredLayers.object sp tp) ∧
        (sp = none ∨ ∃ j, sp = some j ∧ ∀ n, j ≠ Json.numberUnsigned n)) →
      ∃ message, construct d = Except.error message) ∧
    (d.hasEncodingContext = false → ∃ message, construct d = Except.error message) ∧
    (d.consumableRtpEncodingsSize = 1 → ¬ (d.spatialLayers < 2 ∧ d.temporalLayers < 2) →
      (¬ ∃ sp tp, d.preferredLayers = some (JsonPreferredLayers.object sp tp) ∧
        (sp = none ∨ ∃ j, sp = some j ∧ ∀ n, j ≠ Json.numberUnsigned n)) →
      d.hasEncodingContext = true →
      ∃ spatial temporal, construct d = Except.ok (spatial, temporal) ∧
        spatial ≤ (d.spatialLayers : Int) - 1 ∧ temporal ≤ (d.temporalLayers : Int) - 1 ∧
        (d.preferredLayers = none ∨ d.preferredLayers = some JsonPreferredLayers.notObject →
          spatial = (d.spatialLayers : Int) - 1 ∧
          temporal = (d.temporalLayers : Int) - 1)) := by
  have hclamp : ∀ value layers : Nat, layers ≤ 32767 →
      clampPreferredLayer value layers ≤ (layers : Int) - 1 := by
    intro value layers hl
    unfold clampPreferredLayer
    simp only
    split_ifs with h
    · rw [toInt16_pred layers hl]
    · omega
  have hpref : (∃ sp tp, d.preferredLayers = some (JsonPreferredLayers.object sp tp) ∧
        (sp = none ∨ ∃ j, sp = some j ∧ ∀ n, j ≠ Json.numberUnsigned n)) →
      ∃ message, constructPreferredLayers d = Except.error message := by
    rintro ⟨sp, tp, hd, hsp⟩
    have hu := (unsignedField_eq_none_iff sp).2 hsp
    unfold constructPreferredLayers
    rw [hd]
    simp only [hu]
    exact ⟨_, rfl⟩
  refine ⟨?_, ?_, ?_, ?_, ?_⟩
  · intro h
    unfold construct
    simp only [h, ne_eq, not_false_eq_true, if_true]
    exact ⟨_, rfl⟩
  · intro h
    unfold construct
    split_ifs
    · exact ⟨_, rfl⟩
    · exact ⟨_, rfl⟩
  · intro h
    obtain ⟨message, hm⟩ := hpref h
    unfold construct
    by_cases h1 : d.consumableRtpEncodingsSize ≠ 1
    · rw [if_pos h1]
      exact ⟨_, rfl⟩
    · by_cases h2 : d.spatialLayers < 2 ∧ d.temporalLayers < 2
      · rw [if_neg h1, if_pos h2]
        exact ⟨_, rfl⟩
      · rw [if_neg h1, if_neg h2, hm]
        exact ⟨_, rfl⟩
  · intro h
    unfold construct
    by_cases h1 : d.consumableRtpEncodingsSize ≠ 1
    · rw [if_pos h1]
      exact ⟨_, rfl⟩
    · by_cases h2 : d.spatialLayers < 2 ∧ d.temporalLayers < 2
      · rw [if_neg h1, if_pos h2]
        exact ⟨_, rfl⟩
      · rw [if_neg h1, if_neg h2]
        cases hc : constructPreferredLayers d with
        | error message => exact ⟨_, rfl⟩
        | ok preferred =>
          simp only [h, Bool.not_false, if_true]
          exact ⟨_, rfl⟩
  · intro h1 h2 h3 h4
    unfold construct
    simp only [h1, ne_eq, not_true_eq_false, if_false, h2, h4, Bool.not_true,
      Bool.false_eq_true]
    unfold constructPreferredLayers
    cases hd : d.preferredLayers with
    | none =>
      simp only
      refine ⟨_, _, rfl, ?_, ?_, fun _ => ⟨toInt16_pred _ hs, toInt16_pred _ ht⟩⟩
      · rw [toInt16_pred _ hs]
      · rw [toInt16_pred _ ht]
    | some pl =>
      cases pl with
      | notObject =>
        simp only
        refine ⟨_, _, rfl, ?_, ?_, fun _ => ⟨toInt16_pred _ hs, toInt16_pred _ ht⟩⟩
        · rw [toInt16_pred _ hs]
        · rw [toInt16_pred _ ht]
      | object sp tp =>
        simp only
        cases hu : unsignedField sp with
        | none =>
          exact absurd ⟨sp, tp, hd, (unsignedField_eq_none_iff sp).1 hu⟩ h3
        | some n =>
          simp only
          refine ⟨_, _, rfl, hclamp n _ hs, ?_, fun h => ?_⟩
          · cases unsignedField tp with
            | none => simp only; rw [toInt16_pred _ ht]
            | some m => exact hclamp m _ ht
          · rcases h with h | h <;> cases h

/-- C19 (witness): on a 2x2 encoding, `preferredLayers` absent gives `(1,1)`, and the
object `{spatialLayer: 0, temporalLayer: 5}` gives `(0,1)`. -/
theorem construct_spec_witness :
    construct { notObjectData with preferredLayers := none } = Except.ok (1, 1) ∧
    construct { notObjectData with
        preferredLayers := some (JsonPreferredLayers.object (some (Json.numberUnsigned 0))
          (some (Json.numberUnsigned 5))) } = Except.ok (0, 1) ∧
    (∃ message, construct { notObjectData with
        preferredLayers := some (JsonPreferredLayers.object (some (Json.string "1"))
          none) } = Except.error message) ∧
    (∃ message, construct { notObjectData with hasEncodingContext := false } =
      Except.error message) :=
  ⟨rfl, rfl,
    (construct_spec { notObjectData with
        preferredLayers := some (JsonPreferredLayers.object (some (Json.string "1")) none) }
      (by decide) (by decide)).2.2.1
      ⟨_, _, rfl, Or.inr ⟨_, rfl, fun n h => by cases h⟩⟩,
    (construct_spec { notObjectData with hasEncodingContext := false }
      (by decide) (by decide)).2.2.2.1 rfl⟩

/-! ## `SendRtpPacket` -/

theorem emittedPackets_append (l1 l2 : List Effect) :
    emittedPackets (l1 ++ l2) = emittedPackets l1 ++ emittedPackets l2 := by
  induction l1 with
  | nil => rfl
  | cons e l ih => cases e <;> simp [emittedPackets, ih]

theorem emittedSequenceNumbers_append (l1 l2 : List Effect) :
    emittedSequenceNumbers (l1 ++ l2) =
      emittedSequenceNumbers l1 ++ emittedSequenceNumbers l2 := by
  induction l1 with
  | nil => rfl
  | cons e l ih => cases e <;> simp [emittedSequenceNumbers, ih]

theorem dropCalls_append (l1 l2 : List Effect) :
    dropCalls (l1 ++ l2) = dropCalls l1 ++ dropCalls l2 := by
  induction l1 with
  | nil => rfl
  | cons e l ih => cases e <;> simp [dropCalls, ih]

theorem inputCalls_append (l1 l2 : List Effect) :
    inputCalls (l1 ++ l2) = inputCalls l1 ++ inputCalls l2 := by
  induction l1 with
  | nil => rfl
  | cons e l ih => cases e <;> simp [inputCalls, ih]

theorem syncCalls_append (l1 l2 : List Effect) :
    syncCalls (l1 ++ l2) = syncCalls l1 ++ syncCalls l2 := by
  induction l1 with
  | nil => rfl
  | cons e l ih => cases e <;> simp [syncCalls, ih]

/-- The re-sync step calls nothing but `Sync`. -/
theorem syncEffects_calls (c : SvcConsumer) (packet : RtpPacket) :
    emittedPackets (syncEffects c packet) = [] ∧
    emittedSequenceNumbers (syncEffects c packet) = [] ∧
    dropCalls (syncEffects c packet) = [] ∧ inputCalls (syncEffects c packet) = [] := by
  unfold syncEffects
  split_ifs <;> exact ⟨rfl, rfl, rfl, rfl⟩

/-- The `layerschange` step calls nothing on the sequence manager or the transport. -/
theorem layerEffects_calls (s t : Int) (c : SvcConsumer) :
    emittedPackets (layerEffects s t c) = [] ∧
    emittedSequenceNumbers (layerEffects s t c) = [] ∧
    dropCalls (layerEffects s t c) = [] ∧ inputCalls (layerEffects s t c) = [] ∧
    syncCalls (layerEffects s t c) = [] := by
  unfold layerEffects EmitLayersChange
  split_ifs <;> exact ⟨rfl, rfl, rfl, rfl, rfl⟩

/-- A packet stopped by one of the three gates leaves everything as it is. -/
theorem sendRtpPacket_blocked (k : Collaborators) (c : SvcConsumer) (packet : RtpPacket)
    (h : ¬ passesGates c packet) : SendRtpPacket k c packet = ⟨c, packet, []⟩ := by
  unfold SendRtpPacket
  unfold passesGates at h
  by_cases h1 : SvcConsumer.IsActive c = true
  · by_cases h2 : packet.payloadType ∈ c.supportedCodecPayloadTypes
    · have h3 : c.syncRequired = true ∧ packet.keyFrame = false := by
        by_cases hs : c.syncRequired = true
        · refine ⟨hs, ?_⟩
          by_cases hk : packet.keyFrame = true
          · exact absurd ⟨h1, h2, fun _ => hk⟩ h
          · simpa using hk
        · exact absurd ⟨h1, h2, fun hh => absurd hh hs⟩ h
      simp [h1, h2, h3.1, h3.2]
    · simp [h1, h2]
  · simp [h1]

/-- A packet that passes the three gates goes through the re-sync step and the lines
601-672. -/
theorem sendRtpPacket_passed (k : Collaborators) (c : SvcConsumer) (packet : RtpPacket)
    (h : passesGates c packet) :
    SendRtpPacket k c packet =
      ⟨(forwardPacket k (syncSequence c packet) packet).consumer,
        (forwardPacket k (syncSequence c packet) packet).packet,
        syncEffects c packet ++ (forwardPacket k (syncSequence c packet) packet).effects⟩ := by
  unfold SendRtpPacket
  obtain ⟨h1, h2, h3⟩ := h
  have h4 : ¬ (c.syncRequired = true ∧ (!packet.keyFrame) = true) := by
    rintro ⟨hs, hk⟩
    rw [h3 hs] at hk
    cases hk
  simp only [h1, Bool.not_true, Bool.false_eq_true, if_false, h2, not_true_eq_false, h4]

/-- The re-sync step leaves the encoding context, the send stream and the configured
SSRC as they are and clears `syncRequired`. -/
theorem syncSequence_fields (c : SvcConsumer) (packet : RtpPacket) :
    (syncSequence c packet).encodingContext = c.encodingContext ∧
    (syncSequence c packet).rtpStream = c.rtpStream ∧
    (syncSequence c packet).encodingSsrc = c.encodingSsrc ∧
    (syncSequence c packet).syncRequired = false := by
  unfold syncSequence
  by_cases h : c.syncRequired = true
  · simp [h]
  · simp only [h, if_false]
    exact ⟨rfl, rfl, rfl, by simpa using h⟩

/-- Lines 601-609 when the payload inspection rejects the packet. -/
theorem forwardPacket_rejected (k : Collaborators) (c : SvcConsumer) (packet : RtpPacket)
    (h : (k.processPayload c.encodingContext packet).accepted = false) :
    (forwardPacket k c packet).effects = [Effect.seqDrop packet.sequenceNumber] ∧
    (forwardPacket k c packet).consumer.rtpSeqManager =
      c.rtpSeqManager.Drop packet.sequenceNumber ∧
    (forwardPacket k c packet).consumer.syncRequired = c.syncRequired := by
  unfold forwardPacket
  simp [h]

/-- Lines 611-672 when the payload inspection accepts the packet. -/
theorem forwardPacket_accepted (k : Collaborators) (c : SvcConsumer) (packet : RtpPacket)
    (h : (k.processPayload c.encodingContext packet).accepted = true) :
    (forwardPacket k c packet).effects =
      layerEffects c.encodingContext.currentSpatialLayer c.encodingContext.currentTemporalLayer
          { c with encodingContext := (k.processPayload c.encodingContext packet).encodingContext } ++
        [Effect.seqInput packet.sequenceNumber (c.rtpSeqManager.Input packet.sequenceNumber).2,
          Effect.receivePacket
            (rewritePacket c
              { packet with payload := (k.processPayload c.encodingContext packet).payload }
              (c.rtpSeqManager.Input packet.sequenceNumber).2)] ++
        (if (k.receivePacket c.rtpStream
            (rewritePacket c
              { packet with payload := (k.processPayload c.encodingContext packet).payload }
              (c.rtpSeqManager.Input packet.sequenceNumber).2)).1 = true then
          [Effect.sendRtpPacket
            (rewritePacket c
              { packet with payload := (k.processPayload c.encodingContext packet).payload }
              (c.rtpSeqManager.Input packet.sequenceNumber).2)]
        else []) ∧
    (forwardPacket k c packet).consumer.rtpSeqManager =
      (c.rtpSeqManager.Input packet.sequenceNumber).1 ∧
    (forwardPacket k c packet).consumer.syncRequired = c.syncRequired := by
  unfold forwardPacket
  have hn : ¬ (!(k.processPayload c.encodingContext packet).accepted) = true := by simp [h]
  simp only [hn, if_false]
  exact ⟨rfl, rfl, rfl⟩

/-- The calls made for a packet that passes the three gates and is rejected by the
payload inspection. -/
theorem sendRtpPacket_rejected_calls (k : Collaborators) (c : SvcConsumer) (packet : RtpPacket)
    (hg : passesGates c packet)
    (hr : (k.processPayload c.encodingContext packet).accepted = false) :
    emittedPackets (SendRtpPacket k c packet).effects = [] ∧
    dropCalls (SendRtpPacket k c packet).effects = [packet.sequenceNumber] ∧
    inputCalls (SendRtpPacket k c packet).effects = [] := by
  have hf := syncSequence_fields c packet
  have hr1 : (k.processPayload (syncSequence c packet).encodingContext packet).accepted =
      false := by rw [hf.1]; exact hr
  have hrej := forwardPacket_rejected k (syncSequence c packet) packet hr1
  have hs := syncEffects_calls c packet
  rw [sendRtpPacket_passed k c packet hg]
  simp only [emittedPackets_append, dropCalls_append, inputCalls_append, hrej.1, hs.1, hs.2.2.1,
    hs.2.2.2]
  exact ⟨rfl, rfl, rfl⟩

/-- The calls made for a packet that passes the three gates and is accepted by the
payload inspection. -/
theorem sendRtpPacket_accepted_calls (k : Collaborators) (c : SvcConsumer) (packet : RtpPacket)
    (hg : passesGates c packet)
    (ha : (k.processPayload c.encodingContext packet).accepted = true) :
    emittedPackets (SendRtpPacket k c packet).effects =
      (if (k.receivePacket c.rtpStream (packetForSendStream k c packet)).1 = true then
        [packetForSendStream k c packet] else []) ∧
    dropCalls (SendRtpPacket k c packet).effects = [] ∧
    inputCalls (SendRtpPacket k c packet).effects = [packet.sequenceNumber] := by
  have hf := syncSequence_fields c packet
  have ha1 : (k.processPayload (syncSequence c packet).encodingContext packet).accepted =
      true := by rw [hf.1]; exact ha
  have hacc := forwardPacket_accepted k (syncSequence c packet) packet ha1
  have hs := syncEffects_calls c packet
  have hpk : rewritePacket (syncSequence c packet)
      { packet with
        payload := (k.processPayload (syncSequence c packet).encodingContext packet).payload }
      ((syncSequence c packet).rtpSeqManager.Input packet.sequenceNumber).2 =
      packetForSendStream k c packet := by
    unfold packetForSendStream rewritePacket
    rw [hf.1, hf.2.2.1]
  rw [sendRtpPacket_passed k c packet hg]
  simp only [hacc.1, hpk, hf.2.1]
  simp only [emittedPackets_append, dropCalls_append, inputCalls_append, hs.1, hs.2.2.1,
    hs.2.2.2, (layerEffects_calls _ _ _).1, (layerEffects_calls _ _ _).2.2.1,
    (layerEffects_calls _ _ _).2.2.2.1, List.nil_append]
  refine ⟨?_, ?_, ?_⟩
  · split_ifs <;> rfl
  · split_ifs <;> rfl
  · split_ifs <;> rfl

/-- The packets handed to the transport by one call: the rewritten packet when the
packet passes the three gates, the payload inspection accepts it and the send stream
accepts it, and none otherwise. -/
theorem sendRtpPacket_emitted (k : Collaborators) (c : SvcConsumer) (packet : RtpPacket) :
    (passesGates c packet → (k.processPayload c.encodingContext packet).accepted = true →
      (k.receivePacket c.rtpStream (packetForSendStream k c packet)).1 = true →
      emittedPackets (SendRtpPacket k c packet).effects = [packetForSendStream k c packet]) ∧
    (¬ (passesGates c packet ∧
        (k.processPayload c.encodingContext packet).accepted = true ∧
        (k.receivePacket c.rtpStream (packetForSendStream k c packet)).1 = true) →
      emittedPackets (SendRtpPacket k c packet).effects = []) := by
  constructor
  · intro hg ha hr
    rw [(sendRtpPacket_accepted_calls k c packet hg ha).1, if_pos hr]
  · intro hn
    by_cases hg : passesGates c packet
    · by_cases ha : (k.processPayload c.encodingContext packet).accepted = true
      · rw [(sendRtpPacket_accepted_calls k c packet hg ha).1, if_neg]
        intro hr
        exact hn ⟨hg, ha, hr⟩
      · have ha0 : (k.processPayload c.encodingContext packet).accepted = false := by
          simpa using ha
        exact (sendRtpPacket_rejected_calls k c packet hg ha0).1
    · rw [sendRtpPacket_blocked k c packet hg]
      rfl

/-- C13: `SendRtpPacket` hands a packet to the transport exactly when the consumer is
active, the payload type is supported, the packet is a key frame whenever
`syncRequired` is set, `ProcessPayload` returned true and the send stream accepted the
packet; the packet handed over is the rewritten one. A packet that `ProcessPayload`
rejects causes exactly one `Drop(seq)` and no `Input`, one that it accepts exactly
one `Input(seq)` and no `Drop`, and a packet stopped before causes neither. -/
theorem sendRtpPacket_emits_iff (k : Collaborators) (c : SvcConsumer) (packet : RtpPacket) :
    (emittedPackets (SendRtpPacket k c packet).effects ≠ [] ↔
      (SvcConsumer.IsActive c = true ∧ packet.payloadType ∈ c.supportedCodecPayloadTypes ∧
        (c.syncRequired = true → packet.keyFrame = true) ∧
        (k.processPayload c.encodingContext packet).accepted = true ∧
        (k.receivePacket c.rtpStream (packetForSendStream k c packet)).1 = true)) ∧
    (emittedPackets (SendRtpPacket k c packet).effects ≠ [] →
      emittedPackets (SendRtpPacket k c packet).effects = [packetForSendStream k c packet]) ∧
    (passesGates c packet → (k.processPayload c.encodingContext packet).accepted = false →
      dropCalls (SendRtpPacket k c packet).effects = [packet.sequenceNumber] ∧
      inputCalls (SendRtpPacket k c packet).effects = []) ∧
    (passesGates c packet → (k.processPayload c.encodingContext packet).accepted = true →
      inputCalls (SendRtpPacket k c packet).effects = [packet.sequenceNumber] ∧
      dropCalls (SendRtpPacket k c packet).effects = []) ∧
    (¬ passesGates c packet →
      dropCalls (SendRtpPacket k c packet).effects = [] ∧
      inputCalls (SendRtpPacket k c packet).effects = []) := by
  have hyes := (sendRtpPacket_emitted k c packet).1
  have hno := (sendRtpPacket_emitted k c packet).2
  refine ⟨?_, ?_, ?_, ?_, ?_⟩
  · constructor
    · intro h
      by_contra hc
      apply h
      apply hno
      intro hh
      exact hc ⟨hh.1.1, hh.1.2.1, hh.1.2.2, hh.2.1, hh.2.2⟩
    · rintro ⟨h1, h2, h3, h4, h5⟩
      rw [hyes ⟨h1, h2, h3⟩ h4 h5]
      simp
  · intro h
    by_cases hc : passesGates c packet ∧
        (k.processPayload c.encodingContext packet).accepted = true ∧
        (k.receivePacket c.rtpStream (packetForSendStream k c packet)).1 = true
    · exact hyes hc.1 hc.2.1 hc.2.2
    · exact absurd (hno hc) h
  · intro hg hr
    exact ⟨(sendRtpPacket_rejected_calls k c packet hg hr).2.1,
      (sendRtpPacket_rejected_calls k c packet hg hr).2.2⟩
  · intro hg ha
    exact ⟨(sendRtpPacket_accepted_calls k c packet hg ha).2.2,
      (sendRtpPacket_accepted_calls k c packet hg ha).2.1⟩
  · intro hg
    rw [sendRtpPacket_blocked k c packet hg]
    exact ⟨rfl, rfl⟩

/-- C13 (witness): the key frame 100 of scenario 1 at a consumer that needs a re-sync:
it is handed to the transport with the configured SSRC 2222, after one `Input(100)`
and no `Drop`. -/
theorem sendRtpPacket_emits_iff_witness :
    passesGates resyncingConsumer (scenario1Packet true 100) ∧
    (targetFilter.processPayload resyncingConsumer.encodingContext
      (scenario1Packet true 100)).accepted = true ∧
    (packetForSendStream targetFilter resyncingConsumer (scenario1Packet true 100)).ssrc =
      2222 ∧
    inputCalls (SendRtpPacket targetFilter resyncingConsumer
      (scenario1Packet true 100)).effects = [(scenario1Packet true 100).sequenceNumber] ∧
    dropCalls (SendRtpPacket targetFilter resyncingConsumer
      (scenario1Packet true 100)).effects = [] ∧
    emittedPackets (SendRtpPacket targetFilter resyncingConsumer
      (scenario1Packet true 100)).effects =
      [packetForSendStream targetFilter resyncingConsumer (scenario1Packet true 100)] :=
  ⟨⟨by decide, by decide, fun _ => rfl⟩, by decide, by decide,
    ((sendRtpPacket_emits_iff targetFilter resyncingConsumer (scenario1Packet true 100)).2.2.2.1
      ⟨by decide, by decide, fun _ => rfl⟩ (by decide)).1,
    ((sendRtpPacket_emits_iff targetFilter resyncingConsumer (scenario1Packet true 100)).2.2.2.1
      ⟨by decide, by decide, fun _ => rfl⟩ (by decide)).2,
    by decide⟩

/-- C14: with a payload inspection that drops the packets outside the target layers,
`SendRtpPacket` hands no packet to the transport while the target spatial layer is -1,
whatever the state and the packet; a packet is handed over only when both target
layers are at least 0 and the payload inspection accepted it. -/
theorem no_emission_without_target (k : Collaborators) (c : SvcConsumer) (packet : RtpPacket)
    (hk : k.DropsOutsideTarget) :
    (c.encodingContext.targetSpatialLayer = -1 →
      emittedPackets (SendRtpPacket k c packet).effects = []) ∧
    (emittedPackets (SendRtpPacket k c packet).effects ≠ [] →
      0 ≤ c.encodingContext.targetSpatialLayer ∧ 0 ≤ c.encodingContext.targetTemporalLayer ∧
      (k.processPayload c.encodingContext packet).accepted = true) := by
  have h2 : emittedPackets (SendRtpPacket k c packet).effects ≠ [] →
      0 ≤ c.encodingContext.targetSpatialLayer ∧ 0 ≤ c.encodingContext.targetTemporalLayer ∧
      (k.processPayload c.encodingContext packet).accepted = true := by
    intro h
    have ha : (k.processPayload c.encodingContext packet).accepted = true := by
      by_contra hc
      exact h ((sendRtpPacket_emitted k c packet).2 (fun hh => hc hh.2.1))
    have hin := hk c.encodingContext packet ha
    exact ⟨le_trans hin.1 hin.2.1, le_trans hin.2.2.1 hin.2.2.2, ha⟩
  refine ⟨fun ht => ?_, h2⟩
  by_contra hne
  have := (h2 hne).1
  omega

/-- C14 (witness): a consumer whose target layers are `(-1,-1)` and a consumer whose
target layers are `(1,1)`, with the payload inspection that filters on the target
layers. -/
theorem no_emission_without_target_witness :
    targetFilter.DropsOutsideTarget ∧
    scenarioConsumer.encodingContext.targetSpatialLayer = -1 ∧
    emittedPackets (SendRtpPacket targetFilter scenarioConsumer
      (scenario1Packet true 100)).effects = [] ∧
    (emittedPackets (SendRtpPacket targetFilter resyncingConsumer
        (scenario1Packet true 100)).effects ≠ [] →
      0 ≤ resyncingConsumer.encodingContext.targetSpatialLayer ∧
      0 ≤ resyncingConsumer.encodingContext.targetTemporalLayer ∧
      (targetFilter.processPayload resyncingConsumer.encodingContext
        (scenario1Packet true 100)).accepted = true) :=
  ⟨fun ctx packet h => by simpa [targetFilter] using h, rfl,
    (no_emission_without_target targetFilter scenarioConsumer (scenario1Packet true 100)
      (fun ctx packet h => by simpa [targetFilter] using h)).1 rfl,
    (no_emission_without_target targetFilter resyncingConsumer (scenario1Packet true 100)
      (fun ctx packet h => by simpa [targetFilter] using h)).2⟩

/-! ## Re-sync -/

/-- The consumer after a packet that passes the three gates no longer needs a
re-sync. -/
theorem sendRtpPacket_passed_syncRequired (k : Collaborators) (c : SvcConsumer)
    (packet : RtpPacket) (hg : passesGates c packet) :
    (SendRtpPacket k c packet).consumer.syncRequired = false := by
  rw [sendRtpPacket_passed k c packet hg]
  have hf := (syncSequence_fields c packet).2.2.2
  by_cases ha : (k.processPayload (syncSequence c packet).encodingContext packet).accepted = true
  · exact ((forwardPacket_accepted k _ packet ha).2.2).trans hf
  · exact ((forwardPacket_rejected k _ packet (by simpa using ha)).2.2).trans hf

/-- C20 (as stated, refuted): a consumer that needs a re-sync receives a key frame with
a supported payload type while active, and `ProcessPayload` rejects the packet. The
sequence numbers are re-synced and `syncRequired` is cleared all the same; the calls
made are `Sync(99)` and `Drop(100)`. -/
theorem resync_rejected_key_frame_counterexample :
    resyncingConsumer.syncRequired = true ∧
    SvcConsumer.IsActive resyncingConsumer = true ∧
    (scenario1Packet true 100).payloadType ∈ resyncingConsumer.supportedCodecPayloadTypes ∧
    (scenario1Packet true 100).keyFrame = true ∧
    (rejectAll.processPayload resyncingConsumer.encodingContext
      (scenario1Packet true 100)).accepted = false ∧
    (SendRtpPacket rejectAll resyncingConsumer (scenario1Packet true 100)).consumer.syncRequired =
      false ∧
    (SendRtpPacket rejectAll resyncingConsumer (scenario1Packet true 100)).effects =
      [Effect.seqSync 99, Effect.seqDrop 100] := by
  refine ⟨rfl, rfl, by decide, rfl, rfl, by decide, by decide⟩

/-- C20 (amended): a consumer that needs a re-sync (`syncRequired` set) has
`syncRequired` cleared by a `SendRtpPacket` call exactly when the packet is a key frame
that arrives while the consumer is active with a supported payload type, whether or
not `ProcessPayload` then accepts it; every other packet leaves `syncRequired` set, and
a packet stopped by the activity gate, the payload-type gate or the sync gate leaves
the consumer unchanged and causes no call at all, in particular none on the sequence
manager. -/
theorem resync_spec (k : Collaborators) (c : SvcConsumer) (packet : RtpPacket)
    (hsync : c.syncRequired = true) :
    ((SendRtpPacket k c packet).consumer.syncRequired = false ↔
      (SvcConsumer.IsActive c = true ∧ packet.payloadType ∈ c.supportedCodecPayloadTypes ∧
        packet.keyFrame = true)) ∧
    (SvcConsumer.IsActive c = false ∨ packet.payloadType ∉ c.supportedCodecPayloadTypes ∨
        packet.keyFrame = false →
      (SendRtpPacket k c packet).consumer = c ∧ (SendRtpPacket k c packet).effects = []) := by
  have hblock : SvcConsumer.IsActive c = false ∨
      packet.payloadType ∉ c.supportedCodecPayloadTypes ∨ packet.keyFrame = false →
      ¬ passesGates c packet := by
    rintro h ⟨h1, h2, h3⟩
    rcases h with h | h | h
    · rw [h1] at h; cases h
    · exact h h2
    · rw [h3 hsync] at h; cases h
  constructor
  · constructor
    · intro h
      by_contra hc
      have hng : ¬ passesGates c packet := fun hg => hc ⟨hg.1, hg.2.1, hg.2.2 hsync⟩
      rw [sendRtpPacket_blocked k c packet hng] at h
      rw [hsync] at h
      cases h
    · rintro ⟨h1, h2, h3⟩
      exact sendRtpPacket_passed_syncRequired k c packet ⟨h1, h2, fun _ => h3⟩
  · intro h
    rw [sendRtpPacket_blocked k c packet (hblock h)]
    exact ⟨rfl, rfl⟩

/-- C20 (witness): at the consumer that needs a re-sync, the key frame 100 clears
`syncRequired` and the packet 101, which is not a key frame, changes nothing. -/
theorem resync_spec_witness :
    resyncingConsumer.syncRequired = true ∧
    (SendRtpPacket targetFilter resyncingConsumer
      (scenario1Packet true 100)).consumer.syncRequired = false ∧
    (SendRtpPacket targetFilter resyncingConsumer (scenario1Packet false 101)).consumer =
      resyncingConsumer ∧
    (SendRtpPacket targetFilter resyncingConsumer (scenario1Packet false 101)).effects = [] :=
  ⟨rfl,
    (resync_spec targetFilter resyncingConsumer (scenario1Packet true 100) rfl).1.2
      ⟨rfl, by decide, rfl⟩,
    ((resync_spec targetFilter resyncingConsumer (scenario1Packet false 101) rfl).2
      (Or.inr (Or.inr rfl))).1,
    ((resync_spec targetFilter resyncingConsumer (scenario1Packet false 101) rfl).2
      (Or.inr (Or.inr rfl))).2⟩

/-! ## Output sequence numbers -/

theorem consecutiveFrom_congr (n : Nat) :
    ∀ a b : Nat, a % 65536 = b % 65536 → consecutiveFrom a n = consecutiveFrom b n := by
  induction n with
  | zero => intro a b _; rfl
  | succ n ih =>
    intro a b h
    simp only [consecutiveFrom, h]
    rw [ih (a + 1) (b + 1) (by omega)]

theorem toUInt16_pred (seq : Nat) :
    toUInt16 ((seq : Int) - 1) = (seq + 65535) % 65536 := by
  unfold toUInt16
  omega

/-- What one call of `SendRtpPacket` does to the sequence manager when the send stream
accepts every packet: a packet that passes the gates either is rejected by the payload
inspection, is not emitted and is reported with `Drop`, or is emitted with the output
of `Input`. -/
theorem sendRtpPacket_sequence (k : Collaborators) (c : SvcConsumer) (packet : RtpPacket)
    (hacc : ∀ stream p, (k.receivePacket stream p).1 = true) (hg : passesGates c packet) :
    ((k.processPayload c.encodingContext packet).accepted = false ∧
      emittedSequenceNumbers (SendRtpPacket k c packet).effects = [] ∧
      (SendRtpPacket k c packet).consumer.rtpSeqManager =
        (syncSequence c packet).rtpSeqManager.Drop packet.sequenceNumber) ∨
    ((k.processPayload c.encodingContext packet).accepted = true ∧
      emittedSequenceNumbers (SendRtpPacket k c packet).effects =
        [((syncSequence c packet).rtpSeqManager.Input packet.sequenceNumber).2] ∧
      (SendRtpPacket k c packet).consumer.rtpSeqManager =
        ((syncSequence c packet).rtpSeqManager.Input packet.sequenceNumber).1) := by
  have hf := syncSequence_fields c packet
  have hs := syncEffects_calls c packet
  rw [sendRtpPacket_passed k c packet hg]
  by_cases ha : (k.processPayload c.encodingContext packet).accepted = true
  · right
    have ha1 : (k.processPayload (syncSequence c packet).encodingContext packet).accepted =
        true := by rw [hf.1]; exact ha
    have hacc1 := forwardPacket_accepted k (syncSequence c packet) packet ha1
    refine ⟨ha, ?_, ?_⟩
    · simp only [hacc1.1, hacc, if_true, emittedSequenceNumbers_append, hs.2.1,
        (layerEffects_calls _ _ _).2.1, List.nil_append]
      rfl
    · rw [hacc1.2.1]
  · left
    have ha0 : (k.processPayload c.encodingContext packet).accepted = false := by
      simpa using ha
    have ha1 : (k.processPayload (syncSequence c packet).encodingContext packet).accepted =
        false := by rw [hf.1]; exact ha0
    have hrej := forwardPacket_rejected k (syncSequence c packet) packet ha1
    refine ⟨ha0, ?_, ?_⟩
    · simp only [hrej.1, emittedSequenceNumbers_append, hs.2.1, List.nil_append]
      rfl
    · exact hrej.2.1

/-- The re-sync step does nothing when no re-sync is required. -/
theorem syncSequence_of_not_required (c : SvcConsumer) (packet : RtpPacket)
    (h : c.syncRequired = false) :
    syncSequence c packet = c ∧ syncEffects c packet = [] := by
  unfold syncSequence syncEffects
  simp [h]

/-- One call of `SendRtpPacket` makes no `Sync` call on a consumer that needs no
re-sync, and leaves it so. -/
theorem sendRtpPacket_no_sync (k : Collaborators) (c : SvcConsumer) (packet : RtpPacket)
    (h : c.syncRequired = false) :
    syncCalls (SendRtpPacket k c packet).effects = [] ∧
    (SendRtpPacket k c packet).consumer.syncRequired = false := by
  by_cases hg : passesGates c packet
  · refine ⟨?_, sendRtpPacket_passed_syncRequired k c packet hg⟩
    rw [sendRtpPacket_passed k c packet hg, (syncSequence_of_not_required c packet h).1,
      (syncSequence_of_not_required c packet h).2]
    by_cases ha : (k.processPayload c.encodingContext packet).accepted = true
    · rw [(forwardPacket_accepted k c packet ha).1]
      simp only [syncCalls_append, (layerEffects_calls _ _ _).2.2.2.2, List.nil_append]
      split_ifs <;> rfl
    · rw [(forwardPacket_rejected k c packet (by simpa using ha)).1]
      rfl
  · rw [sendRtpPacket_blocked k c packet hg]
    exact ⟨rfl, h⟩

/-- A call of `SendRtpPacket` changes neither whether the consumer is active nor its
supported payload types. -/
theorem sendRtpPacket_frame (k : Collaborators) (c : SvcConsumer) (packet : RtpPacket) :
    SvcConsumer.IsActive (SendRtpPacket k c packet).consumer = SvcConsumer.IsActive c ∧
    (SendRtpPacket k c packet).consumer.supportedCodecPayloadTypes =
      c.supportedCodecPayloadTypes := by
  have hsync : SvcConsumer.IsActive (syncSequence c packet) = SvcConsumer.IsActive c ∧
      (syncSequence c packet).supportedCodecPayloadTypes = c.supportedCodecPayloadTypes := by
    unfold syncSequence
    split_ifs <;> exact ⟨rfl, rfl⟩
  have hfw : ∀ c1 : SvcConsumer,
      SvcConsumer.IsActive (forwardPacket k c1 packet).consumer = SvcConsumer.IsActive c1 ∧
      (forwardPacket k c1 packet).consumer.supportedCodecPayloadTypes =
        c1.supportedCodecPayloadTypes := by
    intro c1
    unfold forwardPacket
    dsimp only
    split_ifs <;> exact ⟨rfl, rfl⟩
  by_cases hg : passesGates c packet
  · rw [sendRtpPacket_passed k c packet hg]
    exact ⟨(hfw _).1.trans hsync.1, (hfw _).2.trans hsync.2⟩
  · rw [sendRtpPacket_blocked k c packet hg]
    exact ⟨rfl, rfl⟩

/-- The head and the tail of consecutive inputs. -/
theorem consecutiveInputs_cons (first : Nat) (packet : RtpPacket) (rest : List RtpPacket)
    (h : consecutiveInputs first (packet :: rest)) :
    packet.sequenceNumber = first % 65536 ∧ consecutiveInputs (first + 1) rest := by
  unfold consecutiveInputs at h ⊢
  simp only [List.map_cons, List.length_cons, consecutiveFrom, List.cons.injEq] at h
  exact h

/-- A run on an active consumer that needs no re-sync, over packets of supported
payload types whose sequence numbers are consecutive: no `Sync` call is made, and the
emitted sequence numbers are consecutive from the number that the manager gives to the
first input, whichever packets the payload inspection rejects. -/
theorem sendRtpPackets_no_sync (k : Collaborators)
    (hacc : ∀ stream p, (k.receivePacket stream p).1 = true) :
    ∀ (packets : List RtpPacket) (c : SvcConsumer) (first : Nat), c.syncRequired = false →
      SvcConsumer.IsActive c = true →
      (∀ p ∈ packets, p.payloadType ∈ c.supportedCodecPayloadTypes) →
      consecutiveInputs first packets →
      syncCalls (SendRtpPackets k c packets).2 = [] ∧
      emittedSequenceNumbers (SendRtpPackets k c packets).2 =
        consecutiveFrom (first + c.rtpSeqManager.offset)
          (emittedSequenceNumbers (SendRtpPackets k c packets).2).length := by
  intro packets
  induction packets with
  | nil => intro c first _ _ _ _; exact ⟨rfl, rfl⟩
  | cons packet rest ih =>
    intro c first h hact hpt hseq
    obtain ⟨hs1, hs2⟩ := consecutiveInputs_cons first packet rest hseq
    have hg : passesGates c packet :=
      ⟨hact, hpt packet (List.mem_cons_self _ _), fun hh => by rw [h] at hh; cases hh⟩
    have hns := sendRtpPacket_no_sync k c packet h
    have hfr := sendRtpPacket_frame k c packet
    have hrest := ih (SendRtpPacket k c packet).consumer (first + 1) hns.2
      (hfr.1.trans hact)
      (fun p hp => by rw [hfr.2]; exact hpt p (List.mem_cons_of_mem _ hp)) hs2
    simp only [SendRtpPackets, syncCalls_append, emittedSequenceNumbers_append, hns.1,
      hrest.1, List.nil_append, List.length_append]
    refine ⟨trivial, ?_⟩
    have hL := hrest.2
    generalize emittedSequenceNumbers
      (SendRtpPackets k (SendRtpPacket k c packet).consumer rest).2 = L at hL ⊢
    have hseqs := sendRtpPacket_sequence k c packet hacc hg
    rw [(syncSequence_of_not_required c packet h).1] at hseqs
    rcases hseqs with ⟨_, h1, h2⟩ | ⟨_, h1, h2⟩
    · rw [h1, List.nil_append, List.length_nil, Nat.zero_add]
      rw [h2, consecutiveFrom_congr L.length
        (first + 1 + (c.rtpSeqManager.Drop packet.sequenceNumber).offset)
        (first + c.rtpSeqManager.offset) (by simp only [SeqManager.Drop]; omega)] at hL
      exact hL
    · rw [h1, List.singleton_append, List.length_singleton, Nat.add_comm 1]
      rw [h2, consecutiveFrom_congr L.length
        (first + 1 + (c.rtpSeqManager.Input packet.sequenceNumber).1.offset)
        (first + c.rtpSeqManager.offset + 1) (by simp only [SeqManager.Input]; omega)] at hL
      simp only [consecutiveFrom]
      rw [← hL]
      have hhead : (c.rtpSeqManager.Input packet.sequenceNumber).2 =
          (first + c.rtpSeqManager.offset) % 65536 := by
        simp only [SeqManager.Input, hs1]
        omega
      rw [hhead]

/-- After `Sync(seq - 1)` the input `seq` is sent as the number after the last
output. -/
theorem seqManager_sync_input (m : SeqManager) (seq : Nat) :
    ((m.Sync ((seq + 65535) % 65536)).Input seq).2 = (m.lastOutput + 1) % 65536 := by
  simp only [SeqManager.Input, SeqManager.Sync]
  omega

/-- The manager after the re-sync step of a consumer that needs a re-sync. -/
theorem syncSequence_of_required (c : SvcConsumer) (packet : RtpPacket)
    (h : c.syncRequired = true) :
    (syncSequence c packet).rtpSeqManager =
      c.rtpSeqManager.Sync ((packet.sequenceNumber + 65535) % 65536) ∧
    syncEffects c packet = [Effect.seqSync ((packet.sequenceNumber + 65535) % 65536)] := by
  unfold syncSequence syncEffects
  simp only [h, if_true, toUInt16_pred]
  exact ⟨trivial, trivial⟩

/-- A run on an active consumer that needs a re-sync, over packets of supported payload
types whose sequence numbers are consecutive: the emitted sequence numbers are
consecutive from the number after the last output of the manager. -/
theorem sendRtpPackets_resync (k : Collaborators)
    (hacc : ∀ stream p, (k.receivePacket stream p).1 = true) :
    ∀ (packets : List RtpPacket) (c : SvcConsumer) (first : Nat), c.syncRequired = true →
      SvcConsumer.IsActive c = true →
      (∀ p ∈ packets, p.payloadType ∈ c.supportedCodecPayloadTypes) →
      consecutiveInputs first packets →
      emittedSequenceNumbers (SendRtpPackets k c packets).2 =
        consecutiveFrom (c.rtpSeqManager.lastOutput + 1)
          (emittedSequenceNumbers (SendRtpPackets k c packets).2).length := by
  intro packets
  induction packets with
  | nil => intro c first _ _ _ _; rfl
  | cons packet rest ih =>
    intro c first h hact hpt hseq
    obtain ⟨hs1, hs2⟩ := consecutiveInputs_cons first packet rest hseq
    by_cases hk : packet.keyFrame = true
    · have hg : passesGates c packet :=
        ⟨hact, hpt packet (List.mem_cons_self _ _), fun _ => hk⟩
      have hsr := sendRtpPacket_passed_syncRequired k c packet hg
      have hfr := sendRtpPacket_frame k c packet
      have hL := (sendRtpPackets_no_sync k hacc rest (SendRtpPacket k c packet).consumer
        (first + 1) hsr (hfr.1.trans hact)
        (fun p hp => by rw [hfr.2]; exact hpt p (List.mem_cons_of_mem _ hp)) hs2).2
      simp only [SendRtpPackets, emittedSequenceNumbers_append, List.length_append]
      generalize emittedSequenceNumbers
        (SendRtpPackets k (SendRtpPacket k c packet).consumer rest).2 = L at hL ⊢
      have hm := (syncSequence_of_required c packet h).1
      rcases sendRtpPacket_sequence k c packet hacc hg with ⟨_, h1, h2⟩ | ⟨_, h1, h2⟩
      · rw [h1, List.nil_append, List.length_nil, Nat.zero_add]
        rw [h2, hm, consecutiveFrom_congr L.length _ (c.rtpSeqManager.lastOutput + 1)
          (by simp only [SeqManager.Drop, SeqManager.Sync, hs1]; omega)] at hL
        exact hL
      · rw [h1, List.singleton_append, List.length_singleton, Nat.add_comm 1]
        rw [h2, hm, consecutiveFrom_congr L.length _ (c.rtpSeqManager.lastOutput + 1 + 1)
          (by simp only [SeqManager.Input, SeqManager.Sync, hs1]; omega)] at hL
        simp only [consecutiveFrom]
        rw [← hL, hm, seqManager_sync_input]
    · have hng : ¬ passesGates c packet := fun hg => hk (hg.2.2 h)
      have hrest := ih c (first + 1) h hact
        (fun p hp => hpt p (List.mem_cons_of_mem _ hp)) hs2
      simp only [SendRtpPackets, emittedSequenceNumbers_append, List.length_append]
      rw [sendRtpPacket_blocked k c packet hng]
      simp only [emittedSequenceNumbers, List.nil_append, List.length_nil, Nat.zero_add]
      exact hrest

/-- The first packet after a re-sync calls `Sync(seq - 1)`, the subtraction wrapped to
16 bits, and when it is emitted its output sequence number is the one after the last
output of the manager. -/
theorem sendRtpPacket_sync_call (k : Collaborators) (c : SvcConsumer) (packet : RtpPacket)
    (hacc : ∀ stream p, (k.receivePacket stream p).1 = true)
    (hsync : c.syncRequired = true) (hg : passesGates c packet) :
    syncCalls (SendRtpPacket k c packet).effects = [(packet.sequenceNumber + 65535) % 65536] ∧
    ((k.processPayload c.encodingContext packet).accepted = true →
      emittedSequenceNumbers (SendRtpPacket k c packet).effects =
        [(c.rtpSeqManager.lastOutput + 1) % 65536]) := by
  have hm := syncSequence_of_required c packet hsync
  constructor
  · rw [sendRtpPacket_passed k c packet hg, hm.2]
    simp only [syncCalls_append]
    by_cases ha : (k.processPayload (syncSequence c packet).encodingContext packet).accepted =
        true
    · rw [(forwardPacket_accepted k _ packet ha).1]
      simp only [syncCalls_append, (layerEffects_calls _ _ _).2.2.2.2, List.nil_append]
      split_ifs <;> rfl
    · rw [(forwardPacket_rejected k _ packet (by simpa using ha)).1]
      rfl
  · intro ha
    rcases sendRtpPacket_sequence k c packet hacc hg with ⟨h0, _, _⟩ | ⟨_, h1, _⟩
    · rw [ha] at h0; cases h0
    · rw [h1, hm.1, seqManager_sync_input]

/-- A run on a consumer that is not active makes no call at all. -/
theorem sendRtpPackets_inactive (k : Collaborators) :
    ∀ (packets : List RtpPacket) (c : SvcConsumer), SvcConsumer.IsActive c = false →
      (SendRtpPackets k c packets).2 = [] := by
  intro packets
  induction packets with
  | nil => intro c _; rfl
  | cons packet rest ih =>
    intro c h
    have hng : ¬ passesGates c packet := fun hg => by
      have := hg.1
      rw [h] at this
      cases this
    simp only [SendRtpPackets]
    rw [sendRtpPacket_blocked k c packet hng]
    simp only [List.nil_append]
    exact ih c h

/-- C21 (as stated, refuted): the consumer of scenario 1 gets connected and forwards a
key frame of the layers `(2, 2)`, so that target and current layers are `(2, 2)`; the
request `setPreferredLayers {0, 0}` lowers the target layers to `(0, 0)` and leaves the
current layers at `(2, 2)`. The request `setPreferredLayers {1, 0}` then moves the
target spatial layer up from 0 to 1 through `UpdateTargetLayers(1, 0)`, and no key
frame is requested, because 1 is not above the current spatial layer 2. -/
theorem target_upshift_without_key_frame_counterexample :
    loweredTargetConsumer.kind = MediaKind.video ∧
    (streamingTopConsumer.encodingContext.targetSpatialLayer,
      streamingTopConsumer.encodingContext.targetTemporalLayer,
      streamingTopConsumer.encodingContext.currentSpatialLayer,
      streamingTopConsumer.encodingContext.currentTemporalLayer) = (2, 2, 2, 2) ∧
    (loweredTargetConsumer.encodingContext.targetSpatialLayer,
      loweredTargetConsumer.encodingContext.targetTemporalLayer,
      loweredTargetConsumer.encodingContext.currentSpatialLayer,
      loweredTargetConsumer.encodingContext.currentTemporalLayer) = (0, 0, 2, 2) ∧
    (candidateSpatialLayer { loweredTargetConsumer with
        preferredSpatialLayer := 1, preferredTemporalLayer := 0 },
      candidateTemporalLayer { loweredTargetConsumer with
        preferredSpatialLayer := 1, preferredTemporalLayer := 0 }) = (1, 0) ∧
    (UpdateTargetLayers loweredTargetConsumer 1 0).1.encodingContext.targetSpatialLayer = 1 ∧
    (UpdateTargetLayers loweredTargetConsumer 1 0).2 = [] ∧
    (HandleRequest loweredTargetConsumer
      (Request.setPreferredLayers (some (Json.numberUnsigned 1))
        (some (Json.numberUnsigned 0)))).consumer.encodingContext.targetSpatialLayer = 1 ∧
    (HandleRequest loweredTargetConsumer
      (Request.setPreferredLayers (some (Json.numberUnsigned 1))
        (some (Json.numberUnsigned 0)))).effects =
      [Effect.accept, Effect.mayChangeLayers true] := by
  refine ⟨by decide, by decide, by decide, by decide, by decide, by decide, by decide,
    by decide⟩

/-- C21 (amended): `UpdateTargetLayers(s, t)` with `s >= 0` writes `(s, t)` as the
target layers and leaves the current layers and the rest of the consumer unchanged; it
emits no `layerschange` and its only call is the key-frame request, made exactly when
the consumer is a video consumer and the new target spatial layer is greater than the
current spatial layer. In particular every upward change of the target spatial layer
from a target that the current spatial layer does not exceed is accompanied by a
key-frame request. -/
theorem updateTargetLayers_spec (c : SvcConsumer) (s t : Int) (hs : 0 ≤ s) :
    (UpdateTargetLayers c s t).1 =
      { c with encodingContext :=
        ⟨s, t, c.encodingContext.currentSpatialLayer, c.encodingContext.currentTemporalLayer⟩ } ∧
    (∀ data, Effect.layersChange data ∉ (UpdateTargetLayers c s t).2) ∧
    (c.kind = MediaKind.video ∧ s > c.encodingContext.currentSpatialLayer →
      (UpdateTargetLayers c s t).2 = [Effect.keyFrameRequested c.consumableSsrc]) ∧
    (¬ (c.kind = MediaKind.video ∧ s > c.encodingContext.currentSpatialLayer) →
      (UpdateTargetLayers c s t).2 = []) ∧
    (c.kind = MediaKind.video →
      c.encodingContext.currentSpatialLayer ≤ c.encodingContext.targetSpatialLayer →
      c.encodingContext.targetSpatialLayer < s →
      (UpdateTargetLayers c s t).2 = [Effect.keyFrameRequested c.consumableSsrc]) := by
  have hne : s ≠ -1 := by omega
  have hyes : c.kind = MediaKind.video ∧ s > c.encodingContext.currentSpatialLayer →
      (UpdateTargetLayers c s t).2 = [Effect.keyFrameRequested c.consumableSsrc] := by
    rintro ⟨hk, hgt⟩
    unfold UpdateTargetLayers
    rw [if_neg hne]
    dsimp only
    rw [if_pos hgt]
    simp [RequestKeyFrame, hk]
  have hno : ¬ (c.kind = MediaKind.video ∧ s > c.encodingContext.currentSpatialLayer) →
      (UpdateTargetLayers c s t).2 = [] := by
    intro h
    unfold UpdateTargetLayers
    rw [if_neg hne]
    dsimp only
    by_cases hgt : s > c.encodingContext.currentSpatialLayer
    · rw [if_pos hgt]
      have hk : c.kind ≠ MediaKind.video := fun hk => h ⟨hk, hgt⟩
      simp [RequestKeyFrame, hk]
    · rw [if_neg hgt]
  refine ⟨?_, ?_, hyes, hno, ?_⟩
  · unfold UpdateTargetLayers
    rw [if_neg hne]
    dsimp only
    split_ifs <;> rfl
  · intro data
    by_cases h : c.kind = MediaKind.video ∧ s > c.encodingContext.currentSpatialLayer
    · rw [hyes h]
      simp
    · rw [hno h]
      simp
  · intro hk hcur hup
    exact hyes ⟨hk, by omega⟩

/-- C21 (witness): scenario 1, the upshift from `(-1,-1)` to `(2,2)` requests a key
frame for the mapped SSRC 1111. -/
theorem updateTargetLayers_spec_witness :
    scenario1Consumer.encodingContext.targetSpatialLayer = -1 ∧
    scenario1Consumer.encodingContext.currentSpatialLayer = -1 ∧
    (UpdateTargetLayers scenario1Consumer 2 2).2 = [Effect.keyFrameRequested 1111] ∧
    (UpdateTargetLayers scenario1Consumer 2 2).1 =
      { scenario1Consumer with encodingContext := ⟨2, 2, -1, -1⟩ } :=
  ⟨by decide, by decide,
    (updateTargetLayers_spec scenario1Consumer 2 2 (by decide)).2.2.2.2 rfl (by decide)
      (by decide),
    (updateTargetLayers_spec scenario1Consumer 2 2 (by decide)).1⟩

/-! ## `MayChangeLayers` -/

/-- The calls of `UpdateTargetLayers` never include the notification of the
allocator. -/
theorem updateTargetLayers_no_need_bitrate (c : SvcConsumer) (s t : Int) :
    Effect.needBitrateChange ∉ (UpdateTargetLayers c s t).2 := by
  unfold UpdateTargetLayers EmitLayersChange RequestKeyFrame
  dsimp only
  split_ifs <;> simp

/-- `UpdateTargetLayers` changes nothing but the encoding context. -/
theorem updateTargetLayers_frame (c : SvcConsumer) (s t : Int) :
    (UpdateTargetLayers c s t).1 =
      { c with encodingContext := (UpdateTargetLayers c s t).1.encodingContext } := by
  unfold UpdateTargetLayers
  dsimp only
  split_ifs <;> rfl

/-- C22: in externally-managed mode `MayChangeLayers(force)` leaves the consumer, and
so the target and current layers, unchanged, emits no `layerschange` and notifies the
allocator exactly when the recalculated candidate pair differs from the target pair
and, in addition, the candidate spatial layer differs from the target spatial layer or
`force` is set. In self-managed mode it is `UpdateTargetLayers` with the candidate
pair exactly when that pair differs from the target pair, it makes no call otherwise,
and it never notifies the allocator. -/
theorem mayChangeLayers_spec (c : SvcConsumer) (force : Bool) :
    (c.externallyManagedBitrate = true →
      (MayChangeLayers c force).1 = c ∧
      (∀ data, Effect.layersChange data ∉ (MayChangeLayers c force).2) ∧
      (Effect.needBitrateChange ∈ (MayChangeLayers c force).2 ↔
        ((candidateSpatialLayer c ≠ c.encodingContext.targetSpatialLayer ∨
            candidateTemporalLayer c ≠ c.encodingContext.targetTemporalLayer) ∧
          (candidateSpatialLayer c ≠ c.encodingContext.targetSpatialLayer ∨ force = true)))) ∧
    (c.externallyManagedBitrate = false →
      ((candidateSpatialLayer c ≠ c.encodingContext.targetSpatialLayer ∨
          candidateTemporalLayer c ≠ c.encodingContext.targetTemporalLayer) →
        MayChangeLayers c force =
          ((UpdateTargetLayers c (candidateSpatialLayer c) (candidateTemporalLayer c)).1,
            Effect.mayChangeLayers force ::
              (UpdateTargetLayers c (candidateSpatialLayer c) (candidateTemporalLayer c)).2)) ∧
      (¬ (candidateSpatialLayer c ≠ c.encodingContext.targetSpatialLayer ∨
          candidateTemporalLayer c ≠ c.encodingContext.targetTemporalLayer) →
        MayChangeLayers c force = (c, [Effect.mayChangeLayers force])) ∧
      Effect.needBitrateChange ∉ (MayChangeLayers c force).2) := by
  have hflag : (RecalculateTargetLayers c).1 = true ↔
      (candidateSpatialLayer c ≠ c.encodingContext.targetSpatialLayer ∨
        candidateTemporalLayer c ≠ c.encodingContext.targetTemporalLayer) := by
    simp [RecalculateTargetLayers, candidateSpatialLayer, candidateTemporalLayer]
  have hs : (RecalculateTargetLayers c).2.1 = candidateSpatialLayer c := rfl
  have ht : (RecalculateTargetLayers c).2.2 = candidateTemporalLayer c := rfl
  constructor
  · intro hext
    unfold MayChangeLayers
    dsimp only
    rw [hs]
    by_cases hd : (RecalculateTargetLayers c).1 = true
    · rw [if_pos hd, if_pos hext]
      have hd1 := hflag.1 hd
      by_cases hn : candidateSpatialLayer c ≠ c.encodingContext.targetSpatialLayer ∨ force = true
      · rw [if_pos hn]
        exact ⟨rfl, by simp, by simp [hd1, hn]⟩
      · rw [if_neg hn]
        exact ⟨rfl, by simp, by simp [hn]⟩
    · rw [if_neg hd]
      have hd1 := fun h => hd (hflag.2 h)
      refine ⟨rfl, by simp, ?_⟩
      constructor
      · intro h
        simp at h
      · intro h
        exact absurd h.1 hd1
  · intro hext
    have hext1 : ¬ c.externallyManagedBitrate = true := by simp [hext]
    unfold MayChangeLayers
    dsimp only
    rw [hs, ht]
    by_cases hd : (RecalculateTargetLayers c).1 = true
    · rw [if_pos hd, if_neg hext1]
      have hd1 := hflag.1 hd
      refine ⟨fun _ => rfl, fun h => absurd hd1 h, ?_⟩
      have := updateTargetLayers_no_need_bitrate c (candidateSpatialLayer c)
        (candidateTemporalLayer c)
      simpa using this
    · rw [if_neg hd]
      have hd1 := fun h => hd (hflag.2 h)
      exact ⟨fun h => absurd h hd1, fun _ => rfl, by simp⟩

/-- C22 (witness): the externally-managed consumer of scenario 2, whose candidate
`(1, 1)` differs from the target `(-1, -1)`, notifies the allocator and keeps its
layers; the self-managed consumer of scenario 1 updates its target layers to `(2, 2)`
and requests a key frame. -/
theorem mayChangeLayers_spec_witness :
    (MayChangeLayers scenarioConsumer false).2 =
      [Effect.mayChangeLayers false, Effect.needBitrateChange] ∧
    (MayChangeLayers scenarioConsumer false).1 = scenarioConsumer ∧
    (MayChangeLayers scenario1Consumer false).2 =
      [Effect.mayChangeLayers false, Effect.keyFrameRequested 1111] ∧
    MayChangeLayers scenario1Consumer false =
      ((UpdateTargetLayers scenario1Consumer (candidateSpatialLayer scenario1Consumer)
          (candidateTemporalLayer scenario1Consumer)).1,
        Effect.mayChangeLayers false ::
          (UpdateTargetLayers scenario1Consumer (candidateSpatialLayer scenario1Consumer)
            (candidateTemporalLayer scenario1Consumer)).2) :=
  ⟨by decide, ((mayChangeLayers_spec scenarioConsumer false).1 rfl).1, by decide,
    ((mayChangeLayers_spec scenario1Consumer false).2 rfl).1 (Or.inl (by decide))⟩

/-- `MayChangeLayers` records its call and changes nothing but the encoding
context. -/
theorem mayChangeLayers_frame (c : SvcConsumer) (force : Bool) :
    Effect.mayChangeLayers force ∈ (MayChangeLayers c force).2 ∧
    (MayChangeLayers c force).1 =
      { c with encodingContext := (MayChangeLayers c force).1.encodingContext } := by
  unfold MayChangeLayers
  dsimp only
  split_ifs
  · exact ⟨by simp, rfl⟩
  · exact ⟨by simp, rfl⟩
  · exact ⟨by simp, updateTargetLayers_frame c _ _⟩
  · exact ⟨by simp, rfl⟩

/-- C23: a `setPreferredLayers` request whose `spatialLayer` is an unsigned number is
accepted, and it invokes `MayChangeLayers(force = true)` exactly when the consumer is
active and the pair of preferred layers after the request differs from the pair held
before it; the call is then made on the consumer with the new preferences. Otherwise
the only call is `Accept`, the encoding context with the target layers is untouched
and the allocator is not notified. -/
theorem setPreferredLayers_may_change (c : SvcConsumer) (n : Nat) (tp : Option Json) :
    (HandleRequest c
      (Request.setPreferredLayers (some (Json.numberUnsigned n)) tp)).thrown = none ∧
    (Effect.mayChangeLayers true ∈ (HandleRequest c
        (Request.setPreferredLayers (some (Json.numberUnsigned n)) tp)).effects ↔
      (SvcConsumer.IsActive c = true ∧
        ((HandleRequest c (Request.setPreferredLayers (some (Json.numberUnsigned n))
            tp)).consumer.preferredSpatialLayer ≠ c.preferredSpatialLayer ∨
          (HandleRequest c (Request.setPreferredLayers (some (Json.numberUnsigned n))
            tp)).consumer.preferredTemporalLayer ≠ c.preferredTemporalLayer))) ∧
    (Effect.mayChangeLayers true ∈ (HandleRequest c
        (Request.setPreferredLayers (some (Json.numberUnsigned n)) tp)).effects →
      (HandleRequest c (Request.setPreferredLayers (some (Json.numberUnsigned n)) tp)).consumer =
        (MayChangeLayers (writePreferredLayers c n tp) true).1 ∧
      (HandleRequest c (Request.setPreferredLayers (some (Json.numberUnsigned n)) tp)).effects =
        Effect.accept :: (MayChangeLayers (writePreferredLayers c n tp) true).2) ∧
    (Effect.mayChangeLayers true ∉ (HandleRequest c
        (Request.setPreferredLayers (some (Json.numberUnsigned n)) tp)).effects →
      (HandleRequest c (Request.setPreferredLayers (some (Json.numberUnsigned n)) tp)).effects =
        [Effect.accept] ∧
      (HandleRequest c (Request.setPreferredLayers (some (Json.numberUnsigned n))
        tp)).consumer.encodingContext = c.encodingContext ∧
      Effect.needBitrateChange ∉ (HandleRequest c
        (Request.setPreferredLayers (some (Json.numberUnsigned n)) tp)).effects) := by
  have hact : SvcConsumer.IsActive (writePreferredLayers c n tp) = SvcConsumer.IsActive c := by
    simp only [SvcConsumer.IsActive, Consumer.IsActive, writePreferredLayers]
  have hctx : (writePreferredLayers c n tp).encodingContext = c.encodingContext := by
    simp only [writePreferredLayers]
  have hm := mayChangeLayers_frame (writePreferredLayers c n tp) true
  have hps : (MayChangeLayers (writePreferredLayers c n tp) true).1.preferredSpatialLayer =
      (writePreferredLayers c n tp).preferredSpatialLayer := by
    rw [hm.2]
  have hpt : (MayChangeLayers (writePreferredLayers c n tp) true).1.preferredTemporalLayer =
      (writePreferredLayers c n tp).preferredTemporalLayer := by
    rw [hm.2]
  by_cases h : SvcConsumer.IsActive (writePreferredLayers c n tp) = true ∧
      ((writePreferredLayers c n tp).preferredSpatialLayer ≠ c.preferredSpatialLayer ∨
        (writePreferredLayers c n tp).preferredTemporalLayer ≠ c.preferredTemporalLayer)
  · have hr : HandleRequest c (Request.setPreferredLayers (some (Json.numberUnsigned n)) tp) =
        ⟨(MayChangeLayers (writePreferredLayers c n tp) true).1,
          Effect.accept :: (MayChangeLayers (writePreferredLayers c n tp) true).2, none⟩ := by
      simp only [HandleRequest, unsignedField]
      rw [if_pos h]
    rw [hr]
    dsimp only
    rw [hps, hpt]
    refine ⟨rfl, ⟨fun _ => ⟨hact ▸ h.1, h.2⟩, fun _ => List.mem_cons_of_mem _ hm.1⟩,
      fun _ => ⟨rfl, rfl⟩, fun hn => absurd (List.mem_cons_of_mem _ hm.1) hn⟩
  · have hr : HandleRequest c (Request.setPreferredLayers (some (Json.numberUnsigned n)) tp) =
        ⟨writePreferredLayers c n tp, [Effect.accept], none⟩ := by
      simp only [HandleRequest, unsignedField]
      rw [if_neg h]
    rw [hr]
    dsimp only
    refine ⟨rfl, ⟨fun hin => by simp at hin, fun hc => absurd ⟨hact.symm ▸ hc.1, hc.2⟩ h⟩,
      fun hin => by simp at hin, fun _ => ⟨rfl, hctx, by simp⟩⟩

/-- C23 (witness): on the self-managed consumer of scenario 2, whose preferred layers
are `(1, 1)`, the request `{spatialLayer: 0}` changes the preference to `(0, 1)` and
runs `MayChangeLayers(true)`, and the request `{spatialLayer: 1}` changes nothing and
only accepts. -/
theorem setPreferredLayers_may_change_witness :
    (HandleRequest selfManagedConsumer
      (Request.setPreferredLayers (some (Json.numberUnsigned 0)) none)).effects =
      [Effect.accept, Effect.mayChangeLayers true, Effect.keyFrameRequested 1111] ∧
    (HandleRequest selfManagedConsumer
      (Request.setPreferredLayers (some (Json.numberUnsigned 1)) none)).effects =
      [Effect.accept] ∧
    (HandleRequest selfManagedConsumer
      (Request.setPreferredLayers (some (Json.numberUnsigned 1)) none)).consumer.encodingContext =
      selfManagedConsumer.encodingContext :=
  ⟨by decide,
    ((setPreferredLayers_may_change selfManagedConsumer 1 none).2.2.2 (by decide)).1,
    ((setPreferredLayers_may_change selfManagedConsumer 1 none).2.2.2 (by decide)).2.1⟩

/-! ## Packet fields -/

/-- Lines 601-672 leave the SSRC and the sequence number of the caller's packet as they
were. -/
theorem forwardPacket_packet (k : Collaborators) (c : SvcConsumer) (packet : RtpPacket) :
    (forwardPacket k c packet).packet.ssrc = packet.ssrc ∧
    (forwardPacket k c packet).packet.sequenceNumber = packet.sequenceNumber := by
  unfold forwardPacket
  dsimp only
  split_ifs <;> exact ⟨rfl, rfl⟩

/-- The packets that lines 601-672 pass to the send stream and to the transport are
the rewritten packet, and the sequence manager was asked for its sequence number. -/
theorem forwardPacket_passes_rewritten (k : Collaborators) (c : SvcConsumer)
    (packet p : RtpPacket)
    (h : Effect.receivePacket p ∈ (forwardPacket k c packet).effects ∨
      Effect.sendRtpPacket p ∈ (forwardPacket k c packet).effects) :
    p = rewritePacket c
        { packet with payload := (k.processPayload c.encodingContext packet).payload }
        (c.rtpSeqManager.Input packet.sequenceNumber).2 ∧
    Effect.seqInput packet.sequenceNumber (c.rtpSeqManager.Input packet.sequenceNumber).2 ∈
      (forwardPacket k c packet).effects := by
  by_cases ha : (k.processPayload c.encodingContext packet).accepted = true
  · rw [(forwardPacket_accepted k c packet ha).1] at h ⊢
    refine ⟨?_, by simp⟩
    have hl1 : ∀ s t c1, Effect.receivePacket p ∉ layerEffects s t c1 := by
      intro s t c1
      unfold layerEffects EmitLayersChange
      split_ifs <;> simp
    have hl2 : ∀ s t c1, Effect.sendRtpPacket p ∉ layerEffects s t c1 := by
      intro s t c1
      unfold layerEffects EmitLayersChange
      split_ifs <;> simp
    rcases h with h | h
    · simp only [List.mem_append, hl1, false_or] at h
      rcases h with h | h
      · simp at h
        exact h
      · split_ifs at h <;> simp at h
    · simp only [List.mem_append, hl2, false_or] at h
      rcases h with h | h
      · simp at h
      · split_ifs at h
        · simp at h
          exact h
        · simp at h
  · have ha0 : (k.processPayload c.encodingContext packet).accepted = false := by
      simpa using ha
    rw [(forwardPacket_rejected k c packet ha0).1] at h
    simp at h

/-- C24: `SendRtpPacket` leaves the SSRC and the sequence number of the caller's packet
as they were before the call, for every packet and every consumer state, whether the
send stream accepts the rewritten packet or refuses it; every packet that the call
passes to the send stream or to the transport carries the configured encoding SSRC
and the sequence number that `SeqManager.Input` produced for the packet. A packet
that passes the gates and the payload inspection is passed to the send stream so
rewritten, and to the transport exactly when the send stream accepts it. -/
theorem sendRtpPacket_restores (k : Collaborators) (c : SvcConsumer) (packet : RtpPacket) :
    (SendRtpPacket k c packet).packet.ssrc = packet.ssrc ∧
    (SendRtpPacket k c packet).packet.sequenceNumber = packet.sequenceNumber ∧
    (∀ p, Effect.receivePacket p ∈ (SendRtpPacket k c packet).effects ∨
        Effect.sendRtpPacket p ∈ (SendRtpPacket k c packet).effects →
      p.ssrc = c.encodingSsrc ∧
      p.sequenceNumber =
        ((syncSequence c packet).rtpSeqManager.Input packet.sequenceNumber).2 ∧
      Effect.seqInput packet.sequenceNumber p.sequenceNumber ∈
        (SendRtpPacket k c packet).effects) ∧
    (passesGates c packet → (k.processPayload c.encodingContext packet).accepted = true →
      Effect.receivePacket (packetForSendStream k c packet) ∈
        (SendRtpPacket k c packet).effects ∧
      (Effect.sendRtpPacket (packetForSendStream k c packet) ∈
          (SendRtpPacket k c packet).effects ↔
        (k.receivePacket c.rtpStream (packetForSendStream k c packet)).1 = true)) := by
  by_cases hg : passesGates c packet
  · have hf := syncSequence_fields c packet
    have hp := forwardPacket_packet k (syncSequence c packet) packet
    rw [sendRtpPacket_passed k c packet hg]
    dsimp only
    refine ⟨hp.1, hp.2, ?_, ?_⟩
    · intro p h
      have hs : ∀ e ∈ syncEffects c packet, ∃ base, e = Effect.seqSync base := by
        intro e he
        unfold syncEffects at he
        split_ifs at he <;> simp at he
        exact ⟨_, he⟩
      have h1 : Effect.receivePacket p ∈ (forwardPacket k (syncSequence c packet) packet).effects ∨
          Effect.sendRtpPacket p ∈ (forwardPacket k (syncSequence c packet) packet).effects := by
        rcases h with h | h
        · rcases List.mem_append.1 h with h | h
          · obtain ⟨b, hb⟩ := hs _ h
            cases hb
          · exact Or.inl h
        · rcases List.mem_append.1 h with h | h
          · obtain ⟨b, hb⟩ := hs _ h
            cases hb
          · exact Or.inr h
      have h2 := forwardPacket_passes_rewritten k (syncSequence c packet) packet p h1
      have hseq : p.sequenceNumber =
          ((syncSequence c packet).rtpSeqManager.Input packet.sequenceNumber).2 := by
        rw [h2.1]
        rfl
      refine ⟨?_, hseq, ?_⟩
      · rw [h2.1]
        exact hf.2.2.1
      · rw [hseq]
        exact List.mem_append_right _ h2.2
    · intro _ ha
      have ha1 : (k.processPayload (syncSequence c packet).encodingContext packet).accepted =
          true := by rw [hf.1]; exact ha
      have hpk : rewritePacket (syncSequence c packet)
          { packet with
            payload := (k.processPayload (syncSequence c packet).encodingContext packet).payload }
          ((syncSequence c packet).rtpSeqManager.Input packet.sequenceNumber).2 =
          packetForSendStream k c packet := by
        unfold packetForSendStream rewritePacket
        rw [hf.1, hf.2.2.1]
      rw [(forwardPacket_accepted k (syncSequence c packet) packet ha1).1, hpk, hf.2.1]
      constructor
      · simp
      · have hs : Effect.sendRtpPacket (packetForSendStream k c packet) ∉ syncEffects c packet := by
          unfold syncEffects
          split_ifs <;> simp
        have hl : ∀ s t c1, Effect.sendRtpPacket (packetForSendStream k c packet) ∉
            layerEffects s t c1 := by
          intro s t c1
          unfold layerEffects EmitLayersChange
          split_ifs <;> simp
        by_cases hr : (k.receivePacket c.rtpStream (packetForSendStream k c packet)).1 = true
        · simp [hr]
        · simp [hr, hs, hl]
  · rw [sendRtpPacket_blocked k c packet hg]
    exact ⟨rfl, rfl, fun p h => by simp at h, fun h => absurd h hg⟩

/-- C24 (witness): the key frame 100 of scenario 1, SSRC 7777, at a consumer that needs
a re-sync. With a send stream that accepts, the transport gets the packet with the
SSRC 2222 and the sequence number 1 that `Input` produced; with a send stream that
refuses, only the send stream sees that packet. In both cases the caller's packet keeps
the SSRC 7777 and the sequence number 100. -/
theorem sendRtpPacket_restores_witness :
    (SendRtpPacket targetFilter resyncingConsumer (scenario1Packet true 100)).effects =
      [Effect.seqSync 99, Effect.seqInput 100 1,
        Effect.receivePacket { scenario1Packet true 100 with ssrc := 2222, sequenceNumber := 1 },
        Effect.sendRtpPacket
          { scenario1Packet true 100 with ssrc := 2222, sequenceNumber := 1 }] ∧
    (SendRtpPacket refusingStream resyncingConsumer (scenario1Packet true 100)).effects =
      [Effect.seqSync 99, Effect.seqInput 100 1,
        Effect.receivePacket
          { scenario1Packet true 100 with ssrc := 2222, sequenceNumber := 1 }] ∧
    (SendRtpPacket targetFilter resyncingConsumer (scenario1Packet true 100)).packet.ssrc =
      7777 ∧
    (SendRtpPacket refusingStream resyncingConsumer (scenario1Packet true 100)).packet.ssrc =
      7777 ∧
    (SendRtpPacket refusingStream resyncingConsumer
      (scenario1Packet true 100)).packet.sequenceNumber = 100 :=
  ⟨by decide, by decide,
    (sendRtpPacket_restores targetFilter resyncingConsumer (scenario1Packet true 100)).1,
    (sendRtpPacket_restores refusingStream resyncingConsumer (scenario1Packet true 100)).1,
    (sendRtpPacket_restores refusingStream resyncingConsumer (scenario1Packet true 100)).2.1⟩

/-! ## Allocation round -/

/-- Conversion to `int16_t` of a value that fits. -/
theorem toInt16_of_range (z : Int) (h0 : 0 ≤ z) (h1 : z ≤ 32767) : toInt16 z = z := by
  unfold toInt16
  omega

/-- The inner loop of `UseAvailableBitrate` keeps the chosen pair within the preferred
pair, in a row that is not above the preferred spatial layer and from a counter that
has not passed the preferred temporal layer of that row. -/
theorem useTemporalLoop_within (p : RtpStreamRecv) (ps pt : Int) (vb : Nat) (s : Int)
    (hs0 : 0 ≤ s) :
    ∀ (k t : Nat) (w : Provisional), t + k ≤ 32767 →
      (s < ps ∨ (s = ps ∧ (t : Int) ≤ pt)) →
      withinPreferred ps pt w.spatialLayer w.temporalLayer →
      withinPreferred ps pt (useTemporalLoop p ps pt vb s k t w).1.spatialLayer
        (useTemporalLoop p ps pt vb s k t w).1.temporalLayer := by
  intro k
  induction k with
  | zero => intro t w _ _ hw; exact hw
  | succ k ih =>
    intro t w hk hrow hw
    have ht : toInt16 (t : Int) = (t : Int) := toInt16_of_range _ (by omega) (by omega)
    simp only [useTemporalLoop]
    rw [ht]
    split_ifs with h1 h2 h3
    · exact hw
    · exact hw
    · right
      exact ⟨hs0, Int.natCast_nonneg t, hrow⟩
    · apply ih (t + 1) _ (by omega)
      · rcases hrow with hrow | ⟨hrow, hle⟩
        · exact Or.inl hrow
        · right
          refine ⟨hrow, ?_⟩
          have hne : (t : Int) ≠ pt := fun hh => h3 ⟨hrow, hh⟩
          push_cast
          omega
      · right
        exact ⟨hs0, Int.natCast_nonneg t, hrow⟩

/-- The outer loop of `UseAvailableBitrate` keeps the chosen pair within the preferred
pair. -/
theorem useSpatialLoop_within (p : RtpStreamRecv) (ps pt : Int) (vb : Nat)
    (hpt : 0 ≤ pt) (hT : p.temporalLayers ≤ 32767) :
    ∀ (k idx : Nat) (w : Provisional), idx + k ≤ 32767 → (idx : Int) ≤ ps →
      withinPreferred ps pt w.spatialLayer w.temporalLayer →
      withinPreferred ps pt (useSpatialLoop p ps pt vb k idx w).spatialLayer
        (useSpatialLoop p ps pt vb k idx w).temporalLayer := by
  intro k
  induction k with
  | zero => intro idx w _ _ hw; exact hw
  | succ k ih =>
    intro idx w hk hidx hw
    have hi : toInt16 (idx : Int) = (idx : Int) := toInt16_of_range _ (by omega) (by omega)
    have hrow : (idx : Int) < ps ∨ ((idx : Int) = ps ∧ ((0 : Nat) : Int) ≤ pt) := by
      rcases lt_or_eq_of_le hidx with h | h
      · exact Or.inl h
      · exact Or.inr ⟨h, by simpa using hpt⟩
    have hr := useTemporalLoop_within p ps pt vb (idx : Int) (by omega) p.temporalLayers 0 w
      (by omega) hrow hw
    simp only [useSpatialLoop]
    rw [hi]
    split_ifs with h1 h2
    · exact hr
    · exact hr
    · apply ih (idx + 1) _ (by omega) _ hr
      push_cast
      omega

/-- After `UseAvailableBitrate` the provisional pair is within the preferred pair. -/
theorem useProvisional_within (c : SvcConsumer)
    (hfit : ∀ p, c.producerRtpStream = some p → p.layersFit)
    (hps : 0 ≤ c.preferredSpatialLayer) (hpt : 0 ≤ c.preferredTemporalLayer) (vb : Nat) :
    withinPreferred c.preferredSpatialLayer c.preferredTemporalLayer
        (useProvisional c vb).spatialLayer (useProvisional c vb).temporalLayer ∧
    (0 ≤ (useProvisional c vb).spatialLayer → c.producerRtpStream.isSome = true) := by
  unfold useProvisional
  cases hp : c.producerRtpStream with
  | none =>
    refine ⟨Or.inl ⟨rfl, rfl⟩, fun h => ?_⟩
    have h1 : (0 : Int) ≤ -1 := h
    omega
  | some p =>
    have hf := hfit p hp
    refine ⟨?_, fun _ => rfl⟩
    dsimp only
    split_ifs
    · exact Or.inl ⟨rfl, rfl⟩
    · exact useSpatialLoop_within p c.preferredSpatialLayer c.preferredTemporalLayer vb hpt
        hf.2 p.spatialLayers 0 ⟨-1, -1, 0⟩ (by have := hf.1; omega) (by simpa using hps)
        (Or.inl ⟨rfl, rfl⟩)

/-- Lines 504-528 keep the provisional pair within the preferred pair when the pair of
the step is within it. -/
theorem increaseTo_within (c : SvcConsumer) (p : RtpStreamRecv) (bitrate vb : Nat) (s t : Int)
    (hp : c.producerRtpStream = some p) (hinv : c.ProvisionalWithinPreferred)
    (hst : withinPreferred c.preferredSpatialLayer c.preferredTemporalLayer s t) :
    (increaseTo c p bitrate vb s t).1.ProvisionalWithinPreferred ∧
    c.SameButProvisional (increaseTo c p bitrate vb s t).1 := by
  unfold increaseTo SvcConsumer.SameButProvisional
  dsimp only
  split_ifs
  · exact ⟨hinv, rfl⟩
  · refine ⟨⟨hst, fun _ => ?_⟩, rfl⟩
    show c.producerRtpStream.isSome = true
    rw [hp]
    rfl

/-- One `IncreaseLayer` call on an active externally-managed consumer whose provisional
pair is within the preferred pair returns, keeps the pair within the preferred pair
and changes nothing but the provisional layers. -/
theorem increaseLayer_within (fa : FloatArith) (c : SvcConsumer) (bitrate : Nat)
    (hext : c.externallyManagedBitrate = true) (hact : Consumer.IsActive c = true)
    (hfit : ∀ p, c.producerRtpStream = some p → p.layersFit)
    (hps : 0 ≤ c.preferredSpatialLayer) (hpt : 0 ≤ c.preferredTemporalLayer)
    (hinv : c.ProvisionalWithinPreferred) :
    ∃ c1 r, IncreaseLayer fa c bitrate = some (c1, r) ∧ c1.ProvisionalWithinPreferred ∧
      c.SameButProvisional c1 := by
  have hsame : c.SameButProvisional c := rfl
  unfold IncreaseLayer
  simp only [hext, hact, Bool.not_true, Bool.false_eq_true, if_false]
  by_cases hpref : c.provisionalTargetSpatialLayer = c.preferredSpatialLayer ∧
      c.provisionalTargetTemporalLayer = c.preferredTemporalLayer
  · rw [if_pos hpref]
    exact ⟨c, 0, rfl, hinv, hsame⟩
  · rw [if_neg hpref]
    cases hp : c.producerRtpStream with
    | none =>
      have hs : c.provisionalTargetSpatialLayer = -1 := by
        rcases hinv.1 with h | h
        · exact h.1
        · have := hinv.2 h.1
          rw [hp] at this
          cases this
      simp only [hs, if_true]
      exact ⟨c, 0, rfl, hinv, hsame⟩
    | some p =>
      have hT := (hfit p hp).2
      dsimp only
      have hstep : ∀ s t, increaseStep c p = some (s, t) →
          withinPreferred c.preferredSpatialLayer c.preferredTemporalLayer s t := by
        intro s t h
        unfold increaseStep at h
        dsimp only at h
        by_cases h1 : c.provisionalTargetSpatialLayer = -1
        · rw [if_pos h1] at h
          split_ifs at h
          simp only [Option.some.injEq, Prod.mk.injEq] at h
          rw [← h.1, ← h.2]
          right
          refine ⟨le_refl _, le_refl _, ?_⟩
          omega
        · rw [if_neg h1] at h
          rcases hinv.1 with hi | ⟨hi0, hi1, hi2⟩
          · exact absurd hi.1 h1
          · by_cases h2 : c.provisionalTargetTemporalLayer < (p.temporalLayers : Int) - 1
            · rw [if_pos h2] at h
              rw [toInt16_of_range _ (by omega) (by omega)] at h
              simp only [Option.some.injEq, Prod.mk.injEq] at h
              rw [← h.1, ← h.2]
              right
              refine ⟨hi0, by omega, ?_⟩
              rcases hi2 with hi2 | ⟨hi2, hi3⟩
              · exact Or.inl hi2
              · right
                refine ⟨hi2, ?_⟩
                have hne : c.provisionalTargetTemporalLayer ≠ c.preferredTemporalLayer :=
                  fun hh => hpref ⟨hi2, hh⟩
                omega
            · rw [if_neg h2] at h
              split_ifs at h
              simp only [Option.some.injEq, Prod.mk.injEq] at h
              rw [← h.1, ← h.2]
              right
              refine ⟨hi0, le_refl _, ?_⟩
              rcases hi2 with hi2 | ⟨hi2, _⟩
              · exact Or.inl hi2
              · exact Or.inr ⟨hi2, hpt⟩
      cases hst : increaseStep c p with
      | none => exact ⟨c, 0, rfl, hinv, hsame⟩
      | some st =>
        obtain ⟨s, t⟩ := st
        have hw := increaseTo_within c p bitrate
          (virtualBitrate fa c.rtpStream.lossPercentage bitrate) s t hp hinv (hstep s t hst)
        exact ⟨_, _, rfl, hw.1, hw.2⟩

/-- Successive `IncreaseLayer` calls keep the provisional pair within the preferred
pair and the preferred pair as it is. -/
theorem increaseLayers_within (fa : FloatArith) (bitrates : List Nat) :
    ∀ c : SvcConsumer, c.externallyManagedBitrate = true → Consumer.IsActive c = true →
      (∀ p, c.producerRtpStream = some p → p.layersFit) →
      0 ≤ c.preferredSpatialLayer → 0 ≤ c.preferredTemporalLayer →
      c.ProvisionalWithinPreferred →
      ∃ c1, IncreaseLayers fa c bitrates = some c1 ∧ c1.ProvisionalWithinPreferred ∧
        c1.preferredSpatialLayer = c.preferredSpatialLayer ∧
        c1.preferredTemporalLayer = c.preferredTemporalLayer := by
  induction bitrates with
  | nil =>
    intro c _ _ _ _ _ hinv
    exact ⟨c, rfl, hinv, rfl, rfl⟩
  | cons bitrate rest ih =>
    intro c hext hact hfit hps hpt hinv
    obtain ⟨c1, r, h1, hinv1, hframe⟩ :=
      increaseLayer_within fa c bitrate hext hact hfit hps hpt hinv
    unfold SvcConsumer.SameButProvisional at hframe
    have hext1 : c1.externallyManagedBitrate = true := by rw [hframe]; exact hext
    have hact1 : Consumer.IsActive c1 = true := by rw [hframe]; exact hact
    have hprod : c1.producerRtpStream = c.producerRtpStream := by rw [hframe]
    have hps1 : c1.preferredSpatialLayer = c.preferredSpatialLayer := by rw [hframe]
    have hpt1 : c1.preferredTemporalLayer = c.preferredTemporalLayer := by rw [hframe]
    obtain ⟨c2, h2, hinv2, hps2, hpt2⟩ := ih c1 hext1 hact1
      (fun p hp => hfit p (hprod ▸ hp)) (hps1 ▸ hps) (hpt1 ▸ hpt) hinv1
    refine ⟨c2, ?_, hinv2, hps2.trans hps1, hpt2.trans hpt1⟩
    simp only [IncreaseLayers, h1]
    exact h2

/-- C25: within one allocation round on an active externally-managed consumer whose
preferred layers are at least `(0, 0)`, after `UseAvailableBitrate` and after each of
any number of following `IncreaseLayer` calls (every call returns), the provisional
layers are `(-1, -1)` or a pair `(s, t)` with `s >= 0`, `t >= 0` that is
lexicographically at most `(preferredSpatialLayer, preferredTemporalLayer)`, the
producer stream is present whenever `s >= 0`, and the preferred layers are those
of the start of the round. -/
theorem allocation_round_within_preferred (fa : FloatArith) (c : SvcConsumer) (bitrate : Nat)
    (bitrates : List Nat)
    (hext : c.externallyManagedBitrate = true) (hact : Consumer.IsActive c = true)
    (hfit : ∀ p, c.producerRtpStream = some p → p.layersFit)
    (hps : 0 ≤ c.preferredSpatialLayer) (hpt : 0 ≤ c.preferredTemporalLayer) :
    ∃ c1, allocationRound fa c bitrate bitrates = some c1 ∧
      ((c1.provisionalTargetSpatialLayer = -1 ∧ c1.provisionalTargetTemporalLayer = -1) ∨
        (0 ≤ c1.provisionalTargetSpatialLayer ∧ 0 ≤ c1.provisionalTargetTemporalLayer ∧
          (c1.provisionalTargetSpatialLayer < c.preferredSpatialLayer ∨
            (c1.provisionalTargetSpatialLayer = c.preferredSpatialLayer ∧
              c1.provisionalTargetTemporalLayer ≤ c.preferredTemporalLayer)))) ∧
      (0 ≤ c1.provisionalTargetSpatialLayer → c1.producerRtpStream.isSome = true) ∧
      c1.preferredSpatialLayer = c.preferredSpatialLayer ∧
      c1.preferredTemporalLayer = c.preferredTemporalLayer := by
  have hu := useProvisional_within c hfit hps hpt
    (virtualBitrate fa c.rtpStream.lossPercentage bitrate)
  have huse : UseAvailableBitrate fa c bitrate =
      some ({ c with
          provisionalTargetSpatialLayer :=
            (useProvisional c (virtualBitrate fa c.rtpStream.lossPercentage bitrate)).spatialLayer
          provisionalTargetTemporalLayer :=
            (useProvisional c
              (virtualBitrate fa c.rtpStream.lossPercentage bitrate)).temporalLayer },
        recomputeUsedBitrate
          (useProvisional c (virtualBitrate fa c.rtpStream.lossPercentage bitrate)).usedBitrate
          bitrate (virtualBitrate fa c.rtpStream.lossPercentage bitrate)) := by
    unfold UseAvailableBitrate
    simp only [hext, hact, Bool.not_true, Bool.false_eq_true, if_false]
  obtain ⟨c1, h1, hinv1, hps1, hpt1⟩ := increaseLayers_within fa bitrates _
    (show ({ c with
        provisionalTargetSpatialLayer :=
          (useProvisional c (virtualBitrate fa c.rtpStream.lossPercentage bitrate)).spatialLayer
        provisionalTargetTemporalLayer :=
          (useProvisional c
            (virtualBitrate fa c.rtpStream.lossPercentage bitrate)).temporalLayer } :
        SvcConsumer).externallyManagedBitrate = true from hext)
    hact hfit hps hpt ⟨hu.1, hu.2⟩
  refine ⟨c1, ?_, ?_, hinv1.2, hps1, hpt1⟩
  · simp only [allocationRound, huse]
    exact h1
  · have h := hinv1.1
    rw [hps1, hpt1] at h
    exact h

/-- C25 (witness): scenario 2 and 3, preferred layers `(1, 1)`. `UseAvailableBitrate`
with 500 kbps leaves the provisional pair `(1, 0)`, a following `IncreaseLayer` with
900 kbps moves it to `(1, 1)` and a further call leaves it there. -/
theorem allocation_round_within_preferred_witness :
    (allocationRound exactArith scenarioConsumer 500000 []).map
      (fun c => (c.provisionalTargetSpatialLayer, c.provisionalTargetTemporalLayer)) =
      some (1, 0) ∧
    (allocationRound exactArith scenarioConsumer 500000 [900000, 900000]).map
      (fun c => (c.provisionalTargetSpatialLayer, c.provisionalTargetTemporalLayer)) =
      some (1, 1) ∧
    ∃ c1, allocationRound exactArith scenarioConsumer 500000 [900000, 900000] = some c1 ∧
      ((c1.provisionalTargetSpatialLayer = -1 ∧ c1.provisionalTargetTemporalLayer = -1) ∨
        (0 ≤ c1.provisionalTargetSpatialLayer ∧ 0 ≤ c1.provisionalTargetTemporalLayer ∧
          (c1.provisionalTargetSpatialLayer < scenarioConsumer.preferredSpatialLayer ∨
            (c1.provisionalTargetSpatialLayer = scenarioConsumer.preferredSpatialLayer ∧
              c1.provisionalTargetTemporalLayer ≤ scenarioConsumer.preferredTemporalLayer)))) ∧
      (0 ≤ c1.provisionalTargetSpatialLayer → c1.producerRtpStream.isSome = true) ∧
      c1.preferredSpatialLayer = scenarioConsumer.preferredSpatialLayer ∧
      c1.preferredTemporalLayer = scenarioConsumer.preferredTemporalLayer :=
  ⟨by decide, by decide,
    allocation_round_within_preferred exactArith scenarioConsumer 500000 [900000, 900000]
      rfl rfl
      (fun p hp => by
        have h : scenarioProducer = p := Option.some.inj hp
        rw [← h]
        exact ⟨by decide, by decide⟩)
      (by decide) (by decide)⟩

/-! ## `FeedbackPsFirItem` -/

namespace RTCP

/-- The bytes of a 32-bit value that is put together from four bytes. -/
theorem littleEndianBytes_of_bytes (a b c d : Nat) (ha : a < 256) (hb : b < 256)
    (hc : c < 256) (hd : d < 256) :
    littleEndianBytes (a * 2 ^ 24 + b * 2 ^ 16 + c * 2 ^ 8 + d) = [d, c, b, a] := by
  simp only [littleEndianBytes]
  norm_num
  refine ⟨?_, ?_, ?_, ?_⟩ <;> omega

/-- On either host the bytes stored for `htonl(x)` are the big-endian bytes of `x`. -/
theorem storedUInt32_htonl (order : ByteOrder) (x : Nat) (hx : x < 2 ^ 32) :
    storedUInt32 order (htonl order x) = bigEndianBytes x := by
  cases order with
  | littleEndian =>
    simp only [storedUInt32, htonl]
    rw [littleEndianBytes_of_bytes _ _ _ _ (Nat.mod_lt _ (by norm_num))
      (Nat.mod_lt _ (by norm_num)) (Nat.mod_lt _ (by norm_num)) (Nat.mod_lt _ (by norm_num))]
    rfl
  | bigEndian =>
    simp only [storedUInt32, htonl]
    rw [Nat.mod_eq_of_lt hx]

/-- Writing bytes within a memory keeps its length. -/
theorem writeBytes_length (memory : List Nat) (offset : Nat) (bytes : List Nat)
    (h : offset + bytes.length ≤ memory.length) :
    (writeBytes memory offset bytes).length = memory.length := by
  unfold writeBytes
  simp only [List.length_append, List.length_take, List.length_drop]
  omega

/-- The byte at index `i` after a write within the memory. -/
theorem writeBytes_getElem? (memory : List Nat) (offset : Nat) (bytes : List Nat) (i : Nat)
    (h : offset + bytes.length ≤ memory.length) :
    (writeBytes memory offset bytes)[i]? =
      if i < offset then memory[i]?
      else if i < offset + bytes.length then bytes[i - offset]? else memory[i]? := by
  unfold writeBytes
  by_cases h1 : i < offset
  · rw [if_pos h1, List.append_assoc, List.getElem?_append_left (by simp; omega)]
    rw [List.getElem?_take]
    simp [h1]
  · rw [if_neg h1, List.append_assoc, List.getElem?_append_right (by simp; omega)]
    have hl : (List.take offset memory).length = offset := by simp; omega
    rw [hl]
    by_cases h2 : i < offset + bytes.length
    · rw [if_pos h2, List.getElem?_append_left (by omega)]
    · rw [if_neg h2, List.getElem?_append_right (by omega), List.getElem?_drop]
      congr 1
      omega

/-- The bytes of the item as the constructor leaves them, on either host. -/
theorem construct_raw (layout : HeaderLayout) (order : ByteOrder) (ssrc sequenceNumber : Nat)
    (hssrc : ssrc < 2 ^ 32) (hseq : sequenceNumber < 2 ^ 8) :
    (FeedbackPsFirItem.construct layout order ssrc sequenceNumber).raw =
      writeBytes (writeBytes (List.replicate layout.size 0) layout.ssrcOffset
        (bigEndianBytes ssrc)) layout.sequenceNumberOffset [sequenceNumber] := by
  unfold FeedbackPsFirItem.construct
  dsimp only
  rw [storedUInt32_htonl order ssrc hssrc, Nat.mod_eq_of_lt (by simpa using hseq)]

/-- C26: for every 32-bit `ssrc` and 8-bit `sequenceNumber`, on either host and for
every layout of `Header` whose two members lie apart within `sizeof(Header)` bytes,
`FeedbackPsFirItem(ssrc, sequenceNumber).Serialize` writes exactly `sizeof(Header)`
bytes at the start of the buffer and returns `sizeof(Header)`; the bytes written
depend on `(ssrc, sequenceNumber)` only: the member `ssrc` holds the SSRC most
significant byte first, the member `sequenceNumber` the sequence number, and every
other byte is zero. With the 8-byte layout of a FIR entry the bytes are the SSRC in
network byte order, the sequence number and three zero bytes, and 8 is returned. -/
theorem serialize_spec (layout : HeaderLayout) (ssrc sequenceNumber : Nat)
    (hwf : layout.WellFormed) (hssrc : ssrc < 2 ^ 32) (hseq : sequenceNumber < 2 ^ 8) :
    ∃ out : List Nat, out.length = layout.size ∧
      (∀ i, i < layout.size → out[i]? = some
        (if layout.ssrcOffset ≤ i ∧ i < layout.ssrcOffset + 4 then
          ((bigEndianBytes ssrc)[i - layout.ssrcOffset]?).getD 0
        else if i = layout.sequenceNumberOffset then sequenceNumber else 0)) ∧
      (layout = wireLayout →
        out = [ssrc / 2 ^ 24 % 256, ssrc / 2 ^ 16 % 256, ssrc / 2 ^ 8 % 256, ssrc % 256,
          sequenceNumber, 0, 0, 0]) ∧
      ∀ (order : ByteOrder) (buffer : List Nat), layout.size ≤ buffer.length →
        FeedbackPsFirItem.Serialize layout
            (FeedbackPsFirItem.construct layout order ssrc sequenceNumber) buffer =
          some (out ++ buffer.drop layout.size, layout.size) := by
  obtain ⟨h1, h2, h3⟩ := hwf
  have hbe : (bigEndianBytes ssrc).length = 4 := rfl
  have hlen1 : (writeBytes (List.replicate layout.size 0) layout.ssrcOffset
      (bigEndianBytes ssrc)).length = layout.size := by
    rw [writeBytes_length _ _ _ (by simp; omega)]
    simp
  have hlen : (writeBytes (writeBytes (List.replicate layout.size 0) layout.ssrcOffset
      (bigEndianBytes ssrc)) layout.sequenceNumberOffset [sequenceNumber]).length =
      layout.size := by
    rw [writeBytes_length _ _ _ (by rw [hlen1]; simp; omega), hlen1]
  refine ⟨_, hlen, ?_, ?_, ?_⟩
  · intro i hi
    rw [writeBytes_getElem? _ _ _ _ (by rw [hlen1]; simp; omega),
      writeBytes_getElem? _ _ _ _ (by simp; omega)]
    simp only [List.length_singleton, hbe]
    by_cases hs : layout.ssrcOffset ≤ i ∧ i < layout.ssrcOffset + 4
    · rw [if_pos hs]
      have hget : (bigEndianBytes ssrc)[i - layout.ssrcOffset]? =
          some (((bigEndianBytes ssrc)[i - layout.ssrcOffset]?).getD 0) := by
        have hlt : i - layout.ssrcOffset < (bigEndianBytes ssrc).length := by rw [hbe]; omega
        rw [List.getElem?_eq_getElem hlt]
        rfl
      have hne : i ≠ layout.sequenceNumberOffset := by omega
      by_cases hq : i < layout.sequenceNumberOffset
      · rw [if_pos hq, if_neg (by omega), if_pos hs.2]
        exact hget
      · rw [if_neg hq, if_neg (by omega), if_neg (by omega), if_pos hs.2]
        exact hget
    · rw [if_neg hs]
      by_cases hq : i = layout.sequenceNumberOffset
      · rw [if_pos hq, if_neg (by omega), if_pos (by omega)]
        simp [hq]
      · rw [if_neg hq]
        have hz : (List.replicate layout.size 0)[i]? = some 0 := by
          rw [List.getElem?_replicate]
          simp [hi]
        have hinner : (if i < layout.ssrcOffset then (List.replicate layout.size 0)[i]?
            else if i < layout.ssrcOffset + 4 then (bigEndianBytes ssrc)[i - layout.ssrcOffset]?
            else (List.replicate layout.size 0)[i]?) = some 0 := by
          by_cases ha : i < layout.ssrcOffset
          · rw [if_pos ha, hz]
          · rw [if_neg ha, if_neg (by omega), hz]
        by_cases hlt : i < layout.sequenceNumberOffset
        · rw [if_pos hlt, hinner]
        · rw [if_neg hlt, if_neg (by omega), hinner]
  · intro hl
    subst hl
    rfl
  · intro order buffer hbuf
    unfold FeedbackPsFirItem.Serialize
    rw [if_neg (by omega), construct_raw layout order ssrc sequenceNumber hssrc hseq]
    have htake : ∀ l : List Nat, l.length = layout.size → l.take layout.size = l := by
      intro l hl
      rw [← hl]
      exact List.take_length l
    rw [htake _ hlen]
    generalize writeBytes (writeBytes (List.replicate layout.size 0) layout.ssrcOffset
      (bigEndianBytes ssrc)) layout.sequenceNumberOffset [sequenceNumber] = out at hlen
    simp only [writeBytes, List.take_zero, List.nil_append, Nat.zero_add, hlen]

/-- C26 (witness): the item for the SSRC `0x12345678` and the sequence number 5,
serialized into a buffer of ten bytes `0xFF` on a little-endian and on a big-endian
host: the first 8 bytes are `12 34 56 78 05 00 00 00`, the two last bytes are left and
8 is returned. -/
theorem serialize_spec_witness :
    FeedbackPsFirItem.Serialize wireLayout
        (FeedbackPsFirItem.construct wireLayout ByteOrder.littleEndian 305419896 5)
        (List.replicate 10 255) =
      some ([18, 52, 86, 120, 5, 0, 0, 0, 255, 255], 8) ∧
    FeedbackPsFirItem.Serialize wireLayout
        (FeedbackPsFirItem.construct wireLayout ByteOrder.bigEndian 305419896 5)
        (List.replicate 10 255) =
      some ([18, 52, 86, 120, 5, 0, 0, 0, 255, 255], 8) ∧
    ∃ out : List Nat, out.length = wireLayout.size ∧
      (∀ i, i < wireLayout.size → out[i]? = some
        (if wireLayout.ssrcOffset ≤ i ∧ i < wireLayout.ssrcOffset + 4 then
          ((bigEndianBytes 305419896)[i - wireLayout.ssrcOffset]?).getD 0
        else if i = wireLayout.sequenceNumberOffset then 5 else 0)) ∧
      (wireLayout = wireLayout →
        out = [305419896 / 2 ^ 24 % 256, 305419896 / 2 ^ 16 % 256, 305419896 / 2 ^ 8 % 256,
          305419896 % 256, 5, 0, 0, 0]) ∧
      ∀ (order : ByteOrder) (buffer : List Nat), wireLayout.size ≤ buffer.length →
        FeedbackPsFirItem.Serialize wireLayout
            (FeedbackPsFirItem.construct wireLayout order 305419896 5) buffer =
          some (out ++ buffer.drop wireLayout.size, wireLayout.size) :=
  ⟨by decide, by decide,
    serialize_spec wireLayout 305419896 5 (by decide) (by norm_num) (by norm_num)⟩

end RTCP

end RTC
